import Mathlib

/-!
# Verification of the light-bitcoin script interpreter

A shallow embedding of `script/src/interpreter.rs` from the `light-bitcoin`
repository, together with proofs about the claims of its specification.

Bytes are modelled as `Nat` (the source only ever reads them as unsigned
values), byte strings as `List Nat`.  Fallible code returns the `Res` type
below: `ok`, a structured error, or `panic` (Rust `todo!()`, `unwrap()` and
`assert!` failures).  The hashing primitives and the externally supplied
signature checker are passed in as an `Oracles` record of pure functions,
exactly as the specification treats them ("named pure functions", "a pure
oracle with no memoization").

Helper crates of the repository (stack, script, num, opcode and sighash
codecs) are not part of the interpreter source file; their definitions are
modelled from the specification and are marked `Modelled from the spec:` in
their doc comments.  Everything in `interpreter.rs` itself is translated
directly.
-/

namespace LightBitcoin

/-- A byte string: the source's `Vec<u8>` / `Bytes`. -/
abbrev Bytes := List Nat

/-- The interpreter error taxonomy (`Error` in the source, spec section 7). -/
inductive ScriptError where
  | ScriptSize
  | PushSize
  | StackSize
  | OpCount
  | BadOpcode
  | DisabledOpcode (op : Nat)
  | UnbalancedConditional
  | InvalidStackOperation
  | InvalidAltstackOperation
  | InvalidSplitRange
  | InvalidOperandSize
  | NumberOverflow
  | NegativeLocktime
  | UnsatisfiedLocktime
  | DivisionByZero
  | ImpossibleEncoding
  | Minimaldata
  | EvalFalse
  | Verify
  | EqualVerify
  | NumEqualVerify
  | CheckSigVerify
  | ReturnOpcode
  | SignatureDer
  | SignatureHighS
  | SignatureHashtype
  | SignatureNullDummy
  | SignatureIllegalForkId
  | SignatureMustUseForkId
  | SignaturePushOnly
  | PubkeyType
  | PubkeyCount
  | SigCount
  | DiscourageUpgradableNops
  | DiscourageUpgradableWitnessProgram
  | DiscourageUpgradableOpSuccess
  | WitnessMalleated
  | WitnessMalleatedP2SH
  | WitnessProgramMismatch
  | WitnessProgramWrongLength
  | WitnessProgramWitnessEmpty
  | WitnessUnexpected
  | Cleanstack
  deriving DecidableEq, Repr

/-- Result of a fallible interpreter computation.  `panic` models Rust
aborts: `todo!()`, a failed `unwrap()` and a failed `assert!`. -/
inductive Res (α : Type) where
  | ok : α → Res α
  | err : ScriptError → Res α
  | panic : Res α
  deriving DecidableEq, Repr

/-- Monadic bind for `Res`, mirroring Rust's `?` operator. -/
def Res.bind {α β : Type} : Res α → (α → Res β) → Res β
  | .ok a, f => f a
  | .err e, _ => .err e
  | .panic, _ => .panic

instance : Monad Res where
  pure := Res.ok
  bind := Res.bind

/-- `MAX_SCRIPT_ELEMENT_SIZE` (script crate constant, spec section 3). -/
def MAX_SCRIPT_ELEMENT_SIZE : Nat := 520

/-- `MAX_SCRIPT_SIZE` (script crate constant, spec section 3). -/
def MAX_SCRIPT_SIZE : Nat := 10000

/-- `MAX_OPS_PER_SCRIPT` (script crate constant, spec section 3). -/
def MAX_OPS_PER_SCRIPT : Nat := 201

/-- `MAX_PUBKEYS_PER_MULTISIG` (script crate constant, spec section 4.5). -/
def MAX_PUBKEYS_PER_MULTISIG : Nat := 20

/-- `MAX_STACK_SIZE` (script crate constant, spec sections 3 and 5). -/
def MAX_STACK_SIZE : Nat := 1000

/-- `SEQUENCE_LOCKTIME_DISABLE_FLAG = 1 << 31` (interpreter.rs line 17). -/
def SEQUENCE_LOCKTIME_DISABLE_FLAG : Nat := 2 ^ 31

/-- `ANNEX_TAG = 0x50` (interpreter.rs line 19). -/
def ANNEX_TAG : Nat := 0x50

/-- `SignatureVersion` (sign crate, spec section 3). -/
inductive SignatureVersion where
  | Base
  | WitnessV0
  | ForkId
  | Taproot
  | TapScript
  deriving DecidableEq, Repr

/-- `VerificationFlags` (spec section 3): one boolean per optional consensus
rule.  All flags default to off. -/
structure VerificationFlags where
  verify_p2sh : Bool := false
  verify_strictenc : Bool := false
  verify_dersig : Bool := false
  verify_low_s : Bool := false
  verify_nulldummy : Bool := false
  verify_sigpushonly : Bool := false
  verify_minimaldata : Bool := false
  verify_discourage_upgradable_nops : Bool := false
  verify_cleanstack : Bool := false
  verify_witness : Bool := false
  verify_discourage_upgradable_witness_program : Bool := false
  verify_locktime : Bool := false
  verify_checksequence : Bool := false
  verify_concat : Bool := false
  verify_split : Bool := false
  verify_and : Bool := false
  verify_or : Bool := false
  verify_xor : Bool := false
  verify_div : Bool := false
  verify_mod : Bool := false
  verify_bin2num : Bool := false
  verify_num2bin : Bool := false
  verify_discourage_op_success : Bool := false
  deriving DecidableEq, Repr

/-! ## Pure byte-level validators (interpreter.rs lines 91-311) -/

/-- `is_public_key` (interpreter.rs lines 91-97): 33 bytes starting `0x02`
or `0x03`, or 65 bytes starting `0x04`. -/
def is_public_key (v : Bytes) : Bool :=
  if v.length = 33 then v.getD 0 0 = 2 ∨ v.getD 0 0 = 3
  else if v.length = 65 then v.getD 0 0 = 4
  else false

/-- `is_valid_signature_encoding` (interpreter.rs lines 107-194): strict DER
check of `<30> <total len> <02> <len R> <R> <02> <len S> <S> <hashtype>`.
Each early `return false` of the source is one guard of the `if` chain; byte
indexing uses `getD _ 0`, which agrees with the source because every access
is guarded in bounds by the preceding checks. -/
def is_valid_signature_encoding (sig : Bytes) : Bool :=
  if sig.length < 9 ∨ sig.length > 73 then false
  else if sig.getD 0 0 ≠ 0x30 then false
  else if sig.getD 1 0 ≠ sig.length - 3 then false
  else if sig.getD 3 0 + 5 ≥ sig.length then false
  else if sig.getD 3 0 + sig.getD (sig.getD 3 0 + 5) 0 + 7 ≠ sig.length then false
  else if sig.getD 2 0 ≠ 2 then false
  else if sig.getD 3 0 = 0 then false
  else if sig.getD 4 0 &&& 0x80 ≠ 0 then false
  else if sig.getD 3 0 > 1 ∧ sig.getD 4 0 = 0 ∧ sig.getD 5 0 &&& 0x80 = 0 then false
  else if sig.getD (sig.getD 3 0 + 4) 0 ≠ 2 then false
  else if sig.getD (sig.getD 3 0 + 5) 0 = 0 then false
  else if sig.getD (sig.getD 3 0 + 6) 0 &&& 0x80 ≠ 0 then false
  else if sig.getD (sig.getD 3 0 + 5) 0 > 1 ∧ sig.getD (sig.getD 3 0 + 6) 0 = 0 ∧
      sig.getD (sig.getD 3 0 + 7) 0 &&& 0x80 = 0 then false
  else true

/-- `check_minimal_push` (interpreter.rs lines 276-298).  Opcodes are their
byte values: `OP_0 = 0`, `OP_PUSHBYTES_N = N`, `OP_PUSHDATA1/2/4 = 76/77/78`,
`OP_1NEGATE = 79`, `OP_1 .. OP_16 = 81 .. 96`. -/
def check_minimal_push (data : Bytes) (opcode : Nat) : Bool :=
  if data.isEmpty then opcode = 0
  else if data.length = 1 ∧ 1 ≤ data.getD 0 0 ∧ data.getD 0 0 ≤ 16 then
    opcode = 81 + (data.getD 0 0 - 1)
  else if data.length = 1 ∧ data.getD 0 0 = 0x81 then opcode = 79
  else if data.length ≤ 75 then opcode = data.length
  else if data.length ≤ 255 then opcode = 76
  else if data.length ≤ 65535 then opcode = 77
  else true

/-- `cast_to_bool` (interpreter.rs lines 300-311). -/
def cast_to_bool (data : Bytes) : Bool :=
  if data.isEmpty then false
  else if data.dropLast.any (fun x => x ≠ 0) then true
  else
    let last := data.getD (data.length - 1) 0
    ¬ (last = 0 ∨ last = 0x80)

/-! ## Num codec (num crate; spec section 3, "Num")

Modelled from the spec: a `Num` is a signed integer stored as a
variable-length little-endian magnitude with the sign in the top bit of the
last byte; the empty string is zero; the encoding is minimal. -/

/-- Modelled from the spec: little-endian base-256 value of a byte string. -/
def bytesToNatLE : Bytes → Nat
  | [] => 0
  | b :: rest => b + 256 * bytesToNatLE rest

/-- Modelled from the spec: decode sign-magnitude little-endian bytes into
an integer (the sign is the `0x80` bit of the last byte). -/
def decodeNum (data : Bytes) : Int :=
  match data.getLast? with
  | none => 0
  | some last =>
    let mag := bytesToNatLE (data.dropLast ++ [last &&& 0x7f])
    if last &&& 0x80 ≠ 0 then -(mag : Int) else (mag : Int)

/-- Modelled from the spec: the little-endian base-256 digits of a natural
number; `fuel` bounds the recursion (the value shrinks by a factor of 256
each step, so `n` units always suffice). -/
def natDigits256 : Nat → Nat → Bytes
  | 0, _ => []
  | fuel + 1, n => if n = 0 then [] else n % 256 :: natDigits256 fuel (n / 256)

/-- Modelled from the spec: minimal sign-magnitude encoding of an integer
(`Num::to_bytes`): no trailing `0x00`/`0x80` except to disambiguate sign. -/
def numToBytes (n : Int) : Bytes :=
  if n = 0 then []
  else
    let ds := natDigits256 n.natAbs n.natAbs
    match ds.getLast? with
    | none => []
    | some l =>
      if 0x80 ≤ l then ds ++ [if n < 0 then 0x80 else 0]
      else if n < 0 then ds.dropLast ++ [l + 0x80]
      else ds

/-- Modelled from the spec: the minimal-encoding test used by
`Num::from_slice` under `require_minimal`: the last byte may have only its
sign bit set only when the byte before it has its top bit set. -/
def isMinimalNumEncoding (data : Bytes) : Bool :=
  match data.getLast? with
  | none => true
  | some last =>
    if last &&& 0x7f = 0 then
      if data.length ≤ 1 then false
      else data.getD (data.length - 2) 0 &&& 0x80 ≠ 0
    else true

/-- Modelled from the spec: `Num::from_slice(data, require_minimal,
max_size)`: `NumberOverflow` when longer than `max_size` bytes,
`Minimaldata` when a minimal encoding is required but violated, otherwise
the decoded value. -/
def numFromSlice (data : Bytes) (requireMinimal : Bool) (maxSize : Nat) : Res Int :=
  if data.length > maxSize then .err .NumberOverflow
  else if requireMinimal ∧ ¬ isMinimalNumEncoding data then .err .Minimaldata
  else .ok (decodeNum data)

/-- Modelled from the spec: `Num::minimally_encode(data, max_size)`
(spec 4.5, OP_BIN2NUM: "minimal-re-encode bytes to a Num"): decode without
a minimality requirement, fail with `NumberOverflow` when the re-encoded
value does not fit in `max_size` bytes. -/
def minimallyEncode (data : Bytes) (maxSize : Nat) : Res Int :=
  if (numToBytes (decodeNum data)).length > maxSize then .err .NumberOverflow
  else .ok (decodeNum data)

/-! ## Stack operations (stack crate; spec sections 2 and 4.5)

Modelled from the spec: the stack is an ordered sequence of byte strings
with Forth-like positional operations; underflow is
`InvalidStackOperation`.  Here the head of the list is the top of the
stack. -/

/-- Modelled from the spec: `Stack::pop`. -/
def stackPop (s : List Bytes) : Res (Bytes × List Bytes) :=
  match s with
  | [] => .err .InvalidStackOperation
  | x :: r => .ok (x, r)

/-- Modelled from the spec: `Stack::last` (a view of the top element). -/
def stackLast (s : List Bytes) : Res Bytes :=
  match s with
  | [] => .err .InvalidStackOperation
  | x :: _ => .ok x

/-- Modelled from the spec: `Stack::drop(n)` removes the top `n` elements. -/
def stackDrop (s : List Bytes) (n : Nat) : Res (List Bytes) :=
  if s.length < n then .err .InvalidStackOperation else .ok (s.drop n)

/-- Modelled from the spec: `Stack::dup(n)` re-pushes the top `n` elements. -/
def stackDup (s : List Bytes) (n : Nat) : Res (List Bytes) :=
  if s.length < n then .err .InvalidStackOperation else .ok (s.take n ++ s)

/-- Modelled from the spec: `Stack::over(n)` copies the `n` elements below
the top `n` onto the top. -/
def stackOver (s : List Bytes) (n : Nat) : Res (List Bytes) :=
  if s.length < 2 * n then .err .InvalidStackOperation
  else .ok ((s.drop n).take n ++ s)

/-- Modelled from the spec: `Stack::rot(n)` moves the third group of `n`
elements to the top. -/
def stackRot (s : List Bytes) (n : Nat) : Res (List Bytes) :=
  if s.length < 3 * n then .err .InvalidStackOperation
  else .ok ((s.drop (2 * n)).take n ++ s.take (2 * n) ++ s.drop (3 * n))

/-- Modelled from the spec: `Stack::swap(n)` swaps the two top groups of
`n` elements. -/
def stackSwap (s : List Bytes) (n : Nat) : Res (List Bytes) :=
  if s.length < 2 * n then .err .InvalidStackOperation
  else .ok ((s.drop n).take n ++ s.take n ++ s.drop (2 * n))

/-- Modelled from the spec: `Stack::nip` removes the element below the top. -/
def stackNip (s : List Bytes) : Res (List Bytes) :=
  match s with
  | a :: _ :: r => .ok (a :: r)
  | _ => .err .InvalidStackOperation

/-- Modelled from the spec: `Stack::tuck` inserts a copy of the top below
the second element. -/
def stackTuck (s : List Bytes) : Res (List Bytes) :=
  match s with
  | a :: b :: r => .ok (a :: b :: a :: r)
  | _ => .err .InvalidStackOperation

/-- Modelled from the spec: `Stack::top(n)`, the element `n` positions below
the top. -/
def stackTop (s : List Bytes) (n : Nat) : Res Bytes :=
  if n < s.length then .ok (s.getD n []) else .err .InvalidStackOperation

/-- Modelled from the spec: `Stack::remove(n)` extracts the element `n`
positions below the top. -/
def stackRemove (s : List Bytes) (n : Nat) : Res (Bytes × List Bytes) :=
  if n < s.length then .ok (s.getD n [], s.take n ++ s.drop (n + 1))
  else .err .InvalidStackOperation

/-! ## Opcode predicates (opcode crate; spec sections 2 and 4.5)

Opcodes are their byte values; the closed legacy opcode set of the
repository runs from `OP_0 = 0x00` to `OP_NOP10 = 0xb9 = 185`. -/

/-- Modelled from the spec: `Opcode::is_countable` counts only opcodes
beyond `OP_16` (= 96). -/
def isCountable (opcode : Nat) : Bool := 96 < opcode

/-- Modelled from the spec: `Opcode::is_disabled(flags)`: the classical
disabled arithmetic/bit opcodes are fatal unless their fork-specific
feature flag resurrects them (`OP_CAT`/concat, `OP_SUBSTR`/split,
`OP_LEFT`/num2bin, `OP_RIGHT`/bin2num, `OP_AND`/and, `OP_OR`/or,
`OP_XOR`/xor, `OP_DIV`/div, `OP_MOD`/mod; `OP_INVERT`, `OP_2MUL`,
`OP_2DIV`, `OP_MUL`, `OP_LSHIFT`, `OP_RSHIFT` have no resurrection). -/
def isDisabledOp (flags : VerificationFlags) (opcode : Nat) : Bool :=
  if opcode = 126 then ¬ flags.verify_concat
  else if opcode = 127 then ¬ flags.verify_split
  else if opcode = 128 then ¬ flags.verify_num2bin
  else if opcode = 129 then ¬ flags.verify_bin2num
  else if opcode = 131 then true
  else if opcode = 132 then ¬ flags.verify_and
  else if opcode = 133 then ¬ flags.verify_or
  else if opcode = 134 then ¬ flags.verify_xor
  else if opcode = 141 ∨ opcode = 142 then true
  else if opcode = 149 then true
  else if opcode = 150 then ¬ flags.verify_div
  else if opcode = 151 then ¬ flags.verify_mod
  else if opcode = 152 ∨ opcode = 153 then true
  else false

/-- Modelled from the spec: `Opcode::is_success`, the BIP342 `OP_SUCCESSx`
set (80, 98, 126-129, 131-134, 137-138, 141-142, 149-153, 187-254). -/
def isSuccessOp (opcode : Nat) : Bool :=
  opcode = 80 ∨ opcode = 98 ∨ (126 ≤ opcode ∧ opcode ≤ 129) ∨
  (131 ≤ opcode ∧ opcode ≤ 134) ∨ opcode = 137 ∨ opcode = 138 ∨
  opcode = 141 ∨ opcode = 142 ∨ (149 ≤ opcode ∧ opcode ≤ 153) ∨
  (187 ≤ opcode ∧ opcode ≤ 254)

/-! ## Script reading (script crate; spec section 3, "Script") -/

/-- One decoded instruction: `(opcode, optional inline data, step)`
(spec section 3). -/
structure Instruction where
  opcode : Nat
  data : Option Bytes
  step : Nat
  deriving DecidableEq, Repr

/-- Modelled from the spec: `Script::get_opcode(pos)`: the byte at `pos`,
`BadOpcode` when out of range or not a defined opcode byte. -/
def getOpcode (script : Bytes) (pos : Nat) : Res Nat :=
  if pos < script.length then
    let b := script.getD pos 0
    if 185 < b then .err .BadOpcode else .ok b
  else .err .BadOpcode

/-- The width of the length field of `OP_PUSHDATA1/2/4`. -/
def pushDataLen (b : Nat) : Nat := if b = 76 then 1 else if b = 77 then 2 else 4

/-- Modelled from the spec: `Script::get_instruction(pos)`.  `OP_0` and
`OP_PUSHBYTES_N` (bytes 0-75) carry the next `N` inline bytes;
`OP_PUSHDATA1/2/4` (76/77/78) read a 1-, 2- or 4-byte little-endian length
first.  An instruction is well-formed only when its declared push length
fits within the remaining bytes; malformed reads are `BadOpcode`. -/
def getInstruction (script : Bytes) (pos : Nat) : Res Instruction :=
  if pos < script.length then
    if 185 < script.getD pos 0 then .err .BadOpcode
    else if script.getD pos 0 ≤ 75 then
      if pos + 1 + script.getD pos 0 ≤ script.length then
        .ok ⟨script.getD pos 0, some ((script.drop (pos + 1)).take (script.getD pos 0)),
          script.getD pos 0 + 1⟩
      else .err .BadOpcode
    else if script.getD pos 0 = 76 ∨ script.getD pos 0 = 77 ∨ script.getD pos 0 = 78 then
      if pos + 1 + pushDataLen (script.getD pos 0) ≤ script.length then
        if pos + 1 + pushDataLen (script.getD pos 0) +
            bytesToNatLE ((script.drop (pos + 1)).take (pushDataLen (script.getD pos 0))) ≤
              script.length then
          .ok ⟨script.getD pos 0,
            some ((script.drop (pos + 1 + pushDataLen (script.getD pos 0))).take
              (bytesToNatLE
                ((script.drop (pos + 1)).take (pushDataLen (script.getD pos 0))))),
            1 + pushDataLen (script.getD pos 0) +
              bytesToNatLE ((script.drop (pos + 1)).take (pushDataLen (script.getD pos 0)))⟩
        else .err .BadOpcode
      else .err .BadOpcode
    else .ok ⟨script.getD pos 0, none, 1⟩
  else .err .BadOpcode

/-- Modelled from the spec: `Script::subscript(begincode)`, the script from
the last executed `OP_CODESEPARATOR` on. -/
def subscript (script : Bytes) (begincode : Nat) : Bytes := script.drop begincode

/-- Modelled from the spec (section 9, "`find_and_delete` byte surgery"):
plain byte-substring removal of every literal occurrence of `pat`.  An
empty pattern removes nothing (the source's caller always passes a
nonempty `push_data` encoding).  `fuel` bounds the recursion; every step
shortens the list, so its length always suffices. -/
def findAndDeleteAux (pat : Bytes) : Nat → Bytes → Bytes
  | 0, l => l
  | _ + 1, [] => []
  | fuel + 1, b :: rest =>
    if pat.isPrefixOf (b :: rest) ∧ pat ≠ [] then
      findAndDeleteAux pat fuel ((b :: rest).drop pat.length)
    else b :: findAndDeleteAux pat fuel rest

/-- Modelled from the spec: `Script::find_and_delete(pat)`. -/
def findAndDelete (script pat : Bytes) : Bytes :=
  findAndDeleteAux pat script.length script

/-- Modelled from the spec: a little-endian length field of fixed width. -/
def natToBytesLEPad (n width : Nat) : Bytes :=
  (List.range width).map (fun i => n / 256 ^ i % 256)

/-- Modelled from the spec: `Builder::push_data(data)`, the smallest direct
push encoding for a given byte string (spec section 4.3's opcode sizes). -/
def pushData (data : Bytes) : Bytes :=
  if data.length < 76 then data.length :: data
  else if data.length < 256 then 76 :: data.length :: data
  else if data.length < 65536 then 77 :: (natToBytesLEPad data.length 2 ++ data)
  else 78 :: (natToBytesLEPad data.length 4 ++ data)

/-- Modelled from the spec: helper for `Script::is_push_only`; `fuel` bounds
the iteration count (each step advances `pos` by at least one, so
`script.length` steps always suffice). -/
def isPushOnlyAux (script : Bytes) : Nat → Nat → Bool
  | 0, pos => script.length ≤ pos
  | fuel + 1, pos =>
    if pos < script.length then
      match getInstruction script pos with
      | .ok inst =>
        if 96 < inst.opcode then false else isPushOnlyAux script fuel (pos + inst.step)
      | _ => false
    else true

/-- Modelled from the spec: `Script::is_push_only`: every instruction is a
push (opcode at most `OP_16`); a malformed instruction also fails. -/
def is_push_only (script : Bytes) : Bool := isPushOnlyAux script (script.length + 1) 0

/-- Modelled from the spec: `Script::parse_witness_program`: a version
opcode (`OP_0` or `OP_1..OP_16`) followed by one direct push of the 2-40
byte program. -/
def parse_witness_program (script : Bytes) : Option (Nat × Bytes) :=
  if script.length < 4 ∨ 42 < script.length then none
  else
    let b0 := script.getD 0 0
    if b0 ≠ 0 ∧ ¬ (0x51 ≤ b0 ∧ b0 ≤ 0x60) then none
    else if script.getD 1 0 + 2 ≠ script.length then none
    else some (if b0 = 0 then 0 else b0 - 0x50, script.drop 2)

/-- Modelled from the spec: `Script::is_pay_to_script_hash`:
`OP_HASH160 <20 bytes> OP_EQUAL`. -/
def is_pay_to_script_hash (script : Bytes) : Bool :=
  script.length = 23 ∧ script.getD 0 0 = 0xa9 ∧ script.getD 1 0 = 0x14 ∧
    script.getD 22 0 = 0x87

/-! ## Sighash parsing (sign crate; spec section 4.1, "Sighash parsing") -/

/-- Modelled from the spec: the parsed sighash flags
`{single, all, none, anyone_can_pay, fork_id}`. -/
structure Sighash where
  base : Nat
  anyone_can_pay : Bool
  fork_id : Bool
  deriving DecidableEq, Repr

/-- Modelled from the spec: `Sighash::from_u32(version, u)` extracts
`{single, all, none, anyone_can_pay, fork_id}` from the sighash byte: the
base from the low five bits (2 = NONE, 3 = SINGLE, anything else = ALL),
`anyone_can_pay` from bit `0x80` and `fork_id` from bit `0x40`.  The
fork-id bit is read off the byte itself for every version; the strictenc
fork-id mismatch checks of `check_signature_encoding` (which can flag a
fork-id signature under a non-ForkId version as `SignatureIllegalForkId`)
require this. -/
def sighashFromU32 (_version : SignatureVersion) (u : Nat) : Sighash :=
  let m := u &&& 0x1f
  { base := if m = 2 then 2 else if m = 3 then 3 else 1
    anyone_can_pay := u &&& 0x80 ≠ 0
    fork_id := u &&& 0x40 ≠ 0 }

/-- Modelled from the spec: `Sighash::is_defined(version, u)`: after
masking the `anyone_can_pay` bit (and, for the `ForkId` version, the
fork-id bit) the remaining value must be ALL, NONE or SINGLE. -/
def sighashIsDefined (version : SignatureVersion) (u : Nat) : Bool :=
  let masked := if version = SignatureVersion.ForkId then u &&& 0x3f else u &&& 0x7f
  masked = 1 ∨ masked = 2 ∨ masked = 3

/-- `parse_hash_type` (interpreter.rs lines 217-226): the sighash parsed
from the last byte of the signature (0 for an empty signature). -/
def parse_hash_type (version : SignatureVersion) (sig : Bytes) : Sighash :=
  sighashFromU32 version (if sig.isEmpty then 0 else sig.getD (sig.length - 1) 0)

/-- `is_defined_hashtype_signature` (interpreter.rs lines 209-215). -/
def is_defined_hashtype_signature (version : SignatureVersion) (sig : Bytes) : Bool :=
  if sig.isEmpty then false
  else sighashIsDefined version (sig.getD (sig.length - 1) 0)

/-! ## External oracles

The hash primitives (crypto crate), the low-S test and public-key parse
(keys crate) and the externally supplied `SignatureChecker` are pure
functions to the interpreter (spec sections 2, 5 and 6); they are passed in
as a record. -/

/-- The external pure functions the interpreter consumes: hash primitives,
`Signature::check_low_s`, `Public::from_slice`, and the `SignatureChecker`
capability record of spec section 6. -/
structure Oracles where
  sha256 : Bytes → Bytes
  sha1 : Bytes → Bytes
  ripemd160 : Bytes → Bytes
  dhash160 : Bytes → Bytes
  dhash256 : Bytes → Bytes
  checkLowS : Bytes → Bool
  publicFromSlice : Bytes → Option Bytes
  checkerCheckSignature : Bytes → Bytes → Bytes → Nat → SignatureVersion → Bool
  checkerCheckLockTime : Int → Bool
  checkerCheckSequence : Int → Bool

/-- `check_signature` helper (interpreter.rs lines 46-70): parse the public
key, split the trailing sighash byte off the signature and consult the
checker; an unparseable key or an empty signature is simply `false`. -/
def check_signature (o : Oracles) (script_sig public script_code : Bytes)
    (version : SignatureVersion) : Bool :=
  match o.publicFromSlice public with
  | none => false
  | some pk =>
    match script_sig.getLast? with
    | none => false
    | some hash_type =>
      o.checkerCheckSignature script_sig.dropLast pk script_code hash_type version

/-- `is_low_der_signature` (interpreter.rs lines 196-207). -/
def is_low_der_signature (o : Oracles) (sig : Bytes) : Res Unit :=
  if ¬ is_valid_signature_encoding sig then .err .SignatureDer
  else if ¬ o.checkLowS sig then .err .SignatureHighS
  else .ok ()

/-- `check_signature_encoding` (interpreter.rs lines 228-266): the empty
signature is allowed outright; otherwise DER, low-S, defined-hashtype and
fork-id agreement are enforced according to the flags. -/
def check_signature_encoding (o : Oracles) (sig : Bytes) (flags : VerificationFlags)
    (version : SignatureVersion) : Res Unit :=
  if sig.isEmpty then .ok ()
  else if (flags.verify_dersig ∨ flags.verify_low_s ∨ flags.verify_strictenc) ∧
      ¬ is_valid_signature_encoding sig then .err .SignatureDer
  else
    match (if flags.verify_low_s then is_low_der_signature o sig else .ok ()) with
    | .err e => .err e
    | .panic => .panic
    | .ok _ =>
      if flags.verify_strictenc ∧ ¬ is_defined_hashtype_signature version sig then
        .err .SignatureHashtype
      else if flags.verify_strictenc then
        if (parse_hash_type version sig).fork_id ∧ ¬ (version = SignatureVersion.ForkId) then
          .err .SignatureIllegalForkId
        else if ¬ (parse_hash_type version sig).fork_id ∧ version = SignatureVersion.ForkId
          then .err .SignatureMustUseForkId
        else .ok ()
      else .ok ()

/-- `check_pubkey_encoding` (interpreter.rs lines 268-274). -/
def check_pubkey_encoding (v : Bytes) (flags : VerificationFlags) : Res Unit :=
  if flags.verify_strictenc ∧ ¬ is_public_key v then .err .PubkeyType else .ok ()

/-! ## The evaluator (`eval_script`, interpreter.rs lines 658-1406) -/

/-- The per-signature subscript transformation shared by the `OP_CHECKSIG`
arm (interpreter.rs lines 1271-1283) and, per signature, by the
`OP_CHECKMULTISIG` arm (lines 1328-1341): the literal `push_data(signature)`
pattern is removed for the `Base` version and for `ForkId` signatures whose
fork-id bit is clear; `WitnessV0` leaves the subscript untouched; the
`Taproot` and `TapScript` arms are `todo!()` in the source. -/
def signatureSubscript (sub signature : Bytes) (version : SignatureVersion) : Res Bytes :=
  match version with
  | .ForkId =>
    if (parse_hash_type version signature).fork_id then .ok sub
    else .ok (findAndDelete sub (pushData signature))
  | .WitnessV0 => .ok sub
  | .Base => .ok (findAndDelete sub (pushData signature))
  | .Taproot => .panic
  | .TapScript => .panic

/-- The fold of `signatureSubscript` over all popped signatures in the
`OP_CHECKMULTISIG` arm (interpreter.rs lines 1326-1341). -/
def multisigSubscripts (sub : Bytes) (sigs : List Bytes) (version : SignatureVersion) :
    Res Bytes :=
  match sigs with
  | [] => .ok sub
  | sig :: rest =>
    match signatureSubscript sub sig version with
    | .ok sub2 => multisigSubscripts sub2 rest version
    | .err e => .err e
    | .panic => .panic

/-- Pop one stack item and decode it as a 4-byte `Num`
(the ubiquitous `Num::from_slice(&stack.pop()?, flags.verify_minimaldata, 4)?`). -/
def popNum (flags : VerificationFlags) (stack : List Bytes) : Res (Int × List Bytes) :=
  match stack with
  | [] => .err .InvalidStackOperation
  | a :: rest =>
    match numFromSlice a flags.verify_minimaldata 4 with
    | .ok v => .ok (v, rest)
    | .err e => .err e
    | .panic => .panic

/-- The greedy signature/key pairing loop of the `OP_CHECKMULTISIG` arm
(interpreter.rs lines 1343-1360): walk signatures against keys in order; a
successful check advances the signature index, every iteration advances the
key index, and `success` records whether the remaining keys can still cover
the remaining signatures.  `fuel` bounds the iterations (the key index
grows each round, so `keys.length + 1` always suffices); out-of-bounds key
access — unreachable, since `success` forces `k < keys.length` — is the
Rust index panic. -/
def multisigLoop (o : Oracles) (flags : VerificationFlags) (version : SignatureVersion)
    (sub : Bytes) (keys sigs : List Bytes) :
    Nat → Nat → Nat → Bool → Res Bool
  | 0, _, s, success => if s < sigs.length ∧ success then .panic else .ok success
  | fuel + 1, k, s, success =>
    if s < sigs.length ∧ success then
      if k < keys.length then
        match check_signature_encoding o (sigs.getD s []) flags version with
        | .err e => .err e
        | .panic => .panic
        | .ok _ =>
          match check_pubkey_encoding (keys.getD k []) flags with
          | .err e => .err e
          | .panic => .panic
          | .ok _ =>
            if check_signature o (sigs.getD s []) (keys.getD k []) sub version then
              multisigLoop o flags version sub keys sigs fuel (k + 1) (s + 1)
                (decide (sigs.length - (s + 1) ≤ keys.length - (k + 1)))
            else
              multisigLoop o flags version sub keys sigs fuel (k + 1) s
                (decide (sigs.length - s ≤ keys.length - (k + 1)))
      else .panic
    else .ok success

/-- The mutable state of one `eval_script` invocation: main stack,
alt-stack, exec-stack of `IF` branch decisions, program counter, countable
opcode count and the position of the last `OP_CODESEPARATOR`. -/
structure EvalState where
  stack : List Bytes
  altstack : List Bytes
  exec_stack : List Bool
  pc : Nat
  op_count : Nat
  begincode : Nat
  deriving DecidableEq, Repr

/-! ### Opcode arm helpers

Each definition below is one arm of the big `match opcode` of `eval_script`
(interpreter.rs lines 715-1389); `runOpcode` strings them together in the
source's arm order. -/

/-- Push arm (`OP_0`, `OP_PUSHBYTES_*`, `OP_PUSHDATA{1,2,4}`,
interpreter.rs lines 716-798): push the inline data, when present. -/
def opPush (inst : Instruction) (st : EvalState) : Res EvalState :=
  match inst.data with
  | some d => .ok { st with stack := d :: st.stack }
  | none => .ok st

/-- `OP_1NEGATE`/`OP_1`..`OP_16` arm (interpreter.rs lines 799-818): push
`opcode - (OP_1 - 1)` as a `Num`. -/
def opNumPush (opcode : Nat) (st : EvalState) : Res EvalState :=
  .ok { st with stack := numToBytes ((opcode : Int) - 80) :: st.stack }

/-- Common shape of the plain stack-manipulation arms: replace the stack by
the helper's result. -/
def stackArm (st : EvalState) (r : Res (List Bytes)) : Res EvalState :=
  match r with
  | .ok s2 => .ok { st with stack := s2 }
  | .err e => .err e
  | .panic => .panic

/-- `OP_CAT` arm under `verify_concat` (interpreter.rs lines 819-826). -/
def opCat (st : EvalState) : Res EvalState :=
  match st.stack with
  | a :: b :: rest =>
    if b.length + a.length > MAX_SCRIPT_ELEMENT_SIZE then .err .PushSize
    else .ok { st with stack := (b ++ a) :: rest }
  | _ => .err .InvalidStackOperation

/-- `OP_SPLIT` (reinterpreted `OP_SUBSTR`) arm under `verify_split`
(interpreter.rs lines 827-842). -/
def opSplitArm (flags : VerificationFlags) (st : EvalState) : Res EvalState :=
  match popNum flags st.stack with
  | .err e => .err e
  | .panic => .panic
  | .ok (n, rest) =>
    if n < 0 then .err .InvalidStackOperation
    else
      match rest with
      | v :: rest2 =>
        if n.toNat > v.length then .err .InvalidSplitRange
        else .ok { st with stack := v.drop n.toNat :: v.take n.toNat :: rest2 }
      | [] => .err .InvalidStackOperation

/-- Common shape of the `OP_AND`/`OP_OR`/`OP_XOR` arms (interpreter.rs
lines 843-875): bitwise combine two equal-length operands. -/
def bitwiseArm (f : Nat → Nat → Nat) (st : EvalState) : Res EvalState :=
  match st.stack with
  | mask :: v :: rest =>
    if mask.length ≠ v.length then .err .InvalidOperandSize
    else .ok { st with stack := List.zipWith f v mask :: rest }
  | _ => .err .InvalidStackOperation

/-- Common shape of the `OP_DIV`/`OP_MOD` arms (interpreter.rs lines
876-891): `v1` is the top operand, division by zero is rejected. -/
def divModArm (flags : VerificationFlags) (f : Int → Int → Int) (st : EvalState) :
    Res EvalState :=
  match popNum flags st.stack with
  | .err e => .err e
  | .panic => .panic
  | .ok (v1, rest) =>
    match popNum flags rest with
    | .err e => .err e
    | .panic => .panic
    | .ok (v2, rest2) =>
      if v2 = 0 then .err .DivisionByZero
      else .ok { st with stack := numToBytes (f v1 v2) :: rest2 }

/-- `OP_BIN2NUM` (reinterpreted `OP_RIGHT`) arm under `verify_bin2num`
(interpreter.rs lines 892-897). -/
def opBin2Num (st : EvalState) : Res EvalState :=
  match st.stack with
  | [] => .err .InvalidStackOperation
  | bin :: rest =>
    match minimallyEncode bin 4 with
    | .err e => .err e
    | .panic => .panic
    | .ok n => .ok { st with stack := numToBytes n :: rest }

/-- `OP_NUM2BIN` (reinterpreted `OP_LEFT`) arm under `verify_num2bin`
(interpreter.rs lines 898-930): pad the minimally encoded number to the
requested width, relocating the sign bit to the last byte. -/
def opNum2Bin (flags : VerificationFlags) (st : EvalState) : Res EvalState :=
  match popNum flags st.stack with
  | .err e => .err e
  | .panic => .panic
  | .ok (bin_size, rest) =>
    if bin_size < 0 ∨ bin_size > (MAX_SCRIPT_ELEMENT_SIZE : Int) then .err .PushSize
    else
      match rest with
      | [] => .err .InvalidStackOperation
      | nb :: rest2 =>
        match minimallyEncode nb 4 with
        | .err e => .err e
        | .panic => .panic
        | .ok v =>
          if (numToBytes v).length > bin_size.toNat then .err .ImpossibleEncoding
          else if (numToBytes v).length < bin_size.toNat then
            match (numToBytes v).getLast? with
            | none =>
              .ok { st with stack :=
                (List.replicate (bin_size.toNat - 1) 0 ++ [0]) :: rest2 }
            | some lastB =>
              .ok { st with stack :=
                ((numToBytes v).dropLast ++ [lastB &&& 0x7f] ++
                  List.replicate
                    (bin_size.toNat - 1 -
                      ((numToBytes v).dropLast ++ [lastB &&& 0x7f]).length) 0 ++
                  [lastB &&& 0x80]) :: rest2 }
          else .ok { st with stack := numToBytes v :: rest2 }

/-- `OP_CHECKLOCKTIMEVERIFY` arm (interpreter.rs lines 949-980): a 5-byte
`Num` peeked from the stack, rejected when negative, delegated to the
checker; without `verify_locktime` it is a (possibly discouraged) no-op. -/
def opCheckLockTime (o : Oracles) (flags : VerificationFlags) (st : EvalState) :
    Res EvalState :=
  if flags.verify_locktime then
    match st.stack with
    | [] => .err .InvalidStackOperation
    | top :: _ =>
      match numFromSlice top flags.verify_minimaldata 5 with
      | .err e => .err e
      | .panic => .panic
      | .ok lock_time =>
        if lock_time < 0 then .err .NegativeLocktime
        else if ¬ o.checkerCheckLockTime lock_time then .err .UnsatisfiedLocktime
        else .ok st
  else if flags.verify_discourage_upgradable_nops then .err .DiscourageUpgradableNops
  else .ok st

/-- `OP_CHECKSEQUENCEVERIFY` arm (interpreter.rs lines 981-997): as
`OP_CHECKLOCKTIMEVERIFY`, but a set `SEQUENCE_LOCKTIME_DISABLE_FLAG` bit
skips the checker. -/
def opCheckSequence (o : Oracles) (flags : VerificationFlags) (st : EvalState) :
    Res EvalState :=
  if flags.verify_checksequence then
    match st.stack with
    | [] => .err .InvalidStackOperation
    | top :: _ =>
      match numFromSlice top flags.verify_minimaldata 5 with
      | .err e => .err e
      | .panic => .panic
      | .ok sequence =>
        if sequence < 0 then .err .NegativeLocktime
        else if sequence.toNat &&& SEQUENCE_LOCKTIME_DISABLE_FLAG = 0 ∧
            ¬ o.checkerCheckSequence sequence then .err .UnsatisfiedLocktime
        else .ok st
  else if flags.verify_discourage_upgradable_nops then .err .DiscourageUpgradableNops
  else .ok st

/-- `OP_IF`/`OP_NOTIF` arm (interpreter.rs lines 1010-1020): when
executing, pop the condition (an empty stack is `UnbalancedConditional`)
and push its truth (negated for `OP_NOTIF`) onto the exec-stack; when not
executing, push `false`. -/
def opIf (opcode : Nat) (executing : Bool) (st : EvalState) : Res EvalState :=
  if executing then
    match st.stack with
    | [] => .err .UnbalancedConditional
    | v :: rest =>
      .ok { st with stack := rest,
                    exec_stack :=
                      (if opcode = 100 then !(cast_to_bool v) else cast_to_bool v)
                        :: st.exec_stack }
  else .ok { st with exec_stack := false :: st.exec_stack }

/-- `OP_ELSE` arm (interpreter.rs lines 1021-1028). -/
def opElse (st : EvalState) : Res EvalState :=
  match st.exec_stack with
  | [] => .err .UnbalancedConditional
  | b :: rest => .ok { st with exec_stack := (!b) :: rest }

/-- `OP_ENDIF` arm (interpreter.rs lines 1029-1034). -/
def opEndIf (st : EvalState) : Res EvalState :=
  match st.exec_stack with
  | [] => .err .UnbalancedConditional
  | _ :: rest => .ok { st with exec_stack := rest }

/-- `OP_VERIFY` arm (interpreter.rs lines 1035-1040). -/
def opVerifyArm (st : EvalState) : Res EvalState :=
  match st.stack with
  | [] => .err .InvalidStackOperation
  | v :: rest =>
    if ¬ cast_to_bool v then .err .Verify
    else .ok { st with stack := rest }

/-- `OP_TOALTSTACK` arm (interpreter.rs lines 1044-1046). -/
def opToAlt (st : EvalState) : Res EvalState :=
  match st.stack with
  | [] => .err .InvalidStackOperation
  | v :: rest => .ok { st with stack := rest, altstack := v :: st.altstack }

/-- `OP_FROMALTSTACK` arm (interpreter.rs lines 1047-1053). -/
def opFromAlt (st : EvalState) : Res EvalState :=
  match st.altstack with
  | [] => .err .InvalidAltstackOperation
  | v :: rest => .ok { st with stack := v :: st.stack, altstack := rest }

/-- `OP_IFDUP` arm (interpreter.rs lines 1072-1076). -/
def opIfDup (st : EvalState) : Res EvalState :=
  match st.stack with
  | [] => .err .InvalidStackOperation
  | v :: _ =>
    if cast_to_bool v then stackArm st (stackDup st.stack 1)
    else .ok st

/-- `OP_PICK`/`OP_ROLL` arm (interpreter.rs lines 1093-1105): pop the
depth, bounds-check it against the remaining stack, then copy
(`OP_PICK`) or move (`OP_ROLL`) that element to the top. -/
def opPickRoll (flags : VerificationFlags) (opcode : Nat) (st : EvalState) :
    Res EvalState :=
  match popNum flags st.stack with
  | .err e => .err e
  | .panic => .panic
  | .ok (n, rest) =>
    if n < 0 ∨ (rest.length : Int) ≤ n then .err .InvalidStackOperation
    else if opcode = 121 then
      match stackTop rest n.toNat with
      | .err e => .err e
      | .panic => .panic
      | .ok v => .ok { st with stack := v :: rest }
    else
      match stackRemove rest n.toNat with
      | .err e => .err e
      | .panic => .panic
      | .ok (v, rest2) => .ok { st with stack := v :: rest2 }

/-- `OP_EQUAL` arm (interpreter.rs lines 1119-1127): push `[0x01]` on
equality, the empty byte string otherwise. -/
def opEqual (st : EvalState) : Res EvalState :=
  match st.stack with
  | v1 :: v2 :: rest =>
    if v1 = v2 then .ok { st with stack := [1] :: rest }
    else .ok { st with stack := [] :: rest }
  | _ => .err .InvalidStackOperation

/-- `OP_EQUALVERIFY` arm (interpreter.rs lines 1128-1133). -/
def opEqualVerify (st : EvalState) : Res EvalState :=
  match st.stack with
  | v1 :: v2 :: rest =>
    if v1 = v2 then .ok { st with stack := rest }
    else .err .EqualVerify
  | _ => .err .InvalidStackOperation

/-- Common shape of the unary arithmetic arms (interpreter.rs lines
1134-1159): pop one 4-byte `Num`, push `f` of it. -/
def unaryNumArm (flags : VerificationFlags) (f : Int → Int) (st : EvalState) :
    Res EvalState :=
  match popNum flags st.stack with
  | .err e => .err e
  | .panic => .panic
  | .ok (n, rest) => .ok { st with stack := numToBytes (f n) :: rest }

/-- Common shape of the binary arithmetic arms (interpreter.rs lines
1160-1234): pop `v1` (top) and `v2`, push `f v1 v2`. -/
def binaryNumArm (flags : VerificationFlags) (f : Int → Int → Int) (st : EvalState) :
    Res EvalState :=
  match popNum flags st.stack with
  | .err e => .err e
  | .panic => .panic
  | .ok (v1, rest) =>
    match popNum flags rest with
    | .err e => .err e
    | .panic => .panic
    | .ok (v2, rest2) => .ok { st with stack := numToBytes (f v1 v2) :: rest2 }

/-- `OP_NUMEQUALVERIFY` arm (interpreter.rs lines 1188-1194). -/
def opNumEqualVerify (flags : VerificationFlags) (st : EvalState) : Res EvalState :=
  match popNum flags st.stack with
  | .err e => .err e
  | .panic => .panic
  | .ok (v1, rest) =>
    match popNum flags rest with
    | .err e => .err e
    | .panic => .panic
    | .ok (v2, rest2) =>
      if v1 ≠ v2 then .err .NumEqualVerify
      else .ok { st with stack := rest2 }

/-- `OP_WITHIN` arm (interpreter.rs lines 1235-1244): with `v1` the top
pop, pushes `[0x01]` iff `v2 ≤ v3 < v1`. -/
def opWithin (flags : VerificationFlags) (st : EvalState) : Res EvalState :=
  match popNum flags st.stack with
  | .err e => .err e
  | .panic => .panic
  | .ok (v1, rest) =>
    match popNum flags rest with
    | .err e => .err e
    | .panic => .panic
    | .ok (v2, rest2) =>
      match popNum flags rest2 with
      | .err e => .err e
      | .panic => .panic
      | .ok (v3, rest3) =>
        if v2 ≤ v3 ∧ v3 < v1 then .ok { st with stack := [1] :: rest3 }
        else .ok { st with stack := [] :: rest3 }

/-- Common shape of the hash arms (interpreter.rs lines 1245-1264): pop
one item, push its hash. -/
def hashArm (h : Bytes → Bytes) (st : EvalState) : Res EvalState :=
  match st.stack with
  | [] => .err .InvalidStackOperation
  | v :: rest => .ok { st with stack := h v :: rest }

/-- `OP_CHECKSIG`/`OP_CHECKSIGVERIFY` arm (interpreter.rs lines
1268-1302): pop pubkey and signature, transform the subscript
(`signatureSubscript`), check encodings, consult the checker; `OP_CHECKSIG`
pushes `[0x01]`/empty, the verify variant fails with `CheckSigVerify`. -/
def opCheckSig (o : Oracles) (flags : VerificationFlags) (version : SignatureVersion)
    (script : Bytes) (opcode : Nat) (st : EvalState) : Res EvalState :=
  match st.stack with
  | pubkey :: signature :: rest =>
    match signatureSubscript (subscript script st.begincode) signature version with
    | .err e => .err e
    | .panic => .panic
    | .ok sub =>
      match check_signature_encoding o signature flags version with
      | .err e => .err e
      | .panic => .panic
      | .ok _ =>
        match check_pubkey_encoding pubkey flags with
        | .err e => .err e
        | .panic => .panic
        | .ok _ =>
          if opcode = 172 then
            if check_signature o signature pubkey sub version then
              .ok { st with stack := [1] :: rest }
            else .ok { st with stack := [] :: rest }
          else if ¬ check_signature o signature pubkey sub version then
            .err .CheckSigVerify
          else .ok { st with stack := rest }
  | _ => .err .InvalidStackOperation

/-- `OP_CHECKMULTISIG`/`OP_CHECKMULTISIGVERIFY` arm (interpreter.rs lines
1303-1379): pop the key count and keys, the signature count and
signatures, fold the subscript removal over all signatures, run the greedy
pairing loop, pop the legacy dummy (`SignatureNullDummy` when non-empty
under `verify_nulldummy`) and push or verify the verdict. -/
def opCheckMultiSig (o : Oracles) (flags : VerificationFlags)
    (version : SignatureVersion) (script : Bytes) (opcode : Nat) (st : EvalState) :
    Res EvalState :=
  match popNum flags st.stack with
  | .err e => .err e
  | .panic => .panic
  | .ok (keys_count, rest0) =>
    if keys_count < 0 ∨ keys_count > (MAX_PUBKEYS_PER_MULTISIG : Int) then
      .err .PubkeyCount
    else if rest0.length < keys_count.toNat then .err .InvalidStackOperation
    else
      match popNum flags (rest0.drop keys_count.toNat) with
      | .err e => .err e
      | .panic => .panic
      | .ok (sigs_count, rest2) =>
        if sigs_count < 0 ∨ sigs_count > (keys_count.toNat : Int) then .err .SigCount
        else if rest2.length < sigs_count.toNat then .err .InvalidStackOperation
        else
          match multisigSubscripts (subscript script st.begincode)
              (rest2.take sigs_count.toNat) version with
          | .err e => .err e
          | .panic => .panic
          | .ok sub =>
            match multisigLoop o flags version sub (rest0.take keys_count.toNat)
                (rest2.take sigs_count.toNat)
                ((rest0.take keys_count.toNat).length + 1) 0 0 true with
            | .err e => .err e
            | .panic => .panic
            | .ok success =>
              match rest2.drop sigs_count.toNat with
              | [] => .err .InvalidStackOperation
              | dummy :: rest4 =>
                if ¬ dummy.isEmpty ∧ flags.verify_nulldummy then
                  .err .SignatureNullDummy
                else if opcode = 174 then
                  if success then .ok { st with stack := [1] :: rest4 }
                  else .ok { st with stack := [] :: rest4 }
                else if ¬ success then .err .CheckSigVerify
                else .ok { st with stack := rest4 }

/-- One opcode dispatch: the big `match opcode` of `eval_script`
(interpreter.rs lines 715-1389), with the arms in source order.  `st.pc`
has already been advanced past the instruction (the source advances `pc`
before dispatch), so `OP_CODESEPARATOR` records the post-advance position.
The final catch-all of the source is `todo!()`, i.e. `panic` — unreachable
for the closed byte range 0-185 accepted by `getInstruction`. -/
def runOpcode (o : Oracles) (flags : VerificationFlags) (version : SignatureVersion)
    (script : Bytes) (inst : Instruction) (executing : Bool) (st : EvalState) :
    Res EvalState :=
  if inst.opcode ≤ 78 then opPush inst st
  else if inst.opcode = 79 ∨ (81 ≤ inst.opcode ∧ inst.opcode ≤ 96) then
    opNumPush inst.opcode st
  else if inst.opcode = 126 ∧ flags.verify_concat then opCat st
  else if inst.opcode = 127 ∧ flags.verify_split then opSplitArm flags st
  else if inst.opcode = 132 ∧ flags.verify_and then
    bitwiseArm (fun x y => x &&& y) st
  else if inst.opcode = 133 ∧ flags.verify_or then
    bitwiseArm (fun x y => x ||| y) st
  else if inst.opcode = 134 ∧ flags.verify_xor then
    bitwiseArm (fun x y => x ^^^ y) st
  else if inst.opcode = 150 ∧ flags.verify_div then divModArm flags Int.tdiv st
  else if inst.opcode = 151 ∧ flags.verify_mod then divModArm flags Int.tmod st
  else if inst.opcode = 129 ∧ flags.verify_bin2num then opBin2Num st
  else if inst.opcode = 128 ∧ flags.verify_num2bin then opNum2Bin flags st
  else if inst.opcode = 126 ∨ inst.opcode = 127 ∨ inst.opcode = 128 ∨
      inst.opcode = 129 ∨ inst.opcode = 131 ∨ inst.opcode = 132 ∨
      inst.opcode = 133 ∨ inst.opcode = 134 ∨ inst.opcode = 141 ∨
      inst.opcode = 142 ∨ inst.opcode = 149 ∨ inst.opcode = 150 ∨
      inst.opcode = 151 ∨ inst.opcode = 152 ∨ inst.opcode = 153 then
    .err (.DisabledOpcode inst.opcode)
  else if inst.opcode = 97 then .ok st
  else if inst.opcode = 177 then opCheckLockTime o flags st
  else if inst.opcode = 178 then opCheckSequence o flags st
  else if inst.opcode = 176 ∨ (179 ≤ inst.opcode ∧ inst.opcode ≤ 185) then
    if flags.verify_discourage_upgradable_nops then .err .DiscourageUpgradableNops
    else .ok st
  else if inst.opcode = 99 ∨ inst.opcode = 100 then opIf inst.opcode executing st
  else if inst.opcode = 103 then opElse st
  else if inst.opcode = 104 then opEndIf st
  else if inst.opcode = 105 then opVerifyArm st
  else if inst.opcode = 106 then .err .ReturnOpcode
  else if inst.opcode = 107 then opToAlt st
  else if inst.opcode = 108 then opFromAlt st
  else if inst.opcode = 109 then stackArm st (stackDrop st.stack 2)
  else if inst.opcode = 110 then stackArm st (stackDup st.stack 2)
  else if inst.opcode = 111 then stackArm st (stackDup st.stack 3)
  else if inst.opcode = 112 then stackArm st (stackOver st.stack 2)
  else if inst.opcode = 113 then stackArm st (stackRot st.stack 2)
  else if inst.opcode = 114 then stackArm st (stackSwap st.stack 2)
  else if inst.opcode = 115 then opIfDup st
  else if inst.opcode = 116 then
    .ok { st with stack := numToBytes (st.stack.length : Int) :: st.stack }
  else if inst.opcode = 117 then stackArm st (stackDrop st.stack 1)
  else if inst.opcode = 118 then stackArm st (stackDup st.stack 1)
  else if inst.opcode = 119 then stackArm st (stackNip st.stack)
  else if inst.opcode = 120 then stackArm st (stackOver st.stack 1)
  else if inst.opcode = 121 ∨ inst.opcode = 122 then opPickRoll flags inst.opcode st
  else if inst.opcode = 123 then stackArm st (stackRot st.stack 1)
  else if inst.opcode = 124 then stackArm st (stackSwap st.stack 1)
  else if inst.opcode = 125 then stackArm st (stackTuck st.stack)
  else if inst.opcode = 130 then
    match st.stack with
    | [] => .err .InvalidStackOperation
    | v :: _ => .ok { st with stack := numToBytes (v.length : Int) :: st.stack }
  else if inst.opcode = 135 then opEqual st
  else if inst.opcode = 136 then opEqualVerify st
  else if inst.opcode = 139 then unaryNumArm flags (fun n => n + 1) st
  else if inst.opcode = 140 then unaryNumArm flags (fun n => n - 1) st
  else if inst.opcode = 143 then unaryNumArm flags (fun n => -n) st
  else if inst.opcode = 144 then unaryNumArm flags (fun n => |n|) st
  else if inst.opcode = 145 then
    unaryNumArm flags (fun n => if n = 0 then 1 else 0) st
  else if inst.opcode = 146 then
    unaryNumArm flags (fun n => if n ≠ 0 then 1 else 0) st
  else if inst.opcode = 147 then binaryNumArm flags (fun v1 v2 => v1 + v2) st
  else if inst.opcode = 148 then binaryNumArm flags (fun v1 v2 => v2 - v1) st
  else if inst.opcode = 154 then
    binaryNumArm flags (fun v1 v2 => if v1 ≠ 0 ∧ v2 ≠ 0 then 1 else 0) st
  else if inst.opcode = 155 then
    binaryNumArm flags (fun v1 v2 => if v1 ≠ 0 ∨ v2 ≠ 0 then 1 else 0) st
  else if inst.opcode = 156 then
    binaryNumArm flags (fun v1 v2 => if v1 = v2 then 1 else 0) st
  else if inst.opcode = 157 then opNumEqualVerify flags st
  else if inst.opcode = 158 then
    binaryNumArm flags (fun v1 v2 => if v1 ≠ v2 then 1 else 0) st
  else if inst.opcode = 159 then
    binaryNumArm flags (fun v1 v2 => if v1 > v2 then 1 else 0) st
  else if inst.opcode = 160 then
    binaryNumArm flags (fun v1 v2 => if v1 < v2 then 1 else 0) st
  else if inst.opcode = 161 then
    binaryNumArm flags (fun v1 v2 => if v1 ≥ v2 then 1 else 0) st
  else if inst.opcode = 162 then
    binaryNumArm flags (fun v1 v2 => if v1 ≤ v2 then 1 else 0) st
  else if inst.opcode = 163 then binaryNumArm flags min st
  else if inst.opcode = 164 then binaryNumArm flags max st
  else if inst.opcode = 165 then opWithin flags st
  else if inst.opcode = 166 then hashArm o.ripemd160 st
  else if inst.opcode = 167 then hashArm o.sha1 st
  else if inst.opcode = 168 then hashArm o.sha256 st
  else if inst.opcode = 169 then hashArm o.dhash160 st
  else if inst.opcode = 170 then hashArm o.dhash256 st
  else if inst.opcode = 171 then .ok { st with begincode := st.pc }
  else if inst.opcode = 172 ∨ inst.opcode = 173 then
    opCheckSig o flags version script inst.opcode st
  else if inst.opcode = 174 ∨ inst.opcode = 175 then
    opCheckMultiSig o flags version script inst.opcode st
  else if inst.opcode = 80 ∨ inst.opcode = 98 ∨ inst.opcode = 137 ∨
      inst.opcode = 138 then
    if executing then .err (.DisabledOpcode inst.opcode) else .ok st
  else if inst.opcode = 101 ∨ inst.opcode = 102 then
    .err (.DisabledOpcode inst.opcode)
  else .panic

/-- The inline-data checks of the loop body (interpreter.rs lines 689-697):
pushed data beyond 520 bytes is `PushSize`; an executing non-minimal push
under `verify_minimaldata` is `Minimaldata`. -/
def dataSizeCheck (flags : VerificationFlags) (executing : Bool) (inst : Instruction) :
    Res Unit :=
  match inst.data with
  | some d =>
    if d.length > MAX_SCRIPT_ELEMENT_SIZE then .err .PushSize
    else if executing ∧ flags.verify_minimaldata ∧ ¬ check_minimal_push d inst.opcode then
      .err .Minimaldata
    else .ok ()
  | none => .ok ()

/-- One iteration of the `eval_script` loop body (interpreter.rs lines
677-1394): fetch the instruction (skipping a `BadOpcode` read when not
executing), run the inline-data size and minimal-push checks, count and
bound countable opcodes, reject disabled opcodes, advance `pc`, skip the
dispatch when not executing (unless the opcode lies in the
`OP_IF ..= OP_ENDIF` flow-control range 99-104), and finally enforce the
combined stack/alt-stack size limit of 1000 on the dispatch result. -/
def evalStep (o : Oracles) (flags : VerificationFlags) (version : SignatureVersion)
    (script : Bytes) (st : EvalState) : Res EvalState :=
  match getInstruction script st.pc with
  | .err e =>
    if e = .BadOpcode ∧ ¬ (st.exec_stack.all (fun x => x)) then
      .ok { st with pc := st.pc + 1 }
    else .err e
  | .panic => .panic
  | .ok inst =>
    match dataSizeCheck flags (st.exec_stack.all (fun x => x)) inst with
    | .err e => .err e
    | .panic => .panic
    | .ok _ =>
      if isCountable inst.opcode ∧
          (if isCountable inst.opcode then st.op_count + 1 else st.op_count) >
            MAX_OPS_PER_SCRIPT then .err .OpCount
      else if isDisabledOp flags inst.opcode then .err (.DisabledOpcode inst.opcode)
      else if ¬ ((st.exec_stack.all (fun x => x)) ∨
          (99 ≤ inst.opcode ∧ inst.opcode ≤ 104)) then
        .ok { st with pc := st.pc + inst.step,
                      op_count :=
                        if isCountable inst.opcode then st.op_count + 1 else st.op_count }
      else
        match runOpcode o flags version script inst (st.exec_stack.all (fun x => x))
            { st with pc := st.pc + inst.step,
                      op_count :=
                        if isCountable inst.opcode then st.op_count + 1 else st.op_count }
          with
        | .err e => .err e
        | .panic => .panic
        | .ok st3 =>
          if st3.stack.length + st3.altstack.length > MAX_STACK_SIZE then
            .err .StackSize
          else .ok st3

/-- The `while pc < script.len()` loop of `eval_script`.  `fuel` bounds the
iteration count; every iteration strictly advances `pc`, so
`script.length + 1` units always suffice and the fuel-exhaustion `panic` is
unreachable. -/
def evalLoop (o : Oracles) (flags : VerificationFlags) (version : SignatureVersion)
    (script : Bytes) : Nat → EvalState → Res EvalState
  | 0, st => if st.pc < script.length then .panic else .ok st
  | fuel + 1, st =>
    if st.pc < script.length then
      match evalStep o flags version script st with
      | .ok st2 => evalLoop o flags version script fuel st2
      | .err e => .err e
      | .panic => .panic
    else .ok st

/-- `eval_script` (interpreter.rs lines 660-1406).  The head of the stack
list is the top of the stack.  Returns the source's `Ok(success)` verdict
together with the final stack (which the source mutates in place). -/
def eval_script (o : Oracles) (stack : List Bytes) (script : Bytes)
    (flags : VerificationFlags) (version : SignatureVersion) : Res (Bool × List Bytes) :=
  if script.length > MAX_SCRIPT_SIZE then .err .ScriptSize
  else
    match evalLoop o flags version script (script.length + 1) ⟨stack, [], [], 0, 0, 0⟩ with
    | .err e => .err e
    | .panic => .panic
    | .ok st =>
      if st.exec_stack ≠ [] then .err .UnbalancedConditional
      else
        match st.stack with
        | [] => .ok (false, [])
        | top :: rest => .ok (cast_to_bool top, top :: rest)

/-! ## Witness program dispatch (interpreter.rs lines 423-656) -/

/-- The synthesized `DUP HASH160 <program> EQUALVERIFY CHECKSIG` script of
the P2WPKH paths (interpreter.rs lines 516-522 and 600-606). -/
def p2wpkhScript (witness_program : Bytes) : Bytes :=
  0x76 :: 0xa9 :: (pushData witness_program ++ [0x88, 0xac])

/-- The byte-wise `OP_SUCCESSx` scan of `execute_witness_script`
(interpreter.rs lines 432-443); `fuel` bounds the iterations (`pos` grows
each round).  `some b` means the scan decided the result early. -/
def opSuccessScanAux (flags : VerificationFlags) (script : Bytes) :
    Nat → Nat → Res (Option Bool)
  | 0, pos => if pos < script.length then .panic else .ok none
  | fuel + 1, pos =>
    if pos < script.length then
      match getOpcode script pos with
      | .err e => .err e
      | .panic => .panic
      | .ok s =>
        if isSuccessOp s then
          if flags.verify_discourage_op_success then .err .DiscourageUpgradableOpSuccess
          else .ok (some true)
        else opSuccessScanAux flags script fuel (pos + 1)
    else .ok none

/-- `execute_witness_script` (interpreter.rs lines 423-472).  `stackVec` is
in the source's `Vec` order (index 0 at the bottom); the evaluator takes
the reversed list because its head is the top of the stack. -/
def execute_witness_script (o : Oracles) (stackVec : List Bytes) (script : Bytes)
    (flags : VerificationFlags) (version : SignatureVersion) : Res Bool :=
  match (if version = SignatureVersion.TapScript then
           match opSuccessScanAux flags script (script.length + 1) 0 with
           | .err e => .err e
           | .panic => .panic
           | .ok (some b) => .ok (some b)
           | .ok none =>
             if stackVec.length > MAX_STACK_SIZE then .err .StackSize
             else .ok none
         else (.ok none : Res (Option Bool))) with
  | .err e => .err e
  | .panic => .panic
  | .ok (some b) => .ok b
  | .ok none =>
    if stackVec.any (fun s => s.length > MAX_SCRIPT_ELEMENT_SIZE) then .err .PushSize
    else
      match eval_script o stackVec.reverse script flags version with
      | .err e => .err e
      | .panic => .panic
      | .ok (res, fin) =>
        if ¬ res then .ok false
        else if fin.length ≠ 1 then .err .EvalFalse
        else
          match fin with
          | top :: _ => .ok (cast_to_bool top)
          | [] => .panic

/-- The shared tail of `verify_witness_program` after the program match
(interpreter.rs lines 529-552): element-size limit, evaluation under
`WitnessV0`, implicit clean-stack, truthiness of the lone element. -/
def witnessEvalTail (o : Oracles) (stackVec : List Bytes) (script_pubkey : Bytes)
    (flags : VerificationFlags) : Res Bool :=
  if stackVec.any (fun s => s.length > MAX_SCRIPT_ELEMENT_SIZE) then .err .PushSize
  else
    match eval_script o stackVec.reverse script_pubkey flags SignatureVersion.WitnessV0 with
    | .err e => .err e
    | .panic => .panic
    | .ok (res, fin) =>
      if ¬ res then .ok false
      else if fin.length ≠ 1 then .err .EvalFalse
      else
        match fin with
        | top :: _ => .ok (cast_to_bool top)
        | [] => .panic

/-- `verify_witness_program` (interpreter.rs lines 474-553): v0 P2WSH
(32-byte program) and P2WPKH (20-byte program); unknown witness versions
succeed unless discouraged. -/
def verify_witness_program (o : Oracles) (witness : List Bytes) (witness_version : Nat)
    (witness_program : Bytes) (flags : VerificationFlags) : Res Bool :=
  if witness_version ≠ 0 then
    if flags.verify_discourage_upgradable_witness_program then
      .err .DiscourageUpgradableWitnessProgram
    else .ok true
  else if witness_program.length = 32 then
    if witness.length = 0 then .err .WitnessProgramWitnessEmpty
    else if o.sha256 ((witness.getLast?).getD []) ≠ witness_program.take 32 then
      .err .WitnessProgramMismatch
    else
      witnessEvalTail o (witness.take (witness.length - 1)) ((witness.getLast?).getD [])
        flags
  else if witness_program.length = 20 then
    if witness.length ≠ 2 then .err .WitnessProgramMismatch
    else witnessEvalTail o witness (p2wpkhScript witness_program) flags
  else .err .WitnessProgramWrongLength

/-- `verify_witnessv1_program` (interpreter.rs lines 556-656).  The v1
taproot branch requires a 32-byte program with `verify_p2sh` off, drops the
annex when the source's condition holds — the source tests the last byte of
the *witness program* against `ANNEX_TAG`, not the first byte of the last
witness element — and keys the key-path/script-path decision on the
*pre-annex* witness stack length.  The source also binds
`script = &stack[stack.len() - 1]` in the script path but never uses it. -/
def verify_witnessv1_program (o : Oracles) (witness : List Bytes) (witness_version : Nat)
    (witness_program : Bytes) (flags : VerificationFlags) : Res Bool :=
  let n := witness.length
  if witness_version = 0 then
    if witness_program.length = 32 then
      if n = 0 then .err .WitnessProgramWitnessEmpty
      else
        let script_pubkey := (witness.getLast?).getD []
        let stackVec := witness.take (n - 1)
        if o.sha256 script_pubkey ≠ witness_program.take 32 then
          .err .WitnessProgramMismatch
        else execute_witness_script o stackVec script_pubkey flags SignatureVersion.WitnessV0
    else if witness_program.length = 20 then
      if n ≠ 2 then .err .WitnessProgramMismatch
      else
        execute_witness_script o witness (p2wpkhScript witness_program) flags
          SignatureVersion.WitnessV0
    else .err .WitnessProgramWrongLength
  else if witness_version = 1 ∧ witness_program.length = 32 ∧ ¬ flags.verify_p2sh then
    if n = 0 then .err .WitnessProgramWitnessEmpty
    else
      let stackVec :=
        if 2 ≤ n ∧ (witness.getLast?).isSome ∧ witness_program.getLast? = some ANNEX_TAG
        then witness.take (n - 1)
        else witness
      if n = 1 then .ok true
      else
        match stackVec.getLast? with
        | none => .panic
        | some control =>
          if control.length < 33 ∨ 4129 < control.length ∨
              (control.length - 33) % 32 ≠ 0 then .err .WitnessProgramWrongLength
          else .ok true
  else
    if flags.verify_discourage_upgradable_witness_program then
      .err .DiscourageUpgradableWitnessProgram
    else .ok true

/-! ## The verify envelope (`verify_script`, interpreter.rs lines 313-421) -/

/-- The segwit dispatch step of `verify_script` (interpreter.rs lines
341-355): when `verify_witness` is set and the scriptPubKey parses as a
witness program, the scriptSig must be empty, the witness program runs, and
on success the pair `(had_witness, verify_cleanstack)` becomes
`(true, false)`. -/
def verifyWitnessStage (o : Oracles) (script_sig script_pubkey : Bytes)
    (witness : List Bytes) (flags : VerificationFlags) : Res (Bool × Bool) :=
  if flags.verify_witness then
    match parse_witness_program script_pubkey with
    | some (wv, wp) =>
      if ¬ script_sig.isEmpty then .err .WitnessMalleated
      else
        match verify_witness_program o witness wv wp flags with
        | .err e => .err e
        | .panic => .panic
        | .ok okw => if ¬ okw then .err .EvalFalse else .ok (true, false)
    | none => .ok (false, flags.verify_cleanstack)
  else .ok (false, flags.verify_cleanstack)

/-- The P2SH unwrap step of `verify_script` (interpreter.rs lines 357-396):
restore the post-scriptSig stack, pop the redeem script (the source asserts
it exists), evaluate it, and re-check a nested witness program, in which
case the scriptSig must be the single push of the redeem script.  Returns
the updated `(had_witness, verify_cleanstack, stack)`. -/
def verifyP2shStage (o : Oracles) (script_sig script_pubkey : Bytes)
    (witness : List Bytes) (flags : VerificationFlags) (version : SignatureVersion)
    (stack stack_copy : List Bytes) (had_witness clean : Bool) :
    Res (Bool × Bool × List Bytes) :=
  if flags.verify_p2sh ∧ is_pay_to_script_hash script_pubkey then
    if ¬ is_push_only script_sig then .err .SignaturePushOnly
    else
      match stack_copy with
      | [] => .panic
      | pubkey2 :: rest =>
        match eval_script o rest pubkey2 flags version with
        | .err e => .err e
        | .panic => .panic
        | .ok (res, stack3) =>
          if ¬ res then .err .EvalFalse
          else if flags.verify_witness then
            match parse_witness_program pubkey2 with
            | some (wv, wp) =>
              if script_sig ≠ pushData pubkey2 then .err .WitnessMalleatedP2SH
              else
                match verify_witness_program o witness wv wp flags with
                | .err e => .err e
                | .panic => .panic
                | .ok okw =>
                  if ¬ okw then .err .EvalFalse else .ok (true, false, stack3)
            | none => .ok (had_witness, clean, stack3)
          else .ok (had_witness, clean, stack3)
  else .ok (had_witness, clean, stack)

/-- `verify_script` (interpreter.rs lines 313-421): sig-push-only check,
scriptSig and scriptPubKey evaluation, segwit dispatch, P2SH unwrap,
clean-stack check (asserting `verify_p2sh`), unexpected-witness check
(asserting `verify_p2sh`). -/
def verify_script (o : Oracles) (script_sig script_pubkey : Bytes)
    (witness : List Bytes) (flags : VerificationFlags) (version : SignatureVersion) :
    Res Unit :=
  if flags.verify_sigpushonly ∧ ¬ is_push_only script_sig then .err .SignaturePushOnly
  else
    match eval_script o [] script_sig flags version with
    | .err e => .err e
    | .panic => .panic
    | .ok (_r1, stack1) =>
      match eval_script o stack1 script_pubkey flags version with
      | .err e => .err e
      | .panic => .panic
      | .ok (res, stack2) =>
        if ¬ res then .err .EvalFalse
        else
          match verifyWitnessStage o script_sig script_pubkey witness flags with
          | .err e => .err e
          | .panic => .panic
          | .ok (had1, clean1) =>
            match verifyP2shStage o script_sig script_pubkey witness flags version
                stack2 (if flags.verify_p2sh then stack1 else []) had1 clean1 with
            | .err e => .err e
            | .panic => .panic
            | .ok (had2, clean2, finalStack) =>
              match (if clean2 then
                       if ¬ flags.verify_p2sh then .panic
                       else if finalStack.length ≠ 1 then .err .Cleanstack
                       else .ok ()
                     else (.ok () : Res Unit)) with
              | .err e => .err e
              | .panic => .panic
              | .ok _ =>
                if flags.verify_witness then
                  if ¬ flags.verify_p2sh then .panic
                  else if ¬ had2 ∧ witness ≠ [] then .err .WitnessUnexpected
                  else .ok ()
                else .ok ()

/-- A concrete instantiation of the external oracles, used to evaluate the
embedding on closed inputs (the claims under test never depend on actual
hash or signature values). -/
def dummyOracles : Oracles where
  sha256 := fun _ => []
  sha1 := fun _ => []
  ripemd160 := fun _ => []
  dhash160 := fun _ => []
  dhash256 := fun _ => []
  checkLowS := fun _ => true
  publicFromSlice := fun v => some v
  checkerCheckSignature := fun _ _ _ _ _ => false
  checkerCheckLockTime := fun _ => true
  checkerCheckSequence := fun _ => true

/-! ## Specification-side predicates

These definitions transcribe claim statements (the specification's words,
not the source); the claim theorems compare them with the embedded source
functions above. -/

/-- The specification's characterization of a strict-DER signature (spec
section 4.1, claim C2): length in `[9, 73]`; leading byte `0x30`; declared
total length `len - 3`; two `0x02`-tagged integers `R` and `S` whose
declared lengths exactly fill the signature; each nonempty, first byte with
high bit clear, and no leading zero byte unless the next byte has its high
bit set. -/
def DerSpec (sig : Bytes) : Prop :=
  9 ≤ sig.length ∧ sig.length ≤ 73 ∧
  sig.getD 0 0 = 0x30 ∧
  sig.getD 1 0 = sig.length - 3 ∧
  sig.getD 2 0 = 2 ∧
  sig.getD (sig.getD 3 0 + 4) 0 = 2 ∧
  sig.getD 3 0 + sig.getD (sig.getD 3 0 + 5) 0 + 7 = sig.length ∧
  1 ≤ sig.getD 3 0 ∧
  1 ≤ sig.getD (sig.getD 3 0 + 5) 0 ∧
  sig.getD 4 0 &&& 0x80 = 0 ∧
  sig.getD (sig.getD 3 0 + 6) 0 &&& 0x80 = 0 ∧
  (1 < sig.getD 3 0 ∧ sig.getD 4 0 = 0 → sig.getD 5 0 &&& 0x80 ≠ 0) ∧
  (1 < sig.getD (sig.getD 3 0 + 5) 0 ∧ sig.getD (sig.getD 3 0 + 6) 0 = 0 →
    sig.getD (sig.getD 3 0 + 7) 0 &&& 0x80 ≠ 0)

/-- The specification's minimal-push table (spec section 4.3, claim C7),
amended in its final case: for data longer than 65535 bytes the source
accepts **every** opcode (its final branch is `true`), not only
`OP_PUSHDATA4`. -/
def minimalPushSpec (data : Bytes) (opcode : Nat) : Prop :=
  if data = [] then opcode = 0
  else if data.length = 1 ∧ 1 ≤ data.getD 0 0 ∧ data.getD 0 0 ≤ 16 then
    opcode = 80 + data.getD 0 0
  else if data.length = 1 ∧ data.getD 0 0 = 0x81 then opcode = 79
  else if data.length ≤ 75 then opcode = data.length
  else if data.length ≤ 255 then opcode = 76
  else if data.length ≤ 65535 then opcode = 77
  else True


/-! ## Helper lemmas

`eval_script` (and every helper it calls) never produces the envelope-only
`Cleanstack` error; these lemmas carry that fact through every layer.  They
support the claim that a witness-consuming `verify_script` run never
returns `Cleanstack`. -/

theorem Res.err_name {α : Type} {r : Res α} {e : ScriptError}
    (hne : r ≠ .err .Cleanstack) (heq : r = .err e) : ¬ e = .Cleanstack := by
  intro hc
  subst hc
  exact hne heq

theorem numFromSlice_ne (data : Bytes) (rm : Bool) (ms : Nat) :
    numFromSlice data rm ms ≠ .err .Cleanstack := by
  unfold numFromSlice
  repeat' split
  all_goals simp

theorem popNum_ne (flags : VerificationFlags) (s : List Bytes) :
    popNum flags s ≠ .err .Cleanstack := by
  unfold popNum
  repeat' split
  all_goals try simp
  all_goals solve_by_elim [Res.err_name, numFromSlice_ne]

theorem minimallyEncode_ne (data : Bytes) (ms : Nat) :
    minimallyEncode data ms ≠ .err .Cleanstack := by
  unfold minimallyEncode
  repeat' split
  all_goals simp

theorem is_low_der_signature_ne (o : Oracles) (sig : Bytes) :
    is_low_der_signature o sig ≠ .err .Cleanstack := by
  unfold is_low_der_signature
  repeat' split
  all_goals simp

theorem lowSCheck_ne (o : Oracles) (sig : Bytes) (b : Bool) :
    (if b then is_low_der_signature o sig else .ok ()) ≠ .err .Cleanstack := by
  cases b
  · simp
  · simpa using is_low_der_signature_ne o sig

theorem check_signature_encoding_ne (o : Oracles) (sig : Bytes)
    (flags : VerificationFlags) (version : SignatureVersion) :
    check_signature_encoding o sig flags version ≠ .err .Cleanstack := by
  unfold check_signature_encoding
  repeat' split
  all_goals try simp
  all_goals solve_by_elim [Res.err_name, lowSCheck_ne]

theorem check_pubkey_encoding_ne (v : Bytes) (flags : VerificationFlags) :
    check_pubkey_encoding v flags ≠ .err .Cleanstack := by
  unfold check_pubkey_encoding
  repeat' split
  all_goals simp

theorem signatureSubscript_ne (sub signature : Bytes) (version : SignatureVersion) :
    signatureSubscript sub signature version ≠ .err .Cleanstack := by
  unfold signatureSubscript
  repeat' split
  all_goals simp

theorem multisigSubscripts_ne (sigs : List Bytes) :
    ∀ (sub : Bytes) (version : SignatureVersion),
      multisigSubscripts sub sigs version ≠ .err .Cleanstack := by
  induction sigs with
  | nil =>
    intro sub version
    unfold multisigSubscripts
    simp
  | cons sig rest ih =>
    intro sub version
    unfold multisigSubscripts
    repeat' split
    all_goals try simp
    all_goals solve_by_elim [Res.err_name, signatureSubscript_ne, ih]

theorem multisigLoop_ne (o : Oracles) (flags : VerificationFlags)
    (version : SignatureVersion) (sub : Bytes) (keys sigs : List Bytes) :
    ∀ (fuel k s : Nat) (success : Bool),
      multisigLoop o flags version sub keys sigs fuel k s success ≠ .err .Cleanstack := by
  intro fuel
  induction fuel with
  | zero =>
    intro k s success
    unfold multisigLoop
    split <;> simp
  | succ n ih =>
    intro k s success
    unfold multisigLoop
    repeat' split
    all_goals try simp
    all_goals solve_by_elim [Res.err_name, check_signature_encoding_ne,
      check_pubkey_encoding_ne, ih]

theorem stackDrop_ne (s : List Bytes) (n : Nat) : stackDrop s n ≠ .err .Cleanstack := by
  unfold stackDrop
  split <;> simp

theorem stackDup_ne (s : List Bytes) (n : Nat) : stackDup s n ≠ .err .Cleanstack := by
  unfold stackDup
  split <;> simp

theorem stackOver_ne (s : List Bytes) (n : Nat) : stackOver s n ≠ .err .Cleanstack := by
  unfold stackOver
  split <;> simp

theorem stackRot_ne (s : List Bytes) (n : Nat) : stackRot s n ≠ .err .Cleanstack := by
  unfold stackRot
  split <;> simp

theorem stackSwap_ne (s : List Bytes) (n : Nat) : stackSwap s n ≠ .err .Cleanstack := by
  unfold stackSwap
  split <;> simp

theorem stackNip_ne (s : List Bytes) : stackNip s ≠ .err .Cleanstack := by
  unfold stackNip
  split <;> simp

theorem stackTuck_ne (s : List Bytes) : stackTuck s ≠ .err .Cleanstack := by
  unfold stackTuck
  split <;> simp

theorem stackTop_ne (s : List Bytes) (n : Nat) : stackTop s n ≠ .err .Cleanstack := by
  unfold stackTop
  split <;> simp

theorem stackRemove_ne (s : List Bytes) (n : Nat) : stackRemove s n ≠ .err .Cleanstack := by
  unfold stackRemove
  split <;> simp

theorem opPush_ne (inst : Instruction) (st : EvalState) :
    opPush inst st ≠ .err .Cleanstack := by
  unfold opPush
  split <;> simp

theorem opNumPush_ne (c : Nat) (st : EvalState) : opNumPush c st ≠ .err .Cleanstack := by
  unfold opNumPush
  simp

theorem stackArm_ne (st : EvalState) (r : Res (List Bytes))
    (hr : r ≠ .err .Cleanstack) : stackArm st r ≠ .err .Cleanstack := by
  unfold stackArm
  repeat' split
  all_goals try simp
  all_goals solve_by_elim [Res.err_name]

theorem opCat_ne (st : EvalState) : opCat st ≠ .err .Cleanstack := by
  unfold opCat
  repeat' split
  all_goals simp

theorem opSplitArm_ne (flags : VerificationFlags) (st : EvalState) :
    opSplitArm flags st ≠ .err .Cleanstack := by
  unfold opSplitArm
  repeat' split
  all_goals try simp
  all_goals solve_by_elim [Res.err_name, popNum_ne]

theorem bitwiseArm_ne (f : Nat → Nat → Nat) (st : EvalState) :
    bitwiseArm f st ≠ .err .Cleanstack := by
  unfold bitwiseArm
  repeat' split
  all_goals simp

theorem divModArm_ne (flags : VerificationFlags) (f : Int → Int → Int) (st : EvalState) :
    divModArm flags f st ≠ .err .Cleanstack := by
  unfold divModArm
  repeat' split
  all_goals try simp
  all_goals solve_by_elim [Res.err_name, popNum_ne]

theorem opBin2Num_ne (st : EvalState) : opBin2Num st ≠ .err .Cleanstack := by
  unfold opBin2Num
  repeat' split
  all_goals try simp
  all_goals solve_by_elim [Res.err_name, minimallyEncode_ne]

theorem opNum2Bin_ne (flags : VerificationFlags) (st : EvalState) :
    opNum2Bin flags st ≠ .err .Cleanstack := by
  unfold opNum2Bin
  repeat' split
  all_goals try simp
  all_goals solve_by_elim [Res.err_name, popNum_ne, minimallyEncode_ne]

theorem opCheckLockTime_ne (o : Oracles) (flags : VerificationFlags) (st : EvalState) :
    opCheckLockTime o flags st ≠ .err .Cleanstack := by
  unfold opCheckLockTime
  repeat' split
  all_goals try simp
  all_goals solve_by_elim [Res.err_name, numFromSlice_ne]

theorem opCheckSequence_ne (o : Oracles) (flags : VerificationFlags) (st : EvalState) :
    opCheckSequence o flags st ≠ .err .Cleanstack := by
  unfold opCheckSequence
  repeat' split
  all_goals try simp
  all_goals solve_by_elim [Res.err_name, numFromSlice_ne]

theorem opIf_ne (c : Nat) (executing : Bool) (st : EvalState) :
    opIf c executing st ≠ .err .Cleanstack := by
  unfold opIf
  repeat' split
  all_goals simp

theorem opElse_ne (st : EvalState) : opElse st ≠ .err .Cleanstack := by
  unfold opElse
  split <;> simp

theorem opEndIf_ne (st : EvalState) : opEndIf st ≠ .err .Cleanstack := by
  unfold opEndIf
  split <;> simp

theorem opVerifyArm_ne (st : EvalState) : opVerifyArm st ≠ .err .Cleanstack := by
  unfold opVerifyArm
  repeat' split
  all_goals simp

theorem opToAlt_ne (st : EvalState) : opToAlt st ≠ .err .Cleanstack := by
  unfold opToAlt
  split <;> simp

theorem opFromAlt_ne (st : EvalState) : opFromAlt st ≠ .err .Cleanstack := by
  unfold opFromAlt
  split <;> simp

theorem opIfDup_ne (st : EvalState) : opIfDup st ≠ .err .Cleanstack := by
  unfold opIfDup
  repeat' split
  all_goals try simp
  all_goals solve_by_elim [stackArm_ne, stackDup_ne]

theorem opPickRoll_ne (flags : VerificationFlags) (c : Nat) (st : EvalState) :
    opPickRoll flags c st ≠ .err .Cleanstack := by
  unfold opPickRoll
  repeat' split
  all_goals try simp
  all_goals solve_by_elim [Res.err_name, popNum_ne, stackTop_ne, stackRemove_ne]

theorem opEqual_ne (st : EvalState) : opEqual st ≠ .err .Cleanstack := by
  unfold opEqual
  repeat' split
  all_goals simp

theorem opEqualVerify_ne (st : EvalState) : opEqualVerify st ≠ .err .Cleanstack := by
  unfold opEqualVerify
  repeat' split
  all_goals simp

theorem unaryNumArm_ne (flags : VerificationFlags) (f : Int → Int) (st : EvalState) :
    unaryNumArm flags f st ≠ .err .Cleanstack := by
  unfold unaryNumArm
  repeat' split
  all_goals try simp
  all_goals solve_by_elim [Res.err_name, popNum_ne]

theorem binaryNumArm_ne (flags : VerificationFlags) (f : Int → Int → Int)
    (st : EvalState) : binaryNumArm flags f st ≠ .err .Cleanstack := by
  unfold binaryNumArm
  repeat' split
  all_goals try simp
  all_goals solve_by_elim [Res.err_name, popNum_ne]

theorem opNumEqualVerify_ne (flags : VerificationFlags) (st : EvalState) :
    opNumEqualVerify flags st ≠ .err .Cleanstack := by
  unfold opNumEqualVerify
  repeat' split
  all_goals try simp
  all_goals solve_by_elim [Res.err_name, popNum_ne]

theorem opWithin_ne (flags : VerificationFlags) (st : EvalState) :
    opWithin flags st ≠ .err .Cleanstack := by
  unfold opWithin
  repeat' split
  all_goals try simp
  all_goals solve_by_elim [Res.err_name, popNum_ne]

theorem hashArm_ne (h : Bytes → Bytes) (st : EvalState) :
    hashArm h st ≠ .err .Cleanstack := by
  unfold hashArm
  split <;> simp

theorem opCheckSig_ne (o : Oracles) (flags : VerificationFlags)
    (version : SignatureVersion) (script : Bytes) (c : Nat) (st : EvalState) :
    opCheckSig o flags version script c st ≠ .err .Cleanstack := by
  unfold opCheckSig
  repeat' split
  all_goals try simp
  all_goals solve_by_elim [Res.err_name, signatureSubscript_ne,
    check_signature_encoding_ne, check_pubkey_encoding_ne]

theorem opCheckMultiSig_ne (o : Oracles) (flags : VerificationFlags)
    (version : SignatureVersion) (script : Bytes) (c : Nat) (st : EvalState) :
    opCheckMultiSig o flags version script c st ≠ .err .Cleanstack := by
  unfold opCheckMultiSig
  repeat' split
  all_goals try simp
  all_goals solve_by_elim [Res.err_name, popNum_ne, multisigSubscripts_ne,
    multisigLoop_ne]

set_option maxHeartbeats 2000000 in
theorem runOpcode_ne (o : Oracles) (flags : VerificationFlags)
    (version : SignatureVersion) (script : Bytes) (inst : Instruction)
    (executing : Bool) (st : EvalState) :
    runOpcode o flags version script inst executing st ≠ .err .Cleanstack := by
  unfold runOpcode
  by_cases g1 : inst.opcode ≤ 78
  · rw [if_pos g1]
    first
      | (simp; done)
      | (split <;> simp
         done)
      | solve_by_elim [opPush_ne, opNumPush_ne, opCat_ne, opSplitArm_ne,
          bitwiseArm_ne, divModArm_ne, opBin2Num_ne, opNum2Bin_ne, opCheckLockTime_ne,
          opCheckSequence_ne, opIf_ne, opElse_ne, opEndIf_ne, opVerifyArm_ne, opToAlt_ne,
          opFromAlt_ne, opIfDup_ne, opPickRoll_ne, opEqual_ne, opEqualVerify_ne,
          unaryNumArm_ne, binaryNumArm_ne, opNumEqualVerify_ne, opWithin_ne, hashArm_ne,
          opCheckSig_ne, opCheckMultiSig_ne, stackArm_ne, stackDrop_ne, stackDup_ne,
          stackOver_ne, stackRot_ne, stackSwap_ne, stackNip_ne, stackTuck_ne]
  rw [if_neg g1]
  by_cases g2 : inst.opcode = 79 ∨ (81 ≤ inst.opcode ∧ inst.opcode ≤ 96)
  · rw [if_pos g2]
    first
      | (simp; done)
      | (split <;> simp
         done)
      | solve_by_elim [opPush_ne, opNumPush_ne, opCat_ne, opSplitArm_ne,
          bitwiseArm_ne, divModArm_ne, opBin2Num_ne, opNum2Bin_ne, opCheckLockTime_ne,
          opCheckSequence_ne, opIf_ne, opElse_ne, opEndIf_ne, opVerifyArm_ne, opToAlt_ne,
          opFromAlt_ne, opIfDup_ne, opPickRoll_ne, opEqual_ne, opEqualVerify_ne,
          unaryNumArm_ne, binaryNumArm_ne, opNumEqualVerify_ne, opWithin_ne, hashArm_ne,
          opCheckSig_ne, opCheckMultiSig_ne, stackArm_ne, stackDrop_ne, stackDup_ne,
          stackOver_ne, stackRot_ne, stackSwap_ne, stackNip_ne, stackTuck_ne]
  rw [if_neg g2]
  by_cases g3 : inst.opcode = 126 ∧ flags.verify_concat
  · rw [if_pos g3]
    first
      | (simp; done)
      | (split <;> simp
         done)
      | solve_by_elim [opPush_ne, opNumPush_ne, opCat_ne, opSplitArm_ne,
          bitwiseArm_ne, divModArm_ne, opBin2Num_ne, opNum2Bin_ne, opCheckLockTime_ne,
          opCheckSequence_ne, opIf_ne, opElse_ne, opEndIf_ne, opVerifyArm_ne, opToAlt_ne,
          opFromAlt_ne, opIfDup_ne, opPickRoll_ne, opEqual_ne, opEqualVerify_ne,
          unaryNumArm_ne, binaryNumArm_ne, opNumEqualVerify_ne, opWithin_ne, hashArm_ne,
          opCheckSig_ne, opCheckMultiSig_ne, stackArm_ne, stackDrop_ne, stackDup_ne,
          stackOver_ne, stackRot_ne, stackSwap_ne, stackNip_ne, stackTuck_ne]
  rw [if_neg g3]
  by_cases g4 : inst.opcode = 127 ∧ flags.verify_split
  · rw [if_pos g4]
    first
      | (simp; done)
      | (split <;> simp
         done)
      | solve_by_elim [opPush_ne, opNumPush_ne, opCat_ne, opSplitArm_ne,
          bitwiseArm_ne, divModArm_ne, opBin2Num_ne, opNum2Bin_ne, opCheckLockTime_ne,
          opCheckSequence_ne, opIf_ne, opElse_ne, opEndIf_ne, opVerifyArm_ne, opToAlt_ne,
          opFromAlt_ne, opIfDup_ne, opPickRoll_ne, opEqual_ne, opEqualVerify_ne,
          unaryNumArm_ne, binaryNumArm_ne, opNumEqualVerify_ne, opWithin_ne, hashArm_ne,
          opCheckSig_ne, opCheckMultiSig_ne, stackArm_ne, stackDrop_ne, stackDup_ne,
          stackOver_ne, stackRot_ne, stackSwap_ne, stackNip_ne, stackTuck_ne]
  rw [if_neg g4]
  by_cases g5 : inst.opcode = 132 ∧ flags.verify_and
  · rw [if_pos g5]
    first
      | (simp; done)
      | (split <;> simp
         done)
      | solve_by_elim [opPush_ne, opNumPush_ne, opCat_ne, opSplitArm_ne,
          bitwiseArm_ne, divModArm_ne, opBin2Num_ne, opNum2Bin_ne, opCheckLockTime_ne,
          opCheckSequence_ne, opIf_ne, opElse_ne, opEndIf_ne, opVerifyArm_ne, opToAlt_ne,
          opFromAlt_ne, opIfDup_ne, opPickRoll_ne, opEqual_ne, opEqualVerify_ne,
          unaryNumArm_ne, binaryNumArm_ne, opNumEqualVerify_ne, opWithin_ne, hashArm_ne,
          opCheckSig_ne, opCheckMultiSig_ne, stackArm_ne, stackDrop_ne, stackDup_ne,
          stackOver_ne, stackRot_ne, stackSwap_ne, stackNip_ne, stackTuck_ne]
  rw [if_neg g5]
  by_cases g6 : inst.opcode = 133 ∧ flags.verify_or
  · rw [if_pos g6]
    first
      | (simp; done)
      | (split <;> simp
         done)
      | solve_by_elim [opPush_ne, opNumPush_ne, opCat_ne, opSplitArm_ne,
          bitwiseArm_ne, divModArm_ne, opBin2Num_ne, opNum2Bin_ne, opCheckLockTime_ne,
          opCheckSequence_ne, opIf_ne, opElse_ne, opEndIf_ne, opVerifyArm_ne, opToAlt_ne,
          opFromAlt_ne, opIfDup_ne, opPickRoll_ne, opEqual_ne, opEqualVerify_ne,
          unaryNumArm_ne, binaryNumArm_ne, opNumEqualVerify_ne, opWithin_ne, hashArm_ne,
          opCheckSig_ne, opCheckMultiSig_ne, stackArm_ne, stackDrop_ne, stackDup_ne,
          stackOver_ne, stackRot_ne, stackSwap_ne, stackNip_ne, stackTuck_ne]
  rw [if_neg g6]
  by_cases g7 : inst.opcode = 134 ∧ flags.verify_xor
  · rw [if_pos g7]
    first
      | (simp; done)
      | (split <;> simp
         done)
      | solve_by_elim [opPush_ne, opNumPush_ne, opCat_ne, opSplitArm_ne,
          bitwiseArm_ne, divModArm_ne, opBin2Num_ne, opNum2Bin_ne, opCheckLockTime_ne,
          opCheckSequence_ne, opIf_ne, opElse_ne, opEndIf_ne, opVerifyArm_ne, opToAlt_ne,
          opFromAlt_ne, opIfDup_ne, opPickRoll_ne, opEqual_ne, opEqualVerify_ne,
          unaryNumArm_ne, binaryNumArm_ne, opNumEqualVerify_ne, opWithin_ne, hashArm_ne,
          opCheckSig_ne, opCheckMultiSig_ne, stackArm_ne, stackDrop_ne, stackDup_ne,
          stackOver_ne, stackRot_ne, stackSwap_ne, stackNip_ne, stackTuck_ne]
  rw [if_neg g7]
  by_cases g8 : inst.opcode = 150 ∧ flags.verify_div
  · rw [if_pos g8]
    first
      | (simp; done)
      | (split <;> simp
         done)
      | solve_by_elim [opPush_ne, opNumPush_ne, opCat_ne, opSplitArm_ne,
          bitwiseArm_ne, divModArm_ne, opBin2Num_ne, opNum2Bin_ne, opCheckLockTime_ne,
          opCheckSequence_ne, opIf_ne, opElse_ne, opEndIf_ne, opVerifyArm_ne, opToAlt_ne,
          opFromAlt_ne, opIfDup_ne, opPickRoll_ne, opEqual_ne, opEqualVerify_ne,
          unaryNumArm_ne, binaryNumArm_ne, opNumEqualVerify_ne, opWithin_ne, hashArm_ne,
          opCheckSig_ne, opCheckMultiSig_ne, stackArm_ne, stackDrop_ne, stackDup_ne,
          stackOver_ne, stackRot_ne, stackSwap_ne, stackNip_ne, stackTuck_ne]
  rw [if_neg g8]
  by_cases g9 : inst.opcode = 151 ∧ flags.verify_mod
  · rw [if_pos g9]
    first
      | (simp; done)
      | (split <;> simp
         done)
      | solve_by_elim [opPush_ne, opNumPush_ne, opCat_ne, opSplitArm_ne,
          bitwiseArm_ne, divModArm_ne, opBin2Num_ne, opNum2Bin_ne, opCheckLockTime_ne,
          opCheckSequence_ne, opIf_ne, opElse_ne, opEndIf_ne, opVerifyArm_ne, opToAlt_ne,
          opFromAlt_ne, opIfDup_ne, opPickRoll_ne, opEqual_ne, opEqualVerify_ne,
          unaryNumArm_ne, binaryNumArm_ne, opNumEqualVerify_ne, opWithin_ne, hashArm_ne,
          opCheckSig_ne, opCheckMultiSig_ne, stackArm_ne, stackDrop_ne, stackDup_ne,
          stackOver_ne, stackRot_ne, stackSwap_ne, stackNip_ne, stackTuck_ne]
  rw [if_neg g9]
  by_cases g10 : inst.opcode = 129 ∧ flags.verify_bin2num
  · rw [if_pos g10]
    first
      | (simp; done)
      | (split <;> simp
         done)
      | solve_by_elim [opPush_ne, opNumPush_ne, opCat_ne, opSplitArm_ne,
          bitwiseArm_ne, divModArm_ne, opBin2Num_ne, opNum2Bin_ne, opCheckLockTime_ne,
          opCheckSequence_ne, opIf_ne, opElse_ne, opEndIf_ne, opVerifyArm_ne, opToAlt_ne,
          opFromAlt_ne, opIfDup_ne, opPickRoll_ne, opEqual_ne, opEqualVerify_ne,
          unaryNumArm_ne, binaryNumArm_ne, opNumEqualVerify_ne, opWithin_ne, hashArm_ne,
          opCheckSig_ne, opCheckMultiSig_ne, stackArm_ne, stackDrop_ne, stackDup_ne,
          stackOver_ne, stackRot_ne, stackSwap_ne, stackNip_ne, stackTuck_ne]
  rw [if_neg g10]
  by_cases g11 : inst.opcode = 128 ∧ flags.verify_num2bin
  · rw [if_pos g11]
    first
      | (simp; done)
      | (split <;> simp
         done)
      | solve_by_elim [opPush_ne, opNumPush_ne, opCat_ne, opSplitArm_ne,
          bitwiseArm_ne, divModArm_ne, opBin2Num_ne, opNum2Bin_ne, opCheckLockTime_ne,
          opCheckSequence_ne, opIf_ne, opElse_ne, opEndIf_ne, opVerifyArm_ne, opToAlt_ne,
          opFromAlt_ne, opIfDup_ne, opPickRoll_ne, opEqual_ne, opEqualVerify_ne,
          unaryNumArm_ne, binaryNumArm_ne, opNumEqualVerify_ne, opWithin_ne, hashArm_ne,
          opCheckSig_ne, opCheckMultiSig_ne, stackArm_ne, stackDrop_ne, stackDup_ne,
          stackOver_ne, stackRot_ne, stackSwap_ne, stackNip_ne, stackTuck_ne]
  rw [if_neg g11]
  by_cases g12 : inst.opcode = 126 ∨ inst.opcode = 127 ∨ inst.opcode = 128 ∨
      inst.opcode = 129 ∨ inst.opcode = 131 ∨ inst.opcode = 132 ∨
      inst.opcode = 133 ∨ inst.opcode = 134 ∨ inst.opcode = 141 ∨
      inst.opcode = 142 ∨ inst.opcode = 149 ∨ inst.opcode = 150 ∨
      inst.opcode = 151 ∨ inst.opcode = 152 ∨ inst.opcode = 153
  · rw [if_pos g12]
    first
      | (simp; done)
      | (split <;> simp
         done)
      | solve_by_elim [opPush_ne, opNumPush_ne, opCat_ne, opSplitArm_ne,
          bitwiseArm_ne, divModArm_ne, opBin2Num_ne, opNum2Bin_ne, opCheckLockTime_ne,
          opCheckSequence_ne, opIf_ne, opElse_ne, opEndIf_ne, opVerifyArm_ne, opToAlt_ne,
          opFromAlt_ne, opIfDup_ne, opPickRoll_ne, opEqual_ne, opEqualVerify_ne,
          unaryNumArm_ne, binaryNumArm_ne, opNumEqualVerify_ne, opWithin_ne, hashArm_ne,
          opCheckSig_ne, opCheckMultiSig_ne, stackArm_ne, stackDrop_ne, stackDup_ne,
          stackOver_ne, stackRot_ne, stackSwap_ne, stackNip_ne, stackTuck_ne]
  rw [if_neg g12]
  by_cases g13 : inst.opcode = 97
  · rw [if_pos g13]
    first
      | (simp; done)
      | (split <;> simp
         done)
      | solve_by_elim [opPush_ne, opNumPush_ne, opCat_ne, opSplitArm_ne,
          bitwiseArm_ne, divModArm_ne, opBin2Num_ne, opNum2Bin_ne, opCheckLockTime_ne,
          opCheckSequence_ne, opIf_ne, opElse_ne, opEndIf_ne, opVerifyArm_ne, opToAlt_ne,
          opFromAlt_ne, opIfDup_ne, opPickRoll_ne, opEqual_ne, opEqualVerify_ne,
          unaryNumArm_ne, binaryNumArm_ne, opNumEqualVerify_ne, opWithin_ne, hashArm_ne,
          opCheckSig_ne, opCheckMultiSig_ne, stackArm_ne, stackDrop_ne, stackDup_ne,
          stackOver_ne, stackRot_ne, stackSwap_ne, stackNip_ne, stackTuck_ne]
  rw [if_neg g13]
  by_cases g14 : inst.opcode = 177
  · rw [if_pos g14]
    first
      | (simp; done)
      | (split <;> simp
         done)
      | solve_by_elim [opPush_ne, opNumPush_ne, opCat_ne, opSplitArm_ne,
          bitwiseArm_ne, divModArm_ne, opBin2Num_ne, opNum2Bin_ne, opCheckLockTime_ne,
          opCheckSequence_ne, opIf_ne, opElse_ne, opEndIf_ne, opVerifyArm_ne, opToAlt_ne,
          opFromAlt_ne, opIfDup_ne, opPickRoll_ne, opEqual_ne, opEqualVerify_ne,
          unaryNumArm_ne, binaryNumArm_ne, opNumEqualVerify_ne, opWithin_ne, hashArm_ne,
          opCheckSig_ne, opCheckMultiSig_ne, stackArm_ne, stackDrop_ne, stackDup_ne,
          stackOver_ne, stackRot_ne, stackSwap_ne, stackNip_ne, stackTuck_ne]
  rw [if_neg g14]
  by_cases g15 : inst.opcode = 178
  · rw [if_pos g15]
    first
      | (simp; done)
      | (split <;> simp
         done)
      | solve_by_elim [opPush_ne, opNumPush_ne, opCat_ne, opSplitArm_ne,
          bitwiseArm_ne, divModArm_ne, opBin2Num_ne, opNum2Bin_ne, opCheckLockTime_ne,
          opCheckSequence_ne, opIf_ne, opElse_ne, opEndIf_ne, opVerifyArm_ne, opToAlt_ne,
          opFromAlt_ne, opIfDup_ne, opPickRoll_ne, opEqual_ne, opEqualVerify_ne,
          unaryNumArm_ne, binaryNumArm_ne, opNumEqualVerify_ne, opWithin_ne, hashArm_ne,
          opCheckSig_ne, opCheckMultiSig_ne, stackArm_ne, stackDrop_ne, stackDup_ne,
          stackOver_ne, stackRot_ne, stackSwap_ne, stackNip_ne, stackTuck_ne]
  rw [if_neg g15]
  by_cases g16 : inst.opcode = 176 ∨ (179 ≤ inst.opcode ∧ inst.opcode ≤ 185)
  · rw [if_pos g16]
    first
      | (simp; done)
      | (split <;> simp
         done)
      | solve_by_elim [opPush_ne, opNumPush_ne, opCat_ne, opSplitArm_ne,
          bitwiseArm_ne, divModArm_ne, opBin2Num_ne, opNum2Bin_ne, opCheckLockTime_ne,
          opCheckSequence_ne, opIf_ne, opElse_ne, opEndIf_ne, opVerifyArm_ne, opToAlt_ne,
          opFromAlt_ne, opIfDup_ne, opPickRoll_ne, opEqual_ne, opEqualVerify_ne,
          unaryNumArm_ne, binaryNumArm_ne, opNumEqualVerify_ne, opWithin_ne, hashArm_ne,
          opCheckSig_ne, opCheckMultiSig_ne, stackArm_ne, stackDrop_ne, stackDup_ne,
          stackOver_ne, stackRot_ne, stackSwap_ne, stackNip_ne, stackTuck_ne]
  rw [if_neg g16]
  by_cases g17 : inst.opcode = 99 ∨ inst.opcode = 100
  · rw [if_pos g17]
    first
      | (simp; done)
      | (split <;> simp
         done)
      | solve_by_elim [opPush_ne, opNumPush_ne, opCat_ne, opSplitArm_ne,
          bitwiseArm_ne, divModArm_ne, opBin2Num_ne, opNum2Bin_ne, opCheckLockTime_ne,
          opCheckSequence_ne, opIf_ne, opElse_ne, opEndIf_ne, opVerifyArm_ne, opToAlt_ne,
          opFromAlt_ne, opIfDup_ne, opPickRoll_ne, opEqual_ne, opEqualVerify_ne,
          unaryNumArm_ne, binaryNumArm_ne, opNumEqualVerify_ne, opWithin_ne, hashArm_ne,
          opCheckSig_ne, opCheckMultiSig_ne, stackArm_ne, stackDrop_ne, stackDup_ne,
          stackOver_ne, stackRot_ne, stackSwap_ne, stackNip_ne, stackTuck_ne]
  rw [if_neg g17]
  by_cases g18 : inst.opcode = 103
  · rw [if_pos g18]
    first
      | (simp; done)
      | (split <;> simp
         done)
      | solve_by_elim [opPush_ne, opNumPush_ne, opCat_ne, opSplitArm_ne,
          bitwiseArm_ne, divModArm_ne, opBin2Num_ne, opNum2Bin_ne, opCheckLockTime_ne,
          opCheckSequence_ne, opIf_ne, opElse_ne, opEndIf_ne, opVerifyArm_ne, opToAlt_ne,
          opFromAlt_ne, opIfDup_ne, opPickRoll_ne, opEqual_ne, opEqualVerify_ne,
          unaryNumArm_ne, binaryNumArm_ne, opNumEqualVerify_ne, opWithin_ne, hashArm_ne,
          opCheckSig_ne, opCheckMultiSig_ne, stackArm_ne, stackDrop_ne, stackDup_ne,
          stackOver_ne, stackRot_ne, stackSwap_ne, stackNip_ne, stackTuck_ne]
  rw [if_neg g18]
  by_cases g19 : inst.opcode = 104
  · rw [if_pos g19]
    first
      | (simp; done)
      | (split <;> simp
         done)
      | solve_by_elim [opPush_ne, opNumPush_ne, opCat_ne, opSplitArm_ne,
          bitwiseArm_ne, divModArm_ne, opBin2Num_ne, opNum2Bin_ne, opCheckLockTime_ne,
          opCheckSequence_ne, opIf_ne, opElse_ne, opEndIf_ne, opVerifyArm_ne, opToAlt_ne,
          opFromAlt_ne, opIfDup_ne, opPickRoll_ne, opEqual_ne, opEqualVerify_ne,
          unaryNumArm_ne, binaryNumArm_ne, opNumEqualVerify_ne, opWithin_ne, hashArm_ne,
          opCheckSig_ne, opCheckMultiSig_ne, stackArm_ne, stackDrop_ne, stackDup_ne,
          stackOver_ne, stackRot_ne, stackSwap_ne, stackNip_ne, stackTuck_ne]
  rw [if_neg g19]
  by_cases g20 : inst.opcode = 105
  · rw [if_pos g20]
    first
      | (simp; done)
      | (split <;> simp
         done)
      | solve_by_elim [opPush_ne, opNumPush_ne, opCat_ne, opSplitArm_ne,
          bitwiseArm_ne, divModArm_ne, opBin2Num_ne, opNum2Bin_ne, opCheckLockTime_ne,
          opCheckSequence_ne, opIf_ne, opElse_ne, opEndIf_ne, opVerifyArm_ne, opToAlt_ne,
          opFromAlt_ne, opIfDup_ne, opPickRoll_ne, opEqual_ne, opEqualVerify_ne,
          unaryNumArm_ne, binaryNumArm_ne, opNumEqualVerify_ne, opWithin_ne, hashArm_ne,
          opCheckSig_ne, opCheckMultiSig_ne, stackArm_ne, stackDrop_ne, stackDup_ne,
          stackOver_ne, stackRot_ne, stackSwap_ne, stackNip_ne, stackTuck_ne]
  rw [if_neg g20]
  by_cases g21 : inst.opcode = 106
  · rw [if_pos g21]
    first
      | (simp; done)
      | (split <;> simp
         done)
      | solve_by_elim [opPush_ne, opNumPush_ne, opCat_ne, opSplitArm_ne,
          bitwiseArm_ne, divModArm_ne, opBin2Num_ne, opNum2Bin_ne, opCheckLockTime_ne,
          opCheckSequence_ne, opIf_ne, opElse_ne, opEndIf_ne, opVerifyArm_ne, opToAlt_ne,
          opFromAlt_ne, opIfDup_ne, opPickRoll_ne, opEqual_ne, opEqualVerify_ne,
          unaryNumArm_ne, binaryNumArm_ne, opNumEqualVerify_ne, opWithin_ne, hashArm_ne,
          opCheckSig_ne, opCheckMultiSig_ne, stackArm_ne, stackDrop_ne, stackDup_ne,
          stackOver_ne, stackRot_ne, stackSwap_ne, stackNip_ne, stackTuck_ne]
  rw [if_neg g21]
  by_cases g22 : inst.opcode = 107
  · rw [if_pos g22]
    first
      | (simp; done)
      | (split <;> simp
         done)
      | solve_by_elim [opPush_ne, opNumPush_ne, opCat_ne, opSplitArm_ne,
          bitwiseArm_ne, divModArm_ne, opBin2Num_ne, opNum2Bin_ne, opCheckLockTime_ne,
          opCheckSequence_ne, opIf_ne, opElse_ne, opEndIf_ne, opVerifyArm_ne, opToAlt_ne,
          opFromAlt_ne, opIfDup_ne, opPickRoll_ne, opEqual_ne, opEqualVerify_ne,
          unaryNumArm_ne, binaryNumArm_ne, opNumEqualVerify_ne, opWithin_ne, hashArm_ne,
          opCheckSig_ne, opCheckMultiSig_ne, stackArm_ne, stackDrop_ne, stackDup_ne,
          stackOver_ne, stackRot_ne, stackSwap_ne, stackNip_ne, stackTuck_ne]
  rw [if_neg g22]
  by_cases g23 : inst.opcode = 108
  · rw [if_pos g23]
    first
      | (simp; done)
      | (split <;> simp
         done)
      | solve_by_elim [opPush_ne, opNumPush_ne, opCat_ne, opSplitArm_ne,
          bitwiseArm_ne, divModArm_ne, opBin2Num_ne, opNum2Bin_ne, opCheckLockTime_ne,
          opCheckSequence_ne, opIf_ne, opElse_ne, opEndIf_ne, opVerifyArm_ne, opToAlt_ne,
          opFromAlt_ne, opIfDup_ne, opPickRoll_ne, opEqual_ne, opEqualVerify_ne,
          unaryNumArm_ne, binaryNumArm_ne, opNumEqualVerify_ne, opWithin_ne, hashArm_ne,
          opCheckSig_ne, opCheckMultiSig_ne, stackArm_ne, stackDrop_ne, stackDup_ne,
          stackOver_ne, stackRot_ne, stackSwap_ne, stackNip_ne, stackTuck_ne]
  rw [if_neg g23]
  by_cases g24 : inst.opcode = 109
  · rw [if_pos g24]
    first
      | (simp; done)
      | (split <;> simp
         done)
      | solve_by_elim [opPush_ne, opNumPush_ne, opCat_ne, opSplitArm_ne,
          bitwiseArm_ne, divModArm_ne, opBin2Num_ne, opNum2Bin_ne, opCheckLockTime_ne,
          opCheckSequence_ne, opIf_ne, opElse_ne, opEndIf_ne, opVerifyArm_ne, opToAlt_ne,
          opFromAlt_ne, opIfDup_ne, opPickRoll_ne, opEqual_ne, opEqualVerify_ne,
          unaryNumArm_ne, binaryNumArm_ne, opNumEqualVerify_ne, opWithin_ne, hashArm_ne,
          opCheckSig_ne, opCheckMultiSig_ne, stackArm_ne, stackDrop_ne, stackDup_ne,
          stackOver_ne, stackRot_ne, stackSwap_ne, stackNip_ne, stackTuck_ne]
  rw [if_neg g24]
  by_cases g25 : inst.opcode = 110
  · rw [if_pos g25]
    first
      | (simp; done)
      | (split <;> simp
         done)
      | solve_by_elim [opPush_ne, opNumPush_ne, opCat_ne, opSplitArm_ne,
          bitwiseArm_ne, divModArm_ne, opBin2Num_ne, opNum2Bin_ne, opCheckLockTime_ne,
          opCheckSequence_ne, opIf_ne, opElse_ne, opEndIf_ne, opVerifyArm_ne, opToAlt_ne,
          opFromAlt_ne, opIfDup_ne, opPickRoll_ne, opEqual_ne, opEqualVerify_ne,
          unaryNumArm_ne, binaryNumArm_ne, opNumEqualVerify_ne, opWithin_ne, hashArm_ne,
          opCheckSig_ne, opCheckMultiSig_ne, stackArm_ne, stackDrop_ne, stackDup_ne,
          stackOver_ne, stackRot_ne, stackSwap_ne, stackNip_ne, stackTuck_ne]
  rw [if_neg g25]
  by_cases g26 : inst.opcode = 111
  · rw [if_pos g26]
    first
      | (simp; done)
      | (split <;> simp
         done)
      | solve_by_elim [opPush_ne, opNumPush_ne, opCat_ne, opSplitArm_ne,
          bitwiseArm_ne, divModArm_ne, opBin2Num_ne, opNum2Bin_ne, opCheckLockTime_ne,
          opCheckSequence_ne, opIf_ne, opElse_ne, opEndIf_ne, opVerifyArm_ne, opToAlt_ne,
          opFromAlt_ne, opIfDup_ne, opPickRoll_ne, opEqual_ne, opEqualVerify_ne,
          unaryNumArm_ne, binaryNumArm_ne, opNumEqualVerify_ne, opWithin_ne, hashArm_ne,
          opCheckSig_ne, opCheckMultiSig_ne, stackArm_ne, stackDrop_ne, stackDup_ne,
          stackOver_ne, stackRot_ne, stackSwap_ne, stackNip_ne, stackTuck_ne]
  rw [if_neg g26]
  by_cases g27 : inst.opcode = 112
  · rw [if_pos g27]
    first
      | (simp; done)
      | (split <;> simp
         done)
      | solve_by_elim [opPush_ne, opNumPush_ne, opCat_ne, opSplitArm_ne,
          bitwiseArm_ne, divModArm_ne, opBin2Num_ne, opNum2Bin_ne, opCheckLockTime_ne,
          opCheckSequence_ne, opIf_ne, opElse_ne, opEndIf_ne, opVerifyArm_ne, opToAlt_ne,
          opFromAlt_ne, opIfDup_ne, opPickRoll_ne, opEqual_ne, opEqualVerify_ne,
          unaryNumArm_ne, binaryNumArm_ne, opNumEqualVerify_ne, opWithin_ne, hashArm_ne,
          opCheckSig_ne, opCheckMultiSig_ne, stackArm_ne, stackDrop_ne, stackDup_ne,
          stackOver_ne, stackRot_ne, stackSwap_ne, stackNip_ne, stackTuck_ne]
  rw [if_neg g27]
  by_cases g28 : inst.opcode = 113
  · rw [if_pos g28]
    first
      | (simp; done)
      | (split <;> simp
         done)
      | solve_by_elim [opPush_ne, opNumPush_ne, opCat_ne, opSplitArm_ne,
          bitwiseArm_ne, divModArm_ne, opBin2Num_ne, opNum2Bin_ne, opCheckLockTime_ne,
          opCheckSequence_ne, opIf_ne, opElse_ne, opEndIf_ne, opVerifyArm_ne, opToAlt_ne,
          opFromAlt_ne, opIfDup_ne, opPickRoll_ne, opEqual_ne, opEqualVerify_ne,
          unaryNumArm_ne, binaryNumArm_ne, opNumEqualVerify_ne, opWithin_ne, hashArm_ne,
          opCheckSig_ne, opCheckMultiSig_ne, stackArm_ne, stackDrop_ne, stackDup_ne,
          stackOver_ne, stackRot_ne, stackSwap_ne, stackNip_ne, stackTuck_ne]
  rw [if_neg g28]
  by_cases g29 : inst.opcode = 114
  · rw [if_pos g29]
    first
      | (simp; done)
      | (split <;> simp
         done)
      | solve_by_elim [opPush_ne, opNumPush_ne, opCat_ne, opSplitArm_ne,
          bitwiseArm_ne, divModArm_ne, opBin2Num_ne, opNum2Bin_ne, opCheckLockTime_ne,
          opCheckSequence_ne, opIf_ne, opElse_ne, opEndIf_ne, opVerifyArm_ne, opToAlt_ne,
          opFromAlt_ne, opIfDup_ne, opPickRoll_ne, opEqual_ne, opEqualVerify_ne,
          unaryNumArm_ne, binaryNumArm_ne, opNumEqualVerify_ne, opWithin_ne, hashArm_ne,
          opCheckSig_ne, opCheckMultiSig_ne, stackArm_ne, stackDrop_ne, stackDup_ne,
          stackOver_ne, stackRot_ne, stackSwap_ne, stackNip_ne, stackTuck_ne]
  rw [if_neg g29]
  by_cases g30 : inst.opcode = 115
  · rw [if_pos g30]
    first
      | (simp; done)
      | (split <;> simp
         done)
      | solve_by_elim [opPush_ne, opNumPush_ne, opCat_ne, opSplitArm_ne,
          bitwiseArm_ne, divModArm_ne, opBin2Num_ne, opNum2Bin_ne, opCheckLockTime_ne,
          opCheckSequence_ne, opIf_ne, opElse_ne, opEndIf_ne, opVerifyArm_ne, opToAlt_ne,
          opFromAlt_ne, opIfDup_ne, opPickRoll_ne, opEqual_ne, opEqualVerify_ne,
          unaryNumArm_ne, binaryNumArm_ne, opNumEqualVerify_ne, opWithin_ne, hashArm_ne,
          opCheckSig_ne, opCheckMultiSig_ne, stackArm_ne, stackDrop_ne, stackDup_ne,
          stackOver_ne, stackRot_ne, stackSwap_ne, stackNip_ne, stackTuck_ne]
  rw [if_neg g30]
  by_cases g31 : inst.opcode = 116
  · rw [if_pos g31]
    first
      | (simp; done)
      | (split <;> simp
         done)
      | solve_by_elim [opPush_ne, opNumPush_ne, opCat_ne, opSplitArm_ne,
          bitwiseArm_ne, divModArm_ne, opBin2Num_ne, opNum2Bin_ne, opCheckLockTime_ne,
          opCheckSequence_ne, opIf_ne, opElse_ne, opEndIf_ne, opVerifyArm_ne, opToAlt_ne,
          opFromAlt_ne, opIfDup_ne, opPickRoll_ne, opEqual_ne, opEqualVerify_ne,
          unaryNumArm_ne, binaryNumArm_ne, opNumEqualVerify_ne, opWithin_ne, hashArm_ne,
          opCheckSig_ne, opCheckMultiSig_ne, stackArm_ne, stackDrop_ne, stackDup_ne,
          stackOver_ne, stackRot_ne, stackSwap_ne, stackNip_ne, stackTuck_ne]
  rw [if_neg g31]
  by_cases g32 : inst.opcode = 117
  · rw [if_pos g32]
    first
      | (simp; done)
      | (split <;> simp
         done)
      | solve_by_elim [opPush_ne, opNumPush_ne, opCat_ne, opSplitArm_ne,
          bitwiseArm_ne, divModArm_ne, opBin2Num_ne, opNum2Bin_ne, opCheckLockTime_ne,
          opCheckSequence_ne, opIf_ne, opElse_ne, opEndIf_ne, opVerifyArm_ne, opToAlt_ne,
          opFromAlt_ne, opIfDup_ne, opPickRoll_ne, opEqual_ne, opEqualVerify_ne,
          unaryNumArm_ne, binaryNumArm_ne, opNumEqualVerify_ne, opWithin_ne, hashArm_ne,
          opCheckSig_ne, opCheckMultiSig_ne, stackArm_ne, stackDrop_ne, stackDup_ne,
          stackOver_ne, stackRot_ne, stackSwap_ne, stackNip_ne, stackTuck_ne]
  rw [if_neg g32]
  by_cases g33 : inst.opcode = 118
  · rw [if_pos g33]
    first
      | (simp; done)
      | (split <;> simp
         done)
      | solve_by_elim [opPush_ne, opNumPush_ne, opCat_ne, opSplitArm_ne,
          bitwiseArm_ne, divModArm_ne, opBin2Num_ne, opNum2Bin_ne, opCheckLockTime_ne,
          opCheckSequence_ne, opIf_ne, opElse_ne, opEndIf_ne, opVerifyArm_ne, opToAlt_ne,
          opFromAlt_ne, opIfDup_ne, opPickRoll_ne, opEqual_ne, opEqualVerify_ne,
          unaryNumArm_ne, binaryNumArm_ne, opNumEqualVerify_ne, opWithin_ne, hashArm_ne,
          opCheckSig_ne, opCheckMultiSig_ne, stackArm_ne, stackDrop_ne, stackDup_ne,
          stackOver_ne, stackRot_ne, stackSwap_ne, stackNip_ne, stackTuck_ne]
  rw [if_neg g33]
  by_cases g34 : inst.opcode = 119
  · rw [if_pos g34]
    first
      | (simp; done)
      | (split <;> simp
         done)
      | solve_by_elim [opPush_ne, opNumPush_ne, opCat_ne, opSplitArm_ne,
          bitwiseArm_ne, divModArm_ne, opBin2Num_ne, opNum2Bin_ne, opCheckLockTime_ne,
          opCheckSequence_ne, opIf_ne, opElse_ne, opEndIf_ne, opVerifyArm_ne, opToAlt_ne,
          opFromAlt_ne, opIfDup_ne, opPickRoll_ne, opEqual_ne, opEqualVerify_ne,
          unaryNumArm_ne, binaryNumArm_ne, opNumEqualVerify_ne, opWithin_ne, hashArm_ne,
          opCheckSig_ne, opCheckMultiSig_ne, stackArm_ne, stackDrop_ne, stackDup_ne,
          stackOver_ne, stackRot_ne, stackSwap_ne, stackNip_ne, stackTuck_ne]
  rw [if_neg g34]
  by_cases g35 : inst.opcode = 120
  · rw [if_pos g35]
    first
      | (simp; done)
      | (split <;> simp
         done)
      | solve_by_elim [opPush_ne, opNumPush_ne, opCat_ne, opSplitArm_ne,
          bitwiseArm_ne, divModArm_ne, opBin2Num_ne, opNum2Bin_ne, opCheckLockTime_ne,
          opCheckSequence_ne, opIf_ne, opElse_ne, opEndIf_ne, opVerifyArm_ne, opToAlt_ne,
          opFromAlt_ne, opIfDup_ne, opPickRoll_ne, opEqual_ne, opEqualVerify_ne,
          unaryNumArm_ne, binaryNumArm_ne, opNumEqualVerify_ne, opWithin_ne, hashArm_ne,
          opCheckSig_ne, opCheckMultiSig_ne, stackArm_ne, stackDrop_ne, stackDup_ne,
          stackOver_ne, stackRot_ne, stackSwap_ne, stackNip_ne, stackTuck_ne]
  rw [if_neg g35]
  by_cases g36 : inst.opcode = 121 ∨ inst.opcode = 122
  · rw [if_pos g36]
    first
      | (simp; done)
      | (split <;> simp
         done)
      | solve_by_elim [opPush_ne, opNumPush_ne, opCat_ne, opSplitArm_ne,
          bitwiseArm_ne, divModArm_ne, opBin2Num_ne, opNum2Bin_ne, opCheckLockTime_ne,
          opCheckSequence_ne, opIf_ne, opElse_ne, opEndIf_ne, opVerifyArm_ne, opToAlt_ne,
          opFromAlt_ne, opIfDup_ne, opPickRoll_ne, opEqual_ne, opEqualVerify_ne,
          unaryNumArm_ne, binaryNumArm_ne, opNumEqualVerify_ne, opWithin_ne, hashArm_ne,
          opCheckSig_ne, opCheckMultiSig_ne, stackArm_ne, stackDrop_ne, stackDup_ne,
          stackOver_ne, stackRot_ne, stackSwap_ne, stackNip_ne, stackTuck_ne]
  rw [if_neg g36]
  by_cases g37 : inst.opcode = 123
  · rw [if_pos g37]
    first
      | (simp; done)
      | (split <;> simp
         done)
      | solve_by_elim [opPush_ne, opNumPush_ne, opCat_ne, opSplitArm_ne,
          bitwiseArm_ne, divModArm_ne, opBin2Num_ne, opNum2Bin_ne, opCheckLockTime_ne,
          opCheckSequence_ne, opIf_ne, opElse_ne, opEndIf_ne, opVerifyArm_ne, opToAlt_ne,
          opFromAlt_ne, opIfDup_ne, opPickRoll_ne, opEqual_ne, opEqualVerify_ne,
          unaryNumArm_ne, binaryNumArm_ne, opNumEqualVerify_ne, opWithin_ne, hashArm_ne,
          opCheckSig_ne, opCheckMultiSig_ne, stackArm_ne, stackDrop_ne, stackDup_ne,
          stackOver_ne, stackRot_ne, stackSwap_ne, stackNip_ne, stackTuck_ne]
  rw [if_neg g37]
  by_cases g38 : inst.opcode = 124
  · rw [if_pos g38]
    first
      | (simp; done)
      | (split <;> simp
         done)
      | solve_by_elim [opPush_ne, opNumPush_ne, opCat_ne, opSplitArm_ne,
          bitwiseArm_ne, divModArm_ne, opBin2Num_ne, opNum2Bin_ne, opCheckLockTime_ne,
          opCheckSequence_ne, opIf_ne, opElse_ne, opEndIf_ne, opVerifyArm_ne, opToAlt_ne,
          opFromAlt_ne, opIfDup_ne, opPickRoll_ne, opEqual_ne, opEqualVerify_ne,
          unaryNumArm_ne, binaryNumArm_ne, opNumEqualVerify_ne, opWithin_ne, hashArm_ne,
          opCheckSig_ne, opCheckMultiSig_ne, stackArm_ne, stackDrop_ne, stackDup_ne,
          stackOver_ne, stackRot_ne, stackSwap_ne, stackNip_ne, stackTuck_ne]
  rw [if_neg g38]
  by_cases g39 : inst.opcode = 125
  · rw [if_pos g39]
    first
      | (simp; done)
      | (split <;> simp
         done)
      | solve_by_elim [opPush_ne, opNumPush_ne, opCat_ne, opSplitArm_ne,
          bitwiseArm_ne, divModArm_ne, opBin2Num_ne, opNum2Bin_ne, opCheckLockTime_ne,
          opCheckSequence_ne, opIf_ne, opElse_ne, opEndIf_ne, opVerifyArm_ne, opToAlt_ne,
          opFromAlt_ne, opIfDup_ne, opPickRoll_ne, opEqual_ne, opEqualVerify_ne,
          unaryNumArm_ne, binaryNumArm_ne, opNumEqualVerify_ne, opWithin_ne, hashArm_ne,
          opCheckSig_ne, opCheckMultiSig_ne, stackArm_ne, stackDrop_ne, stackDup_ne,
          stackOver_ne, stackRot_ne, stackSwap_ne, stackNip_ne, stackTuck_ne]
  rw [if_neg g39]
  by_cases g40 : inst.opcode = 130
  · rw [if_pos g40]
    first
      | (simp; done)
      | (split <;> simp
         done)
      | solve_by_elim [opPush_ne, opNumPush_ne, opCat_ne, opSplitArm_ne,
          bitwiseArm_ne, divModArm_ne, opBin2Num_ne, opNum2Bin_ne, opCheckLockTime_ne,
          opCheckSequence_ne, opIf_ne, opElse_ne, opEndIf_ne, opVerifyArm_ne, opToAlt_ne,
          opFromAlt_ne, opIfDup_ne, opPickRoll_ne, opEqual_ne, opEqualVerify_ne,
          unaryNumArm_ne, binaryNumArm_ne, opNumEqualVerify_ne, opWithin_ne, hashArm_ne,
          opCheckSig_ne, opCheckMultiSig_ne, stackArm_ne, stackDrop_ne, stackDup_ne,
          stackOver_ne, stackRot_ne, stackSwap_ne, stackNip_ne, stackTuck_ne]
  rw [if_neg g40]
  by_cases g41 : inst.opcode = 135
  · rw [if_pos g41]
    first
      | (simp; done)
      | (split <;> simp
         done)
      | solve_by_elim [opPush_ne, opNumPush_ne, opCat_ne, opSplitArm_ne,
          bitwiseArm_ne, divModArm_ne, opBin2Num_ne, opNum2Bin_ne, opCheckLockTime_ne,
          opCheckSequence_ne, opIf_ne, opElse_ne, opEndIf_ne, opVerifyArm_ne, opToAlt_ne,
          opFromAlt_ne, opIfDup_ne, opPickRoll_ne, opEqual_ne, opEqualVerify_ne,
          unaryNumArm_ne, binaryNumArm_ne, opNumEqualVerify_ne, opWithin_ne, hashArm_ne,
          opCheckSig_ne, opCheckMultiSig_ne, stackArm_ne, stackDrop_ne, stackDup_ne,
          stackOver_ne, stackRot_ne, stackSwap_ne, stackNip_ne, stackTuck_ne]
  rw [if_neg g41]
  by_cases g42 : inst.opcode = 136
  · rw [if_pos g42]
    first
      | (simp; done)
      | (split <;> simp
         done)
      | solve_by_elim [opPush_ne, opNumPush_ne, opCat_ne, opSplitArm_ne,
          bitwiseArm_ne, divModArm_ne, opBin2Num_ne, opNum2Bin_ne, opCheckLockTime_ne,
          opCheckSequence_ne, opIf_ne, opElse_ne, opEndIf_ne, opVerifyArm_ne, opToAlt_ne,
          opFromAlt_ne, opIfDup_ne, opPickRoll_ne, opEqual_ne, opEqualVerify_ne,
          unaryNumArm_ne, binaryNumArm_ne, opNumEqualVerify_ne, opWithin_ne, hashArm_ne,
          opCheckSig_ne, opCheckMultiSig_ne, stackArm_ne, stackDrop_ne, stackDup_ne,
          stackOver_ne, stackRot_ne, stackSwap_ne, stackNip_ne, stackTuck_ne]
  rw [if_neg g42]
  by_cases g43 : inst.opcode = 139
  · rw [if_pos g43]
    first
      | (simp; done)
      | (split <;> simp
         done)
      | solve_by_elim [opPush_ne, opNumPush_ne, opCat_ne, opSplitArm_ne,
          bitwiseArm_ne, divModArm_ne, opBin2Num_ne, opNum2Bin_ne, opCheckLockTime_ne,
          opCheckSequence_ne, opIf_ne, opElse_ne, opEndIf_ne, opVerifyArm_ne, opToAlt_ne,
          opFromAlt_ne, opIfDup_ne, opPickRoll_ne, opEqual_ne, opEqualVerify_ne,
          unaryNumArm_ne, binaryNumArm_ne, opNumEqualVerify_ne, opWithin_ne, hashArm_ne,
          opCheckSig_ne, opCheckMultiSig_ne, stackArm_ne, stackDrop_ne, stackDup_ne,
          stackOver_ne, stackRot_ne, stackSwap_ne, stackNip_ne, stackTuck_ne]
  rw [if_neg g43]
  by_cases g44 : inst.opcode = 140
  · rw [if_pos g44]
    first
      | (simp; done)
      | (split <;> simp
         done)
      | solve_by_elim [opPush_ne, opNumPush_ne, opCat_ne, opSplitArm_ne,
          bitwiseArm_ne, divModArm_ne, opBin2Num_ne, opNum2Bin_ne, opCheckLockTime_ne,
          opCheckSequence_ne, opIf_ne, opElse_ne, opEndIf_ne, opVerifyArm_ne, opToAlt_ne,
          opFromAlt_ne, opIfDup_ne, opPickRoll_ne, opEqual_ne, opEqualVerify_ne,
          unaryNumArm_ne, binaryNumArm_ne, opNumEqualVerify_ne, opWithin_ne, hashArm_ne,
          opCheckSig_ne, opCheckMultiSig_ne, stackArm_ne, stackDrop_ne, stackDup_ne,
          stackOver_ne, stackRot_ne, stackSwap_ne, stackNip_ne, stackTuck_ne]
  rw [if_neg g44]
  by_cases g45 : inst.opcode = 143
  · rw [if_pos g45]
    first
      | (simp; done)
      | (split <;> simp
         done)
      | solve_by_elim [opPush_ne, opNumPush_ne, opCat_ne, opSplitArm_ne,
          bitwiseArm_ne, divModArm_ne, opBin2Num_ne, opNum2Bin_ne, opCheckLockTime_ne,
          opCheckSequence_ne, opIf_ne, opElse_ne, opEndIf_ne, opVerifyArm_ne, opToAlt_ne,
          opFromAlt_ne, opIfDup_ne, opPickRoll_ne, opEqual_ne, opEqualVerify_ne,
          unaryNumArm_ne, binaryNumArm_ne, opNumEqualVerify_ne, opWithin_ne, hashArm_ne,
          opCheckSig_ne, opCheckMultiSig_ne, stackArm_ne, stackDrop_ne, stackDup_ne,
          stackOver_ne, stackRot_ne, stackSwap_ne, stackNip_ne, stackTuck_ne]
  rw [if_neg g45]
  by_cases g46 : inst.opcode = 144
  · rw [if_pos g46]
    first
      | (simp; done)
      | (split <;> simp
         done)
      | solve_by_elim [opPush_ne, opNumPush_ne, opCat_ne, opSplitArm_ne,
          bitwiseArm_ne, divModArm_ne, opBin2Num_ne, opNum2Bin_ne, opCheckLockTime_ne,
          opCheckSequence_ne, opIf_ne, opElse_ne, opEndIf_ne, opVerifyArm_ne, opToAlt_ne,
          opFromAlt_ne, opIfDup_ne, opPickRoll_ne, opEqual_ne, opEqualVerify_ne,
          unaryNumArm_ne, binaryNumArm_ne, opNumEqualVerify_ne, opWithin_ne, hashArm_ne,
          opCheckSig_ne, opCheckMultiSig_ne, stackArm_ne, stackDrop_ne, stackDup_ne,
          stackOver_ne, stackRot_ne, stackSwap_ne, stackNip_ne, stackTuck_ne]
  rw [if_neg g46]
  by_cases g47 : inst.opcode = 145
  · rw [if_pos g47]
    first
      | (simp; done)
      | (split <;> simp
         done)
      | solve_by_elim [opPush_ne, opNumPush_ne, opCat_ne, opSplitArm_ne,
          bitwiseArm_ne, divModArm_ne, opBin2Num_ne, opNum2Bin_ne, opCheckLockTime_ne,
          opCheckSequence_ne, opIf_ne, opElse_ne, opEndIf_ne, opVerifyArm_ne, opToAlt_ne,
          opFromAlt_ne, opIfDup_ne, opPickRoll_ne, opEqual_ne, opEqualVerify_ne,
          unaryNumArm_ne, binaryNumArm_ne, opNumEqualVerify_ne, opWithin_ne, hashArm_ne,
          opCheckSig_ne, opCheckMultiSig_ne, stackArm_ne, stackDrop_ne, stackDup_ne,
          stackOver_ne, stackRot_ne, stackSwap_ne, stackNip_ne, stackTuck_ne]
  rw [if_neg g47]
  by_cases g48 : inst.opcode = 146
  · rw [if_pos g48]
    first
      | (simp; done)
      | (split <;> simp
         done)
      | solve_by_elim [opPush_ne, opNumPush_ne, opCat_ne, opSplitArm_ne,
          bitwiseArm_ne, divModArm_ne, opBin2Num_ne, opNum2Bin_ne, opCheckLockTime_ne,
          opCheckSequence_ne, opIf_ne, opElse_ne, opEndIf_ne, opVerifyArm_ne, opToAlt_ne,
          opFromAlt_ne, opIfDup_ne, opPickRoll_ne, opEqual_ne, opEqualVerify_ne,
          unaryNumArm_ne, binaryNumArm_ne, opNumEqualVerify_ne, opWithin_ne, hashArm_ne,
          opCheckSig_ne, opCheckMultiSig_ne, stackArm_ne, stackDrop_ne, stackDup_ne,
          stackOver_ne, stackRot_ne, stackSwap_ne, stackNip_ne, stackTuck_ne]
  rw [if_neg g48]
  by_cases g49 : inst.opcode = 147
  · rw [if_pos g49]
    first
      | (simp; done)
      | (split <;> simp
         done)
      | solve_by_elim [opPush_ne, opNumPush_ne, opCat_ne, opSplitArm_ne,
          bitwiseArm_ne, divModArm_ne, opBin2Num_ne, opNum2Bin_ne, opCheckLockTime_ne,
          opCheckSequence_ne, opIf_ne, opElse_ne, opEndIf_ne, opVerifyArm_ne, opToAlt_ne,
          opFromAlt_ne, opIfDup_ne, opPickRoll_ne, opEqual_ne, opEqualVerify_ne,
          unaryNumArm_ne, binaryNumArm_ne, opNumEqualVerify_ne, opWithin_ne, hashArm_ne,
          opCheckSig_ne, opCheckMultiSig_ne, stackArm_ne, stackDrop_ne, stackDup_ne,
          stackOver_ne, stackRot_ne, stackSwap_ne, stackNip_ne, stackTuck_ne]
  rw [if_neg g49]
  by_cases g50 : inst.opcode = 148
  · rw [if_pos g50]
    first
      | (simp; done)
      | (split <;> simp
         done)
      | solve_by_elim [opPush_ne, opNumPush_ne, opCat_ne, opSplitArm_ne,
          bitwiseArm_ne, divModArm_ne, opBin2Num_ne, opNum2Bin_ne, opCheckLockTime_ne,
          opCheckSequence_ne, opIf_ne, opElse_ne, opEndIf_ne, opVerifyArm_ne, opToAlt_ne,
          opFromAlt_ne, opIfDup_ne, opPickRoll_ne, opEqual_ne, opEqualVerify_ne,
          unaryNumArm_ne, binaryNumArm_ne, opNumEqualVerify_ne, opWithin_ne, hashArm_ne,
          opCheckSig_ne, opCheckMultiSig_ne, stackArm_ne, stackDrop_ne, stackDup_ne,
          stackOver_ne, stackRot_ne, stackSwap_ne, stackNip_ne, stackTuck_ne]
  rw [if_neg g50]
  by_cases g51 : inst.opcode = 154
  · rw [if_pos g51]
    first
      | (simp; done)
      | (split <;> simp
         done)
      | solve_by_elim [opPush_ne, opNumPush_ne, opCat_ne, opSplitArm_ne,
          bitwiseArm_ne, divModArm_ne, opBin2Num_ne, opNum2Bin_ne, opCheckLockTime_ne,
          opCheckSequence_ne, opIf_ne, opElse_ne, opEndIf_ne, opVerifyArm_ne, opToAlt_ne,
          opFromAlt_ne, opIfDup_ne, opPickRoll_ne, opEqual_ne, opEqualVerify_ne,
          unaryNumArm_ne, binaryNumArm_ne, opNumEqualVerify_ne, opWithin_ne, hashArm_ne,
          opCheckSig_ne, opCheckMultiSig_ne, stackArm_ne, stackDrop_ne, stackDup_ne,
          stackOver_ne, stackRot_ne, stackSwap_ne, stackNip_ne, stackTuck_ne]
  rw [if_neg g51]
  by_cases g52 : inst.opcode = 155
  · rw [if_pos g52]
    first
      | (simp; done)
      | (split <;> simp
         done)
      | solve_by_elim [opPush_ne, opNumPush_ne, opCat_ne, opSplitArm_ne,
          bitwiseArm_ne, divModArm_ne, opBin2Num_ne, opNum2Bin_ne, opCheckLockTime_ne,
          opCheckSequence_ne, opIf_ne, opElse_ne, opEndIf_ne, opVerifyArm_ne, opToAlt_ne,
          opFromAlt_ne, opIfDup_ne, opPickRoll_ne, opEqual_ne, opEqualVerify_ne,
          unaryNumArm_ne, binaryNumArm_ne, opNumEqualVerify_ne, opWithin_ne, hashArm_ne,
          opCheckSig_ne, opCheckMultiSig_ne, stackArm_ne, stackDrop_ne, stackDup_ne,
          stackOver_ne, stackRot_ne, stackSwap_ne, stackNip_ne, stackTuck_ne]
  rw [if_neg g52]
  by_cases g53 : inst.opcode = 156
  · rw [if_pos g53]
    first
      | (simp; done)
      | (split <;> simp
         done)
      | solve_by_elim [opPush_ne, opNumPush_ne, opCat_ne, opSplitArm_ne,
          bitwiseArm_ne, divModArm_ne, opBin2Num_ne, opNum2Bin_ne, opCheckLockTime_ne,
          opCheckSequence_ne, opIf_ne, opElse_ne, opEndIf_ne, opVerifyArm_ne, opToAlt_ne,
          opFromAlt_ne, opIfDup_ne, opPickRoll_ne, opEqual_ne, opEqualVerify_ne,
          unaryNumArm_ne, binaryNumArm_ne, opNumEqualVerify_ne, opWithin_ne, hashArm_ne,
          opCheckSig_ne, opCheckMultiSig_ne, stackArm_ne, stackDrop_ne, stackDup_ne,
          stackOver_ne, stackRot_ne, stackSwap_ne, stackNip_ne, stackTuck_ne]
  rw [if_neg g53]
  by_cases g54 : inst.opcode = 157
  · rw [if_pos g54]
    first
      | (simp; done)
      | (split <;> simp
         done)
      | solve_by_elim [opPush_ne, opNumPush_ne, opCat_ne, opSplitArm_ne,
          bitwiseArm_ne, divModArm_ne, opBin2Num_ne, opNum2Bin_ne, opCheckLockTime_ne,
          opCheckSequence_ne, opIf_ne, opElse_ne, opEndIf_ne, opVerifyArm_ne, opToAlt_ne,
          opFromAlt_ne, opIfDup_ne, opPickRoll_ne, opEqual_ne, opEqualVerify_ne,
          unaryNumArm_ne, binaryNumArm_ne, opNumEqualVerify_ne, opWithin_ne, hashArm_ne,
          opCheckSig_ne, opCheckMultiSig_ne, stackArm_ne, stackDrop_ne, stackDup_ne,
          stackOver_ne, stackRot_ne, stackSwap_ne, stackNip_ne, stackTuck_ne]
  rw [if_neg g54]
  by_cases g55 : inst.opcode = 158
  · rw [if_pos g55]
    first
      | (simp; done)
      | (split <;> simp
         done)
      | solve_by_elim [opPush_ne, opNumPush_ne, opCat_ne, opSplitArm_ne,
          bitwiseArm_ne, divModArm_ne, opBin2Num_ne, opNum2Bin_ne, opCheckLockTime_ne,
          opCheckSequence_ne, opIf_ne, opElse_ne, opEndIf_ne, opVerifyArm_ne, opToAlt_ne,
          opFromAlt_ne, opIfDup_ne, opPickRoll_ne, opEqual_ne, opEqualVerify_ne,
          unaryNumArm_ne, binaryNumArm_ne, opNumEqualVerify_ne, opWithin_ne, hashArm_ne,
          opCheckSig_ne, opCheckMultiSig_ne, stackArm_ne, stackDrop_ne, stackDup_ne,
          stackOver_ne, stackRot_ne, stackSwap_ne, stackNip_ne, stackTuck_ne]
  rw [if_neg g55]
  by_cases g56 : inst.opcode = 159
  · rw [if_pos g56]
    first
      | (simp; done)
      | (split <;> simp
         done)
      | solve_by_elim [opPush_ne, opNumPush_ne, opCat_ne, opSplitArm_ne,
          bitwiseArm_ne, divModArm_ne, opBin2Num_ne, opNum2Bin_ne, opCheckLockTime_ne,
          opCheckSequence_ne, opIf_ne, opElse_ne, opEndIf_ne, opVerifyArm_ne, opToAlt_ne,
          opFromAlt_ne, opIfDup_ne, opPickRoll_ne, opEqual_ne, opEqualVerify_ne,
          unaryNumArm_ne, binaryNumArm_ne, opNumEqualVerify_ne, opWithin_ne, hashArm_ne,
          opCheckSig_ne, opCheckMultiSig_ne, stackArm_ne, stackDrop_ne, stackDup_ne,
          stackOver_ne, stackRot_ne, stackSwap_ne, stackNip_ne, stackTuck_ne]
  rw [if_neg g56]
  by_cases g57 : inst.opcode = 160
  · rw [if_pos g57]
    first
      | (simp; done)
      | (split <;> simp
         done)
      | solve_by_elim [opPush_ne, opNumPush_ne, opCat_ne, opSplitArm_ne,
          bitwiseArm_ne, divModArm_ne, opBin2Num_ne, opNum2Bin_ne, opCheckLockTime_ne,
          opCheckSequence_ne, opIf_ne, opElse_ne, opEndIf_ne, opVerifyArm_ne, opToAlt_ne,
          opFromAlt_ne, opIfDup_ne, opPickRoll_ne, opEqual_ne, opEqualVerify_ne,
          unaryNumArm_ne, binaryNumArm_ne, opNumEqualVerify_ne, opWithin_ne, hashArm_ne,
          opCheckSig_ne, opCheckMultiSig_ne, stackArm_ne, stackDrop_ne, stackDup_ne,
          stackOver_ne, stackRot_ne, stackSwap_ne, stackNip_ne, stackTuck_ne]
  rw [if_neg g57]
  by_cases g58 : inst.opcode = 161
  · rw [if_pos g58]
    first
      | (simp; done)
      | (split <;> simp
         done)
      | solve_by_elim [opPush_ne, opNumPush_ne, opCat_ne, opSplitArm_ne,
          bitwiseArm_ne, divModArm_ne, opBin2Num_ne, opNum2Bin_ne, opCheckLockTime_ne,
          opCheckSequence_ne, opIf_ne, opElse_ne, opEndIf_ne, opVerifyArm_ne, opToAlt_ne,
          opFromAlt_ne, opIfDup_ne, opPickRoll_ne, opEqual_ne, opEqualVerify_ne,
          unaryNumArm_ne, binaryNumArm_ne, opNumEqualVerify_ne, opWithin_ne, hashArm_ne,
          opCheckSig_ne, opCheckMultiSig_ne, stackArm_ne, stackDrop_ne, stackDup_ne,
          stackOver_ne, stackRot_ne, stackSwap_ne, stackNip_ne, stackTuck_ne]
  rw [if_neg g58]
  by_cases g59 : inst.opcode = 162
  · rw [if_pos g59]
    first
      | (simp; done)
      | (split <;> simp
         done)
      | solve_by_elim [opPush_ne, opNumPush_ne, opCat_ne, opSplitArm_ne,
          bitwiseArm_ne, divModArm_ne, opBin2Num_ne, opNum2Bin_ne, opCheckLockTime_ne,
          opCheckSequence_ne, opIf_ne, opElse_ne, opEndIf_ne, opVerifyArm_ne, opToAlt_ne,
          opFromAlt_ne, opIfDup_ne, opPickRoll_ne, opEqual_ne, opEqualVerify_ne,
          unaryNumArm_ne, binaryNumArm_ne, opNumEqualVerify_ne, opWithin_ne, hashArm_ne,
          opCheckSig_ne, opCheckMultiSig_ne, stackArm_ne, stackDrop_ne, stackDup_ne,
          stackOver_ne, stackRot_ne, stackSwap_ne, stackNip_ne, stackTuck_ne]
  rw [if_neg g59]
  by_cases g60 : inst.opcode = 163
  · rw [if_pos g60]
    first
      | (simp; done)
      | (split <;> simp
         done)
      | solve_by_elim [opPush_ne, opNumPush_ne, opCat_ne, opSplitArm_ne,
          bitwiseArm_ne, divModArm_ne, opBin2Num_ne, opNum2Bin_ne, opCheckLockTime_ne,
          opCheckSequence_ne, opIf_ne, opElse_ne, opEndIf_ne, opVerifyArm_ne, opToAlt_ne,
          opFromAlt_ne, opIfDup_ne, opPickRoll_ne, opEqual_ne, opEqualVerify_ne,
          unaryNumArm_ne, binaryNumArm_ne, opNumEqualVerify_ne, opWithin_ne, hashArm_ne,
          opCheckSig_ne, opCheckMultiSig_ne, stackArm_ne, stackDrop_ne, stackDup_ne,
          stackOver_ne, stackRot_ne, stackSwap_ne, stackNip_ne, stackTuck_ne]
  rw [if_neg g60]
  by_cases g61 : inst.opcode = 164
  · rw [if_pos g61]
    first
      | (simp; done)
      | (split <;> simp
         done)
      | solve_by_elim [opPush_ne, opNumPush_ne, opCat_ne, opSplitArm_ne,
          bitwiseArm_ne, divModArm_ne, opBin2Num_ne, opNum2Bin_ne, opCheckLockTime_ne,
          opCheckSequence_ne, opIf_ne, opElse_ne, opEndIf_ne, opVerifyArm_ne, opToAlt_ne,
          opFromAlt_ne, opIfDup_ne, opPickRoll_ne, opEqual_ne, opEqualVerify_ne,
          unaryNumArm_ne, binaryNumArm_ne, opNumEqualVerify_ne, opWithin_ne, hashArm_ne,
          opCheckSig_ne, opCheckMultiSig_ne, stackArm_ne, stackDrop_ne, stackDup_ne,
          stackOver_ne, stackRot_ne, stackSwap_ne, stackNip_ne, stackTuck_ne]
  rw [if_neg g61]
  by_cases g62 : inst.opcode = 165
  · rw [if_pos g62]
    first
      | (simp; done)
      | (split <;> simp
         done)
      | solve_by_elim [opPush_ne, opNumPush_ne, opCat_ne, opSplitArm_ne,
          bitwiseArm_ne, divModArm_ne, opBin2Num_ne, opNum2Bin_ne, opCheckLockTime_ne,
          opCheckSequence_ne, opIf_ne, opElse_ne, opEndIf_ne, opVerifyArm_ne, opToAlt_ne,
          opFromAlt_ne, opIfDup_ne, opPickRoll_ne, opEqual_ne, opEqualVerify_ne,
          unaryNumArm_ne, binaryNumArm_ne, opNumEqualVerify_ne, opWithin_ne, hashArm_ne,
          opCheckSig_ne, opCheckMultiSig_ne, stackArm_ne, stackDrop_ne, stackDup_ne,
          stackOver_ne, stackRot_ne, stackSwap_ne, stackNip_ne, stackTuck_ne]
  rw [if_neg g62]
  by_cases g63 : inst.opcode = 166
  · rw [if_pos g63]
    first
      | (simp; done)
      | (split <;> simp
         done)
      | solve_by_elim [opPush_ne, opNumPush_ne, opCat_ne, opSplitArm_ne,
          bitwiseArm_ne, divModArm_ne, opBin2Num_ne, opNum2Bin_ne, opCheckLockTime_ne,
          opCheckSequence_ne, opIf_ne, opElse_ne, opEndIf_ne, opVerifyArm_ne, opToAlt_ne,
          opFromAlt_ne, opIfDup_ne, opPickRoll_ne, opEqual_ne, opEqualVerify_ne,
          unaryNumArm_ne, binaryNumArm_ne, opNumEqualVerify_ne, opWithin_ne, hashArm_ne,
          opCheckSig_ne, opCheckMultiSig_ne, stackArm_ne, stackDrop_ne, stackDup_ne,
          stackOver_ne, stackRot_ne, stackSwap_ne, stackNip_ne, stackTuck_ne]
  rw [if_neg g63]
  by_cases g64 : inst.opcode = 167
  · rw [if_pos g64]
    first
      | (simp; done)
      | (split <;> simp
         done)
      | solve_by_elim [opPush_ne, opNumPush_ne, opCat_ne, opSplitArm_ne,
          bitwiseArm_ne, divModArm_ne, opBin2Num_ne, opNum2Bin_ne, opCheckLockTime_ne,
          opCheckSequence_ne, opIf_ne, opElse_ne, opEndIf_ne, opVerifyArm_ne, opToAlt_ne,
          opFromAlt_ne, opIfDup_ne, opPickRoll_ne, opEqual_ne, opEqualVerify_ne,
          unaryNumArm_ne, binaryNumArm_ne, opNumEqualVerify_ne, opWithin_ne, hashArm_ne,
          opCheckSig_ne, opCheckMultiSig_ne, stackArm_ne, stackDrop_ne, stackDup_ne,
          stackOver_ne, stackRot_ne, stackSwap_ne, stackNip_ne, stackTuck_ne]
  rw [if_neg g64]
  by_cases g65 : inst.opcode = 168
  · rw [if_pos g65]
    first
      | (simp; done)
      | (split <;> simp
         done)
      | solve_by_elim [opPush_ne, opNumPush_ne, opCat_ne, opSplitArm_ne,
          bitwiseArm_ne, divModArm_ne, opBin2Num_ne, opNum2Bin_ne, opCheckLockTime_ne,
          opCheckSequence_ne, opIf_ne, opElse_ne, opEndIf_ne, opVerifyArm_ne, opToAlt_ne,
          opFromAlt_ne, opIfDup_ne, opPickRoll_ne, opEqual_ne, opEqualVerify_ne,
          unaryNumArm_ne, binaryNumArm_ne, opNumEqualVerify_ne, opWithin_ne, hashArm_ne,
          opCheckSig_ne, opCheckMultiSig_ne, stackArm_ne, stackDrop_ne, stackDup_ne,
          stackOver_ne, stackRot_ne, stackSwap_ne, stackNip_ne, stackTuck_ne]
  rw [if_neg g65]
  by_cases g66 : inst.opcode = 169
  · rw [if_pos g66]
    first
      | (simp; done)
      | (split <;> simp
         done)
      | solve_by_elim [opPush_ne, opNumPush_ne, opCat_ne, opSplitArm_ne,
          bitwiseArm_ne, divModArm_ne, opBin2Num_ne, opNum2Bin_ne, opCheckLockTime_ne,
          opCheckSequence_ne, opIf_ne, opElse_ne, opEndIf_ne, opVerifyArm_ne, opToAlt_ne,
          opFromAlt_ne, opIfDup_ne, opPickRoll_ne, opEqual_ne, opEqualVerify_ne,
          unaryNumArm_ne, binaryNumArm_ne, opNumEqualVerify_ne, opWithin_ne, hashArm_ne,
          opCheckSig_ne, opCheckMultiSig_ne, stackArm_ne, stackDrop_ne, stackDup_ne,
          stackOver_ne, stackRot_ne, stackSwap_ne, stackNip_ne, stackTuck_ne]
  rw [if_neg g66]
  by_cases g67 : inst.opcode = 170
  · rw [if_pos g67]
    first
      | (simp; done)
      | (split <;> simp
         done)
      | solve_by_elim [opPush_ne, opNumPush_ne, opCat_ne, opSplitArm_ne,
          bitwiseArm_ne, divModArm_ne, opBin2Num_ne, opNum2Bin_ne, opCheckLockTime_ne,
          opCheckSequence_ne, opIf_ne, opElse_ne, opEndIf_ne, opVerifyArm_ne, opToAlt_ne,
          opFromAlt_ne, opIfDup_ne, opPickRoll_ne, opEqual_ne, opEqualVerify_ne,
          unaryNumArm_ne, binaryNumArm_ne, opNumEqualVerify_ne, opWithin_ne, hashArm_ne,
          opCheckSig_ne, opCheckMultiSig_ne, stackArm_ne, stackDrop_ne, stackDup_ne,
          stackOver_ne, stackRot_ne, stackSwap_ne, stackNip_ne, stackTuck_ne]
  rw [if_neg g67]
  by_cases g68 : inst.opcode = 171
  · rw [if_pos g68]
    first
      | (simp; done)
      | (split <;> simp
         done)
      | solve_by_elim [opPush_ne, opNumPush_ne, opCat_ne, opSplitArm_ne,
          bitwiseArm_ne, divModArm_ne, opBin2Num_ne, opNum2Bin_ne, opCheckLockTime_ne,
          opCheckSequence_ne, opIf_ne, opElse_ne, opEndIf_ne, opVerifyArm_ne, opToAlt_ne,
          opFromAlt_ne, opIfDup_ne, opPickRoll_ne, opEqual_ne, opEqualVerify_ne,
          unaryNumArm_ne, binaryNumArm_ne, opNumEqualVerify_ne, opWithin_ne, hashArm_ne,
          opCheckSig_ne, opCheckMultiSig_ne, stackArm_ne, stackDrop_ne, stackDup_ne,
          stackOver_ne, stackRot_ne, stackSwap_ne, stackNip_ne, stackTuck_ne]
  rw [if_neg g68]
  by_cases g69 : inst.opcode = 172 ∨ inst.opcode = 173
  · rw [if_pos g69]
    first
      | (simp; done)
      | (split <;> simp
         done)
      | solve_by_elim [opPush_ne, opNumPush_ne, opCat_ne, opSplitArm_ne,
          bitwiseArm_ne, divModArm_ne, opBin2Num_ne, opNum2Bin_ne, opCheckLockTime_ne,
          opCheckSequence_ne, opIf_ne, opElse_ne, opEndIf_ne, opVerifyArm_ne, opToAlt_ne,
          opFromAlt_ne, opIfDup_ne, opPickRoll_ne, opEqual_ne, opEqualVerify_ne,
          unaryNumArm_ne, binaryNumArm_ne, opNumEqualVerify_ne, opWithin_ne, hashArm_ne,
          opCheckSig_ne, opCheckMultiSig_ne, stackArm_ne, stackDrop_ne, stackDup_ne,
          stackOver_ne, stackRot_ne, stackSwap_ne, stackNip_ne, stackTuck_ne]
  rw [if_neg g69]
  by_cases g70 : inst.opcode = 174 ∨ inst.opcode = 175
  · rw [if_pos g70]
    first
      | (simp; done)
      | (split <;> simp
         done)
      | solve_by_elim [opPush_ne, opNumPush_ne, opCat_ne, opSplitArm_ne,
          bitwiseArm_ne, divModArm_ne, opBin2Num_ne, opNum2Bin_ne, opCheckLockTime_ne,
          opCheckSequence_ne, opIf_ne, opElse_ne, opEndIf_ne, opVerifyArm_ne, opToAlt_ne,
          opFromAlt_ne, opIfDup_ne, opPickRoll_ne, opEqual_ne, opEqualVerify_ne,
          unaryNumArm_ne, binaryNumArm_ne, opNumEqualVerify_ne, opWithin_ne, hashArm_ne,
          opCheckSig_ne, opCheckMultiSig_ne, stackArm_ne, stackDrop_ne, stackDup_ne,
          stackOver_ne, stackRot_ne, stackSwap_ne, stackNip_ne, stackTuck_ne]
  rw [if_neg g70]
  by_cases g71 : inst.opcode = 80 ∨ inst.opcode = 98 ∨ inst.opcode = 137 ∨
      inst.opcode = 138
  · rw [if_pos g71]
    first
      | (simp; done)
      | (split <;> simp
         done)
      | solve_by_elim [opPush_ne, opNumPush_ne, opCat_ne, opSplitArm_ne,
          bitwiseArm_ne, divModArm_ne, opBin2Num_ne, opNum2Bin_ne, opCheckLockTime_ne,
          opCheckSequence_ne, opIf_ne, opElse_ne, opEndIf_ne, opVerifyArm_ne, opToAlt_ne,
          opFromAlt_ne, opIfDup_ne, opPickRoll_ne, opEqual_ne, opEqualVerify_ne,
          unaryNumArm_ne, binaryNumArm_ne, opNumEqualVerify_ne, opWithin_ne, hashArm_ne,
          opCheckSig_ne, opCheckMultiSig_ne, stackArm_ne, stackDrop_ne, stackDup_ne,
          stackOver_ne, stackRot_ne, stackSwap_ne, stackNip_ne, stackTuck_ne]
  rw [if_neg g71]
  by_cases g72 : inst.opcode = 101 ∨ inst.opcode = 102
  · rw [if_pos g72]
    first
      | (simp; done)
      | (split <;> simp
         done)
      | solve_by_elim [opPush_ne, opNumPush_ne, opCat_ne, opSplitArm_ne,
          bitwiseArm_ne, divModArm_ne, opBin2Num_ne, opNum2Bin_ne, opCheckLockTime_ne,
          opCheckSequence_ne, opIf_ne, opElse_ne, opEndIf_ne, opVerifyArm_ne, opToAlt_ne,
          opFromAlt_ne, opIfDup_ne, opPickRoll_ne, opEqual_ne, opEqualVerify_ne,
          unaryNumArm_ne, binaryNumArm_ne, opNumEqualVerify_ne, opWithin_ne, hashArm_ne,
          opCheckSig_ne, opCheckMultiSig_ne, stackArm_ne, stackDrop_ne, stackDup_ne,
          stackOver_ne, stackRot_ne, stackSwap_ne, stackNip_ne, stackTuck_ne]
  rw [if_neg g72]
  simp


theorem getInstruction_ne (script : Bytes) (pos : Nat) :
    getInstruction script pos ≠ .err .Cleanstack := by
  unfold getInstruction
  repeat' split
  all_goals simp

theorem dataSizeCheck_ne (flags : VerificationFlags) (executing : Bool)
    (inst : Instruction) : dataSizeCheck flags executing inst ≠ .err .Cleanstack := by
  unfold dataSizeCheck
  repeat' split
  all_goals simp

theorem evalStep_ne (o : Oracles) (flags : VerificationFlags)
    (version : SignatureVersion) (script : Bytes) (st : EvalState) :
    evalStep o flags version script st ≠ .err .Cleanstack := by
  unfold evalStep
  repeat' split
  all_goals try simp
  all_goals solve_by_elim [Res.err_name, getInstruction_ne, dataSizeCheck_ne,
    runOpcode_ne]

theorem evalLoop_ne (o : Oracles) (flags : VerificationFlags)
    (version : SignatureVersion) (script : Bytes) :
    ∀ (fuel : Nat) (st : EvalState),
      evalLoop o flags version script fuel st ≠ .err .Cleanstack := by
  intro fuel
  induction fuel with
  | zero =>
    intro st
    unfold evalLoop
    repeat' split
    all_goals simp
  | succ n ih =>
    intro st
    unfold evalLoop
    repeat' split
    all_goals try simp
    all_goals solve_by_elim [Res.err_name, evalStep_ne, ih]

theorem eval_script_ne (o : Oracles) (stack : List Bytes) (script : Bytes)
    (flags : VerificationFlags) (version : SignatureVersion) :
    eval_script o stack script flags version ≠ .err .Cleanstack := by
  unfold eval_script
  repeat' split
  all_goals try simp
  all_goals solve_by_elim [Res.err_name, evalLoop_ne]

theorem witnessEvalTail_ne (o : Oracles) (stackVec : List Bytes)
    (script_pubkey : Bytes) (flags : VerificationFlags) :
    witnessEvalTail o stackVec script_pubkey flags ≠ .err .Cleanstack := by
  unfold witnessEvalTail
  repeat' split
  all_goals try simp
  all_goals solve_by_elim [Res.err_name, eval_script_ne]

theorem verify_witness_program_ne (o : Oracles) (witness : List Bytes)
    (wv : Nat) (wp : Bytes) (flags : VerificationFlags) :
    verify_witness_program o witness wv wp flags ≠ .err .Cleanstack := by
  unfold verify_witness_program
  repeat' split
  all_goals try simp
  all_goals solve_by_elim [witnessEvalTail_ne]



/-! ## The segwit-dispatch support lemmas (claim C8)

`verify_script` returns `Cleanstack` only from its own clean-stack check,
which runs with `clean = false` whenever the witness path was taken; these
lemmas make that flow explicit. -/


theorem parse_witness_not_p2sh (s : Bytes) (vp : Nat × Bytes)
    (h : parse_witness_program s = some vp) : is_pay_to_script_hash s = false := by
  by_contra hc
  rw [Bool.not_eq_false] at hc
  unfold is_pay_to_script_hash at hc
  rw [decide_eq_true_iff] at hc
  obtain ⟨hl, h0, hb1, h22⟩ := hc
  unfold parse_witness_program at h
  rw [if_neg (by omega), h0] at h
  simp at h

theorem verifyWitnessStage_ne (o : Oracles) (script_sig script_pubkey : Bytes)
    (witness : List Bytes) (flags : VerificationFlags) :
    verifyWitnessStage o script_sig script_pubkey witness flags ≠ .err .Cleanstack := by
  unfold verifyWitnessStage
  repeat' split
  all_goals try simp
  all_goals solve_by_elim [Res.err_name, verify_witness_program_ne]

theorem verifyP2shStage_ne (o : Oracles) (script_sig script_pubkey : Bytes)
    (witness : List Bytes) (flags : VerificationFlags) (version : SignatureVersion)
    (stack stack_copy : List Bytes) (had clean : Bool) :
    verifyP2shStage o script_sig script_pubkey witness flags version stack stack_copy
      had clean ≠ .err .Cleanstack := by
  unfold verifyP2shStage
  repeat' split
  all_goals try simp
  all_goals solve_by_elim [Res.err_name, eval_script_ne, verify_witness_program_ne]

theorem verifyWitnessStage_clean (o : Oracles) (script_sig script_pubkey : Bytes)
    (witness : List Bytes) (flags : VerificationFlags) (vp : Nat × Bytes)
    (pr : Bool × Bool)
    (hw : flags.verify_witness = true)
    (hpeq : parse_witness_program script_pubkey = some vp)
    (h : verifyWitnessStage o script_sig script_pubkey witness flags = .ok pr) :
    pr.2 = false := by
  unfold verifyWitnessStage at h
  rw [hw, hpeq] at h
  repeat' split at h
  all_goals first
  | (simp_all; done)
  | (cases h; rfl)

theorem verifyP2shStage_clean (o : Oracles) (script_sig script_pubkey : Bytes)
    (witness : List Bytes) (flags : VerificationFlags) (version : SignatureVersion)
    (stack stack_copy : List Bytes) (had : Bool) (pr : Bool × Bool × List Bytes)
    (h : verifyP2shStage o script_sig script_pubkey witness flags version stack
      stack_copy had false = .ok pr) : pr.2.1 = false := by
  unfold verifyP2shStage at h
  repeat' split at h
  all_goals first
  | (simp_all; done)
  | (cases h; rfl)

theorem verify_script_witness_ne_cleanstack
    (o : Oracles) (script_sig script_pubkey : Bytes) (witness : List Bytes)
    (flags : VerificationFlags) (version : SignatureVersion)
    (hw : flags.verify_witness = true)
    (hp : (parse_witness_program script_pubkey).isSome = true) :
    verify_script o script_sig script_pubkey witness flags version ≠
      .err .Cleanstack := by
  obtain ⟨vp, hpeq⟩ := Option.isSome_iff_exists.mp hp
  unfold verify_script
  split
  · simp
  cases h1 : eval_script o [] script_sig flags version with
  | err e1 =>
    dsimp only
    intro hc
    injection hc with he
    exact eval_script_ne o [] script_sig flags version (he ▸ h1)
  | panic =>
    simp
  | ok p1 =>
    obtain ⟨r1, stack1⟩ := p1
    dsimp only
    cases h2 : eval_script o stack1 script_pubkey flags version with
    | err e2 =>
      dsimp only
      intro hc
      injection hc with he
      exact eval_script_ne o stack1 script_pubkey flags version (he ▸ h2)
    | panic =>
      simp
    | ok p2 =>
      obtain ⟨res, stack2⟩ := p2
      dsimp only
      cases res with
      | false => simp
      | true =>
        rw [if_neg (fun hcon => hcon rfl)]
        cases h3 : verifyWitnessStage o script_sig script_pubkey witness flags with
        | err e3 =>
          dsimp only
          intro hc
          injection hc with he
          exact verifyWitnessStage_ne o script_sig script_pubkey witness flags
            (he ▸ h3)
        | panic =>
          simp
        | ok p3 =>
          obtain ⟨had1, clean1⟩ := p3
          have hclean1 : clean1 = false :=
            verifyWitnessStage_clean o script_sig script_pubkey witness flags vp
              (had1, clean1) hw hpeq h3
          subst hclean1
          dsimp only
          cases h4 : verifyP2shStage o script_sig script_pubkey witness flags version
              stack2 (if flags.verify_p2sh then stack1 else []) had1 false with
          | err e4 =>
            dsimp only
            intro hc
            injection hc with he
            exact verifyP2shStage_ne o script_sig script_pubkey witness flags version
              stack2 (if flags.verify_p2sh then stack1 else []) had1 false (he ▸ h4)
          | panic =>
            simp
          | ok p4 =>
            obtain ⟨had2, clean2, fs⟩ := p4
            have hclean2 : clean2 = false :=
              verifyP2shStage_clean o script_sig script_pubkey witness flags version
                stack2 (if flags.verify_p2sh then stack1 else []) had1
                (had2, clean2, fs) h4
            subst hclean2
            dsimp only
            rw [if_neg Bool.false_ne_true]
            dsimp only
            split_ifs <;> simp_all



/-! ## Loop-body characterizations (claims C3, C4 and C6)

One-step lemmas pinning down `evalStep` on plain (data-free) opcodes, the
`OP_EQUAL`/`OP_EQUALVERIFY` dispatch, the reserved-opcode arms, and the
stack-size invariant the loop maintains. -/


theorem evalStep_simple (o : Oracles) (flags : VerificationFlags)
    (version : SignatureVersion) (script : Bytes) (st : EvalState) (c : Nat)
    (hpc : st.pc < script.length) (hbyte : script.getD st.pc 0 = c)
    (hc1 : 78 < c) (hc2 : c ≤ 185) :
    evalStep o flags version script st =
      (if isCountable c ∧ (if isCountable c then st.op_count + 1 else st.op_count) >
          MAX_OPS_PER_SCRIPT then .err .OpCount
       else if isDisabledOp flags c then .err (.DisabledOpcode c)
       else if ¬ (st.exec_stack.all (fun x => x) ∨ (99 ≤ c ∧ c ≤ 104)) then
         .ok { st with pc := st.pc + 1,
                       op_count := if isCountable c then st.op_count + 1 else st.op_count }
       else
         match runOpcode o flags version script ⟨c, none, 1⟩
             (st.exec_stack.all (fun x => x))
             { st with pc := st.pc + 1,
                       op_count := if isCountable c then st.op_count + 1 else st.op_count }
           with
         | .err e => .err e
         | .panic => .panic
         | .ok st3 =>
           if st3.stack.length + st3.altstack.length > MAX_STACK_SIZE then .err .StackSize
           else .ok st3) := by
  unfold evalStep getInstruction
  rw [if_pos hpc, hbyte, if_neg (by omega), if_neg (by omega), if_neg (by omega)]
  dsimp only
  unfold dataSizeCheck
  dsimp only

theorem opcount_guard_false (c : Nat) (st : EvalState)
    (hoc : st.op_count + 1 ≤ MAX_OPS_PER_SCRIPT) :
    ¬ (isCountable c = true ∧
        (if isCountable c then st.op_count + 1 else st.op_count) >
          MAX_OPS_PER_SCRIPT) := by
  intro hcon
  obtain ⟨h1, h2⟩ := hcon
  rw [if_pos h1] at h2
  omega

theorem runOpcode_equal (o : Oracles) (flags : VerificationFlags)
    (version : SignatureVersion) (script : Bytes) (executing : Bool) (st : EvalState)
    (a b : Bytes) (rest : List Bytes) (hstack : st.stack = a :: b :: rest) :
    runOpcode o flags version script ⟨135, none, 1⟩ executing st =
      .ok { st with stack := (if a = b then [1] else []) :: rest } := by
  unfold runOpcode
  norm_num
  unfold opEqual
  rw [hstack]
  dsimp only
  by_cases hab : a = b
  · rw [if_pos hab, if_pos hab]
  · rw [if_neg hab, if_neg hab]

theorem runOpcode_equalverify (o : Oracles) (flags : VerificationFlags)
    (version : SignatureVersion) (script : Bytes) (executing : Bool) (st : EvalState)
    (a b : Bytes) (rest : List Bytes) (hstack : st.stack = a :: b :: rest) :
    runOpcode o flags version script ⟨136, none, 1⟩ executing st =
      (if a = b then .ok { st with stack := rest } else .err .EqualVerify) := by
  unfold runOpcode
  norm_num
  unfold opEqualVerify
  rw [hstack]

theorem runOpcode_reserved (o : Oracles) (flags : VerificationFlags)
    (version : SignatureVersion) (script : Bytes) (executing : Bool) (st : EvalState)
    (c : Nat) (hc : c = 80 ∨ c = 98 ∨ c = 137 ∨ c = 138) :
    runOpcode o flags version script ⟨c, none, 1⟩ executing st =
      if executing then .err (.DisabledOpcode c) else .ok st := by
  rcases hc with rfl | rfl | rfl | rfl <;> (unfold runOpcode; norm_num)

theorem runOpcode_verif (o : Oracles) (flags : VerificationFlags)
    (version : SignatureVersion) (script : Bytes) (executing : Bool) (st : EvalState)
    (c : Nat) (hc : c = 101 ∨ c = 102) :
    runOpcode o flags version script ⟨c, none, 1⟩ executing st =
      .err (.DisabledOpcode c) := by
  rcases hc with rfl | rfl <;> (unfold runOpcode; norm_num)

theorem evalStep_stack_invariant (o : Oracles) (flags : VerificationFlags)
    (version : SignatureVersion) (script : Bytes) (st st2 : EvalState)
    (h : evalStep o flags version script st = .ok st2) :
    (st2.stack = st.stack ∧ st2.altstack = st.altstack) ∨
      st2.stack.length + st2.altstack.length ≤ MAX_STACK_SIZE := by
  unfold evalStep at h
  repeat' split at h
  all_goals cases h
  all_goals try (left; exact ⟨rfl, rfl⟩)
  all_goals right
  all_goals omega

theorem evalLoop_stack_invariant (o : Oracles) (flags : VerificationFlags)
    (version : SignatureVersion) (script : Bytes) (fuel : Nat) :
    ∀ st stf : EvalState,
      st.stack.length + st.altstack.length ≤ MAX_STACK_SIZE →
      evalLoop o flags version script fuel st = .ok stf →
      stf.stack.length + stf.altstack.length ≤ MAX_STACK_SIZE := by
  induction fuel with
  | zero =>
    intro st stf hle h
    unfold evalLoop at h
    split at h
    · cases h
    · cases h
      exact hle
  | succ n ih =>
    intro st stf hle h
    unfold evalLoop at h
    by_cases hpc : st.pc < script.length
    · rw [if_pos hpc] at h
      cases heq : evalStep o flags version script st with
      | err e => rw [heq] at h; cases h
      | panic => rw [heq] at h; cases h
      | ok st2 =>
        rw [heq] at h
        dsimp only at h
        rcases evalStep_stack_invariant o flags version script st st2 heq with
          ⟨he1, he2⟩ | hle2
        · exact ih st2 stf (by rw [he1, he2]; exact hle) h
        · exact ih st2 stf hle2 h
    · rw [if_neg hpc] at h
      cases h
      exact hle



/-! ## The claims -/


/-- C1: The claim says the `push_data(signature)` pattern is removed from the
subscript exactly when the version is `Base` or `ForkId` and the ForkId bit
is unset, and that `WitnessV0` performs no removal.  The code agrees for
`WitnessV0` and `ForkId`, but under `Base` the match arm
`SignatureVersion::ForkId if sighash.fork_id` only shields `ForkId`, so a
`Base` signature with the ForkId bit set is still deleted.  Amended
characterization: removal happens under `Base` always, and under `ForkId`
exactly when the fork-id bit is unset. -/
theorem C1_subscript_removal (sub signature : Bytes) :
    signatureSubscript sub signature SignatureVersion.Base =
      .ok (findAndDelete sub (pushData signature)) ∧
    signatureSubscript sub signature SignatureVersion.WitnessV0 = .ok sub ∧
    signatureSubscript sub signature SignatureVersion.ForkId =
      (if (parse_hash_type SignatureVersion.ForkId signature).fork_id then .ok sub
       else .ok (findAndDelete sub (pushData signature))) := ⟨rfl, rfl, rfl⟩

/-- C1 counterexample: the one-byte signature `[0x41]` has the ForkId bit
(0x40) set in its sighash byte, so by the claim a `Base`-version
`OP_CHECKSIG` should leave the subscript `[0x01, 0x41]` (the literal push of
that signature) unchanged; the code deletes it. -/
theorem C1_subscript_removal_cex :
    (parse_hash_type SignatureVersion.Base [0x41]).fork_id = true ∧
    signatureSubscript [1, 0x41] [0x41] SignatureVersion.Base = .ok [] ∧
    signatureSubscript [1, 0x41] [0x41] SignatureVersion.Base ≠ .ok [1, 0x41] := by
  refine ⟨by decide, by decide, by decide⟩

/-- C2: `is_valid_signature_encoding` accepts exactly the strict-DER
signatures: length within [9, 73], tag `0x30`, declared length
`len - 3`, two `0x02`-tagged non-empty integers filling the signature
exactly (`len_r + len_s + 7 = len`), each with a clear high bit in its
first byte and no redundant leading zero. -/
theorem C2_der_encoding (sig : Bytes) :
    is_valid_signature_encoding sig = true ↔ DerSpec sig := by
  unfold is_valid_signature_encoding DerSpec
  by_cases g1 : sig.length < 9 ∨ sig.length > 73
  · rw [if_pos g1]
    simp only [Bool.false_eq_true, false_iff]
    intro hd
    omega
  rw [if_neg g1]
  push_neg at g1
  by_cases g2 : sig.getD 0 0 ≠ 0x30
  · rw [if_pos g2]
    simp only [Bool.false_eq_true, false_iff]
    intro hd
    exact g2 hd.2.2.1
  rw [if_neg g2]
  rw [not_ne_iff] at g2
  by_cases g3 : sig.getD 1 0 ≠ sig.length - 3
  · rw [if_pos g3]
    simp only [Bool.false_eq_true, false_iff]
    intro hd
    exact g3 hd.2.2.2.1
  rw [if_neg g3]
  rw [not_ne_iff] at g3
  by_cases g4 : sig.getD 3 0 + 5 ≥ sig.length
  · rw [if_pos g4]
    simp only [Bool.false_eq_true, false_iff]
    intro hd
    obtain ⟨-, -, -, -, -, -, h7, -, h9, -⟩ := hd
    omega
  rw [if_neg g4]
  push_neg at g4
  by_cases g5 : sig.getD 3 0 + sig.getD (sig.getD 3 0 + 5) 0 + 7 ≠ sig.length
  · rw [if_pos g5]
    simp only [Bool.false_eq_true, false_iff]
    intro hd
    exact g5 hd.2.2.2.2.2.2.1
  rw [if_neg g5]
  rw [not_ne_iff] at g5
  by_cases g6 : sig.getD 2 0 ≠ 2
  · rw [if_pos g6]
    simp only [Bool.false_eq_true, false_iff]
    intro hd
    exact g6 hd.2.2.2.2.1
  rw [if_neg g6]
  rw [not_ne_iff] at g6
  by_cases g7 : sig.getD 3 0 = 0
  · rw [if_pos g7]
    simp only [Bool.false_eq_true, false_iff]
    intro hd
    obtain ⟨-, -, -, -, -, -, -, h8, -⟩ := hd
    omega
  rw [if_neg g7]
  by_cases g8 : sig.getD 4 0 &&& 0x80 ≠ 0
  · rw [if_pos g8]
    simp only [Bool.false_eq_true, false_iff]
    intro hd
    exact g8 hd.2.2.2.2.2.2.2.2.2.1
  rw [if_neg g8]
  rw [not_ne_iff] at g8
  by_cases g9 : sig.getD 3 0 > 1 ∧ sig.getD 4 0 = 0 ∧ sig.getD 5 0 &&& 0x80 = 0
  · rw [if_pos g9]
    simp only [Bool.false_eq_true, false_iff]
    intro hd
    exact hd.2.2.2.2.2.2.2.2.2.2.2.1 ⟨g9.1, g9.2.1⟩ g9.2.2
  rw [if_neg g9]
  by_cases g10 : sig.getD (sig.getD 3 0 + 4) 0 ≠ 2
  · rw [if_pos g10]
    simp only [Bool.false_eq_true, false_iff]
    intro hd
    exact g10 hd.2.2.2.2.2.1
  rw [if_neg g10]
  rw [not_ne_iff] at g10
  by_cases g11 : sig.getD (sig.getD 3 0 + 5) 0 = 0
  · rw [if_pos g11]
    simp only [Bool.false_eq_true, false_iff]
    intro hd
    obtain ⟨-, -, -, -, -, -, -, -, h9, -⟩ := hd
    omega
  rw [if_neg g11]
  by_cases g12 : sig.getD (sig.getD 3 0 + 6) 0 &&& 0x80 ≠ 0
  · rw [if_pos g12]
    simp only [Bool.false_eq_true, false_iff]
    intro hd
    exact g12 hd.2.2.2.2.2.2.2.2.2.2.1
  rw [if_neg g12]
  rw [not_ne_iff] at g12
  by_cases g13 : sig.getD (sig.getD 3 0 + 5) 0 > 1 ∧ sig.getD (sig.getD 3 0 + 6) 0 = 0 ∧
      sig.getD (sig.getD 3 0 + 7) 0 &&& 0x80 = 0
  · rw [if_pos g13]
    simp only [Bool.false_eq_true, false_iff]
    intro hd
    exact hd.2.2.2.2.2.2.2.2.2.2.2.2 ⟨g13.1, g13.2.1⟩ g13.2.2
  rw [if_neg g13]
  simp only [true_iff]
  refine ⟨by omega, by omega, g2, g3, g6, g10, g5, by omega, by omega, g8, g12, ?_, ?_⟩
  · intro hc hb
    exact g9 ⟨hc.1, hc.2, hb⟩
  · intro hc hb
    exact g13 ⟨hc.1, hc.2, hb⟩



/-- C3: the combined main-stack/alt-stack size stays within
`MAX_STACK_SIZE = 1000` throughout evaluation.  Part 1: a successful loop
iteration either leaves both stacks untouched or ends within the limit
(the check runs after every executed opcode).  Part 2: consequently the
whole loop preserves the bound.  Part 3: when the dispatched opcode leaves
the combined size above the limit, the iteration returns
`Err(StackSize)` instead. -/
theorem C3_stack_limit :
    (∀ (o : Oracles) (flags : VerificationFlags) (version : SignatureVersion)
        (script : Bytes) (st st2 : EvalState),
      evalStep o flags version script st = .ok st2 →
      (st2.stack = st.stack ∧ st2.altstack = st.altstack) ∨
        st2.stack.length + st2.altstack.length ≤ MAX_STACK_SIZE) ∧
    (∀ (o : Oracles) (flags : VerificationFlags) (version : SignatureVersion)
        (script : Bytes) (fuel : Nat) (st stf : EvalState),
      st.stack.length + st.altstack.length ≤ MAX_STACK_SIZE →
      evalLoop o flags version script fuel st = .ok stf →
      stf.stack.length + stf.altstack.length ≤ MAX_STACK_SIZE) ∧
    (∀ (o : Oracles) (flags : VerificationFlags) (version : SignatureVersion)
        (script : Bytes) (st : EvalState) (inst : Instruction) (st3 : EvalState),
      getInstruction script st.pc = .ok inst →
      dataSizeCheck flags (st.exec_stack.all (fun x => x)) inst = .ok () →
      st.op_count + 1 ≤ MAX_OPS_PER_SCRIPT →
      isDisabledOp flags inst.opcode = false →
      (st.exec_stack.all (fun x => x) = true ∨
        (99 ≤ inst.opcode ∧ inst.opcode ≤ 104)) →
      runOpcode o flags version script inst (st.exec_stack.all (fun x => x))
        { st with pc := st.pc + inst.step,
                  op_count := if isCountable inst.opcode then st.op_count + 1
                              else st.op_count } = .ok st3 →
      st3.stack.length + st3.altstack.length > MAX_STACK_SIZE →
      evalStep o flags version script st = .err .StackSize) := by
  refine ⟨evalStep_stack_invariant, ?_, ?_⟩
  · intro o flags version script fuel st stf hle h
    exact evalLoop_stack_invariant o flags version script fuel st stf hle h
  · intro o flags version script st inst st3 hinst hdata hoc hdis hexec hrun hgt
    unfold evalStep
    rw [hinst]
    dsimp only
    rw [hdata]
    dsimp only
    rw [if_neg (opcount_guard_false inst.opcode st hoc),
      if_neg (by rw [hdis]; exact Bool.false_ne_true),
      if_neg (not_not_intro hexec), hrun]
    dsimp only
    rw [if_pos hgt]

set_option maxRecDepth 8192 in
/-- C3 witness: an `OP_1` on a 1000-element stack makes the iteration fail
with `StackSize`; a regular `OP_1` run stays within the limit. -/
theorem C3_stack_limit_witness :
    evalStep dummyOracles {} .Base [0x51]
      ⟨List.replicate 1000 [], [], [], 0, 0, 0⟩ = .err .StackSize ∧
    (⟨[[1]], [], [], 1, 0, 0⟩ : EvalState).stack.length +
      (⟨[[1]], [], [], 1, 0, 0⟩ : EvalState).altstack.length ≤ MAX_STACK_SIZE := by
  constructor
  · exact C3_stack_limit.2.2 dummyOracles {} .Base [0x51]
      ⟨List.replicate 1000 [], [], [], 0, 0, 0⟩ ⟨0x51, none, 1⟩
      ⟨[1] :: List.replicate 1000 [], [], [], 1, 0, 0⟩
      (by decide) (by decide) (by decide) (by decide) (Or.inl (by decide))
      (by decide) (by decide)
  · exact C3_stack_limit.2.1 dummyOracles {} .Base [0x51] 2 ⟨[], [], [], 0, 0, 0⟩
      ⟨[[1]], [], [], 1, 0, 0⟩ (by decide) (by decide)

/-- C4: with at least two stack items, `OP_EQUAL` pops both and pushes the
one-byte string `[0x01]` on equality and the empty string on inequality,
and `OP_EQUALVERIFY` pops both, pushes nothing on success and fails with
`EqualVerify` exactly when they differ. -/
theorem C4_equal_semantics (o : Oracles) (flags : VerificationFlags)
    (version : SignatureVersion) (script : Bytes) (executing : Bool) (st : EvalState)
    (a b : Bytes) (rest : List Bytes) (hstack : st.stack = a :: b :: rest) :
    runOpcode o flags version script ⟨135, none, 1⟩ executing st =
      .ok { st with stack := (if a = b then [1] else []) :: rest } ∧
    runOpcode o flags version script ⟨136, none, 1⟩ executing st =
      (if a = b then .ok { st with stack := rest } else .err .EqualVerify) := by
  exact ⟨runOpcode_equal o flags version script executing st a b rest hstack,
    runOpcode_equalverify o flags version script executing st a b rest hstack⟩

/-- C4 witness: `OP_EQUAL` on equal and unequal pairs, `OP_EQUALVERIFY` on
an unequal pair. -/
theorem C4_equal_semantics_witness :
    runOpcode dummyOracles {} .Base [] ⟨135, none, 1⟩ true
      ⟨[[1], [1]], [], [], 0, 0, 0⟩ = .ok ⟨[[1]], [], [], 0, 0, 0⟩ ∧
    runOpcode dummyOracles {} .Base [] ⟨135, none, 1⟩ true
      ⟨[[1], [2]], [], [], 0, 0, 0⟩ = .ok ⟨[[]], [], [], 0, 0, 0⟩ ∧
    runOpcode dummyOracles {} .Base [] ⟨136, none, 1⟩ true
      ⟨[[1], [2]], [], [], 0, 0, 0⟩ = .err .EqualVerify := by
  refine ⟨?_, ?_, ?_⟩
  · have h := C4_equal_semantics dummyOracles {} .Base [] true
      ⟨[[1], [1]], [], [], 0, 0, 0⟩ [1] [1] [] rfl
    simpa using h.1
  · have h := C4_equal_semantics dummyOracles {} .Base [] true
      ⟨[[1], [2]], [], [], 0, 0, 0⟩ [1] [2] [] rfl
    simpa using h.1
  · have h := C4_equal_semantics dummyOracles {} .Base [] true
      ⟨[[1], [2]], [], [], 0, 0, 0⟩ [1] [2] [] rfl
    simpa using h.2



/-- C5: `cast_to_bool` holds exactly when some byte before the last is
non-zero or the last byte is neither `0x00` nor `0x80`; in particular the
empty sequence, all-zero sequences and negative zero (zeros ending in
`0x80`) are falsy. -/
theorem C5_cast_to_bool :
    (∀ data : Bytes, cast_to_bool data = true ↔
      ((∃ x ∈ data.dropLast, x ≠ 0) ∨
        (∃ l, data.getLast? = some l ∧ l ≠ 0 ∧ l ≠ 0x80))) ∧
    cast_to_bool [] = false ∧
    (∀ n, cast_to_bool (List.replicate n 0) = false) ∧
    (∀ n, cast_to_bool (List.replicate n 0 ++ [0x80]) = false) := by
  have main : ∀ data : Bytes, cast_to_bool data = true ↔
      ((∃ x ∈ data.dropLast, x ≠ 0) ∨
        (∃ l, data.getLast? = some l ∧ l ≠ 0 ∧ l ≠ 0x80)) := by
    intro data
    rcases List.eq_nil_or_concat data with rfl | ⟨ys, l, rfl⟩
    · simp [cast_to_bool]
    · simp only [List.concat_eq_append]
      have h1 : (ys ++ [l]).isEmpty = false := by simp
      have h4 : (ys ++ [l]).getD ((ys ++ [l]).length - 1) 0 = l := by
        rw [List.length_append]
        simp [List.getD_append_right]
      have hconc : ∀ x, (ys ++ [l]).getLast? = some x ↔ x = l := by
        intro x
        rw [List.getLast?_concat]
        simp [eq_comm]
      unfold cast_to_bool
      rw [List.dropLast_concat, h1, h4]
      by_cases hany : ys.any (fun x => x ≠ 0) = true
      · rw [hany]
        simp only [Bool.false_eq_true, if_false, if_true]
        simp only [List.any_eq_true, decide_eq_true_eq] at hany
        simp only [true_iff]
        exact Or.inl hany
      · rw [Bool.not_eq_true] at hany
        rw [hany]
        simp only [Bool.false_eq_true, if_false]
        simp only [List.any_eq_false, decide_eq_true_eq] at hany
        constructor
        · intro h
          refine Or.inr ⟨l, List.getLast?_concat ys, ?_⟩
          simpa using h
        · intro h
          rcases h with ⟨x, hx, hne⟩ | ⟨x, hlast, hne0, hne80⟩
          · exact absurd hne (hany x hx)
          · have hx : x = l := (hconc x).1 hlast
            subst hx
            simpa using And.intro hne0 hne80
  refine ⟨main, rfl, ?_, ?_⟩
  · intro n
    cases hcb : cast_to_bool (List.replicate n 0)
    · rfl
    · exfalso
      rcases (main _).1 hcb with ⟨x, hx, hne⟩ | ⟨l, hl, hne0, -⟩
      · exact hne (List.eq_of_mem_replicate (List.mem_of_mem_dropLast hx))
      · exact hne0 (List.eq_of_mem_replicate (List.mem_of_getLast?_eq_some hl))
  · intro n
    cases hcb : cast_to_bool (List.replicate n 0 ++ [0x80])
    · rfl
    · exfalso
      rcases (main _).1 hcb with ⟨x, hx, hne⟩ | ⟨l, hl, -, hne80⟩
      · rw [List.dropLast_concat] at hx
        exact hne (List.eq_of_mem_replicate hx)
      · rw [List.getLast?_concat] at hl
        cases hl
        exact hne80 rfl

/-- C6: the reserved opcodes `OP_RESERVED` (80), `OP_VER` (98),
`OP_RESERVED1` (137) and `OP_RESERVED2` (138) make the loop iteration fail
with `DisabledOpcode` exactly when they sit in a taken branch; in a
non-executing branch the iteration steps past them, only advancing `pc`
and the opcode counter.  `OP_VERIF` (101) and `OP_VERNOTIF` (102) fail the
iteration even in a non-executing branch. -/
theorem C6_reserved_opcodes (o : Oracles) (flags : VerificationFlags)
    (version : SignatureVersion) (script : Bytes) (st : EvalState) (c : Nat)
    (hpc : st.pc < script.length) (hbyte : script.getD st.pc 0 = c)
    (hoc : st.op_count + 1 ≤ MAX_OPS_PER_SCRIPT) :
    ((c = 80 ∨ c = 98 ∨ c = 137 ∨ c = 138) →
      (st.exec_stack.all (fun x => x) = true →
        evalStep o flags version script st = .err (.DisabledOpcode c)) ∧
      (st.exec_stack.all (fun x => x) = false →
        evalStep o flags version script st =
          .ok { st with pc := st.pc + 1,
                        op_count := if isCountable c then st.op_count + 1
                                    else st.op_count })) ∧
    ((c = 101 ∨ c = 102) →
      evalStep o flags version script st = .err (.DisabledOpcode c)) := by
  constructor
  · intro hres
    have hdis : isDisabledOp flags c = false := by
      rcases hres with rfl | rfl | rfl | rfl <;> rfl
    have hc1 : 78 < c := by rcases hres with rfl | rfl | rfl | rfl <;> omega
    have hc2 : c ≤ 185 := by rcases hres with rfl | rfl | rfl | rfl <;> omega
    constructor
    · intro hexec
      rw [evalStep_simple o flags version script st c hpc hbyte hc1 hc2,
        if_neg (opcount_guard_false c st hoc),
        if_neg (by rw [hdis]; exact Bool.false_ne_true),
        if_neg (not_not_intro (Or.inl hexec)), hexec,
        runOpcode_reserved o flags version script true _ c hres, if_pos rfl]
    · intro hexec
      rw [evalStep_simple o flags version script st c hpc hbyte hc1 hc2,
        if_neg (opcount_guard_false c st hoc),
        if_neg (by rw [hdis]; exact Bool.false_ne_true),
        if_pos ?_]
      intro hcon
      rcases hcon with hx | hx
      · rw [hexec] at hx
        exact Bool.false_ne_true hx
      · rcases hres with rfl | rfl | rfl | rfl <;> omega
  · intro hver
    have hdis : isDisabledOp flags c = false := by
      rcases hver with rfl | rfl <;> rfl
    have hc1 : 78 < c := by rcases hver with rfl | rfl <;> omega
    have hc2 : c ≤ 185 := by rcases hver with rfl | rfl <;> omega
    rw [evalStep_simple o flags version script st c hpc hbyte hc1 hc2,
      if_neg (opcount_guard_false c st hoc),
      if_neg (by rw [hdis]; exact Bool.false_ne_true),
      if_neg (not_not_intro (Or.inr (by rcases hver with rfl | rfl <;> omega))),
      runOpcode_verif o flags version script _ _ c hver]

/-- C6 witness: `OP_RESERVED1` executing fails, `OP_RESERVED` in a
non-taken branch is stepped over, `OP_VERIF` in a non-taken branch still
fails. -/
theorem C6_reserved_opcodes_witness :
    evalStep dummyOracles {} .Base [137] ⟨[], [], [], 0, 0, 0⟩ =
      .err (.DisabledOpcode 137) ∧
    evalStep dummyOracles {} .Base [80] ⟨[], [], [false], 0, 0, 0⟩ =
      .ok ⟨[], [], [false], 1, 0, 0⟩ ∧
    evalStep dummyOracles {} .Base [101] ⟨[], [], [false], 0, 0, 0⟩ =
      .err (.DisabledOpcode 101) := by
  refine ⟨?_, ?_, ?_⟩
  · exact ((C6_reserved_opcodes dummyOracles {} .Base [137] ⟨[], [], [], 0, 0, 0⟩ 137
      (by decide) (by decide) (by decide)).1 (by decide)).1 (by decide)
  · have h := ((C6_reserved_opcodes dummyOracles {} .Base [80]
      ⟨[], [], [false], 0, 0, 0⟩ 80 (by decide) (by decide) (by decide)).1
      (by decide)).2 (by decide)
    exact h.trans (by decide)
  · exact (C6_reserved_opcodes dummyOracles {} .Base [101]
      ⟨[], [], [false], 0, 0, 0⟩ 101 (by decide) (by decide) (by decide)).2 (by decide)

/-- C7: `check_minimal_push` matches the smallest-opcode table for data up
to 65535 bytes (`OP_0`, `OP_1..OP_16`, `OP_1NEGATE`, direct-length pushes,
`OP_PUSHDATA1`, `OP_PUSHDATA2`); amended in the final case: for data longer
than 65535 bytes the source accepts **every** opcode (its final branch is
literally `true`), not only `OP_PUSHDATA4`. -/
theorem C7_minimal_push (data : Bytes) (opcode : Nat) :
    check_minimal_push data opcode = true ↔ minimalPushSpec data opcode := by
  rcases data with _ | ⟨b, rest⟩
  · simp [check_minimal_push, minimalPushSpec]
  · unfold check_minimal_push minimalPushSpec
    simp only [List.isEmpty_cons, List.getD_cons_zero, List.length_cons,
      Bool.false_eq_true, if_false, reduceCtorEq]
    split_ifs <;>
      first
        | (simp only [decide_eq_true_eq]; omega)
        | simp
        | omega

/-- C7 counterexample: a 65536-byte push is accepted by
`check_minimal_push` with opcode `OP_0`, although the claim's table demands
`OP_PUSHDATA4` (78) for data longer than 65535 bytes. -/
theorem C7_minimal_push_cex :
    check_minimal_push (List.replicate 65536 0) 0 = true ∧ (0 : Nat) ≠ 78 := by
  have key : ∀ data : Bytes, 65535 < data.length →
      check_minimal_push data 0 = true := by
    intro data hlen
    have h0 : data.isEmpty = false := by
      rcases data with _ | ⟨b, r⟩
      · simp at hlen
      · rfl
    unfold check_minimal_push
    rw [if_neg (by rw [h0]; exact Bool.false_ne_true),
      if_neg (by intro hcon; omega),
      if_neg (by intro hcon; omega),
      if_neg (by omega), if_neg (by omega), if_neg (by omega)]
  exact ⟨key _ (by rw [List.length_replicate]; omega), by decide⟩

/-- C9: witness-v1 dispatch at the failing input.  The witness stack
`[[], [0x50]]` has two elements whose last element begins with the annex
tag `0x50`, so by the claim it should be stripped, leaving a key-path spend
(post-annex size 1, `Ok(true)`).  The source instead tests the **witness
program's** last byte for the annex tag and sizes the key path by the
pre-annex stack length, so it keeps both elements, treats the run as
script-path, and rejects the 1-byte control block with
`WitnessProgramWrongLength`. -/
theorem C9_taproot_annex :
    ([0x50] : Bytes).getD 0 0 = ANNEX_TAG ∧
    verify_witnessv1_program dummyOracles [[], [0x50]] 1 (List.replicate 32 0) {} =
      .err .WitnessProgramWrongLength := by
  exact ⟨rfl, by decide⟩

/-- C10: the empty signature is canonical inside the checksig opcodes: its
encoding check succeeds for every flag set and version (no `SignatureDer`,
`SignatureHighS`, `SignatureHashtype` or `ForkId` error), while
`check_signature` returns `false` for it without consulting the external
checker. -/
theorem C10_empty_signature :
    (∀ (o : Oracles) (flags : VerificationFlags) (version : SignatureVersion),
      check_signature_encoding o [] flags version = .ok ()) ∧
    (∀ (o : Oracles) (pubkey script_code : Bytes) (version : SignatureVersion),
      check_signature o [] pubkey script_code version = false) := by
  constructor
  · intro o flags version
    rfl
  · intro o pubkey script_code version
    unfold check_signature
    cases o.publicFromSlice pubkey <;> rfl



/-- C8: segwit dispatch and the clean-stack check in `verify_script`.
Part 1: with `verify_witness` set and a scriptPubKey that parses as a
witness program, a non-empty scriptSig fails with `WitnessMalleated`
(before any witness program runs).  Part 2: under the same two conditions
the run can never end in `Cleanstack` — taking the witness path forces the
clean-stack flag off.  Part 3: with no witness path (the flag off or the
scriptPubKey not a witness program), `verify_cleanstack` and its
`verify_p2sh` precondition set, and a successful non-P2SH run, a final
stack of length other than 1 yields `Cleanstack`. -/
theorem C8_witness_cleanstack (o : Oracles) (flags : VerificationFlags)
    (version : SignatureVersion) :
    (∀ (script_sig script_pubkey : Bytes) (witness : List Bytes) (wv : Nat)
        (wp : Bytes) (r1 : Bool) (stack1 stack2 : List Bytes),
      flags.verify_witness = true →
      parse_witness_program script_pubkey = some (wv, wp) →
      ¬ (flags.verify_sigpushonly = true ∧ ¬ is_push_only script_sig = true) →
      script_sig ≠ [] →
      eval_script o [] script_sig flags version = .ok (r1, stack1) →
      eval_script o stack1 script_pubkey flags version = .ok (true, stack2) →
      verify_script o script_sig script_pubkey witness flags version =
        .err .WitnessMalleated) ∧
    (∀ (script_sig script_pubkey : Bytes) (witness : List Bytes),
      flags.verify_witness = true →
      (parse_witness_program script_pubkey).isSome = true →
      verify_script o script_sig script_pubkey witness flags version ≠
        .err .Cleanstack) ∧
    (∀ (script_sig script_pubkey : Bytes) (witness : List Bytes) (r1 : Bool)
        (stack1 stack2 : List Bytes),
      flags.verify_cleanstack = true →
      flags.verify_p2sh = true →
      (flags.verify_witness = false ∨ parse_witness_program script_pubkey = none) →
      is_pay_to_script_hash script_pubkey = false →
      ¬ (flags.verify_sigpushonly = true ∧ ¬ is_push_only script_sig = true) →
      eval_script o [] script_sig flags version = .ok (r1, stack1) →
      eval_script o stack1 script_pubkey flags version = .ok (true, stack2) →
      stack2.length ≠ 1 →
      verify_script o script_sig script_pubkey witness flags version =
        .err .Cleanstack) := by
  refine ⟨?_, ?_, ?_⟩
  · intro script_sig script_pubkey witness wv wp r1 stack1 stack2 hw hpeq hpo hne h1 h2
    rcases script_sig with _ | ⟨sb, srest⟩
    · exact absurd rfl hne
    · unfold verify_script
      rw [if_neg hpo, h1]
      dsimp only
      rw [h2]
      dsimp only
      rw [if_neg (fun hcon => hcon rfl)]
      unfold verifyWitnessStage
      rw [hw, if_pos rfl, hpeq]
      dsimp only
      rw [if_pos (show ¬ (sb :: srest).isEmpty = true by simp)]
  · intro script_sig script_pubkey witness hw hp
    exact verify_script_witness_ne_cleanstack o script_sig script_pubkey witness
      flags version hw hp
  · intro script_sig script_pubkey witness r1 stack1 stack2 hcs hp2 hdisj hnp2sh hpo
      h1 h2 hlen
    have hstage : verifyWitnessStage o script_sig script_pubkey witness flags =
        .ok (false, flags.verify_cleanstack) := by
      unfold verifyWitnessStage
      rcases hdisj with hwf | hpnone
      · rw [hwf, if_neg Bool.false_ne_true]
      · by_cases hwv : flags.verify_witness = true
        · rw [hwv, if_pos rfl, hpnone]
        · rw [Bool.not_eq_true] at hwv
          rw [hwv, if_neg Bool.false_ne_true]
    have hp2stage : verifyP2shStage o script_sig script_pubkey witness flags version
        stack2 (if flags.verify_p2sh then stack1 else []) false
        flags.verify_cleanstack = .ok (false, flags.verify_cleanstack, stack2) := by
      unfold verifyP2shStage
      rw [if_neg (fun hcon => Bool.false_ne_true (hnp2sh ▸ hcon.2))]
    unfold verify_script
    rw [if_neg hpo, h1]
    dsimp only
    rw [h2]
    dsimp only
    rw [if_neg (fun hcon => hcon rfl), hstage]
    dsimp only
    rw [hp2stage]
    dsimp only
    rw [hcs, if_pos rfl, hp2, if_neg (fun hcon => hcon rfl), if_pos hlen]

/-- C8 witness: with `verify_witness`/`verify_p2sh` set, scriptPubKey
`[0x51, 2, 7, 7]` parses as a witness program (version 1, program
`[7, 7]`), so the non-empty scriptSig `[0x51]` is `WitnessMalleated` and
the run cannot end in `Cleanstack`; without `verify_witness`, the
two-element final stack of `OP_1 / OP_1` under `verify_cleanstack` is
`Cleanstack`. -/
theorem C8_witness_cleanstack_witness :
    verify_script dummyOracles [0x51] [0x51, 2, 7, 7] []
      { verify_witness := true, verify_p2sh := true } .Base =
      .err .WitnessMalleated ∧
    verify_script dummyOracles [0x51] [0x51, 2, 7, 7] []
      { verify_witness := true, verify_p2sh := true } .Base ≠
      .err .Cleanstack ∧
    verify_script dummyOracles [0x51] [0x51] []
      { verify_p2sh := true, verify_cleanstack := true } .Base =
      .err .Cleanstack := by
  refine ⟨?_, ?_, ?_⟩
  · exact (C8_witness_cleanstack dummyOracles
      { verify_witness := true, verify_p2sh := true } .Base).1
      [0x51] [0x51, 2, 7, 7] [] 1 [7, 7] true [[1]] [[7, 7], [1], [1]]
      (by decide) (by decide) (by decide) (by decide) (by decide) (by decide)
  · exact (C8_witness_cleanstack dummyOracles
      { verify_witness := true, verify_p2sh := true } .Base).2.1
      [0x51] [0x51, 2, 7, 7] [] (by decide) (by decide)
  · exact (C8_witness_cleanstack dummyOracles
      { verify_p2sh := true, verify_cleanstack := true } .Base).2.2
      [0x51] [0x51] [] true [[1]] [[1], [1]]
      (by decide) (by decide) (Or.inl (by decide)) (by decide) (by decide)
      (by decide) (by decide) (by decide)



end LightBitcoin
